import Mathlib

/-!
# Vulkan command-buffer recorder (`cocos/renderer/gfx-vulkan/VKCommandBuffer.cpp`)

A shallow embedding of `CCVKCommandBuffer`.  The recorder state is a structure,
every member function is a function on that structure, and the native `vkCmd*`
calls a member function issues are returned as a list, in issue order.

Conventions of the embedding:

* `uint` values are natural numbers; arithmetic that can wrap is reduced
  modulo `2^32` explicitly (`u32`, `subU32`);
* a pointer to an object is the object (with its address, so that pointer
  comparison is comparison of values); a nullable pointer is an `Option`;
* indexing a `vector` outside its bounds, or dereferencing a null pointer, has no
  defined result: the function returns `none`;
* a `float` is never computed with, only copied or converted, and is kept
  symbolically (`F32`).
-/

namespace CCVK

/-! ## Machine integers -/

/-- Largest value of the engine's 32-bit `uint`; also the "nothing dirty" sentinel. -/
def UINT_MAX : Nat := 4294967295

/-- Reduction of a natural number to a 32-bit `uint`. -/
def u32 (n : Nat) : Nat := n % 4294967296

/-- Subtraction of two `uint` values, wrapping below zero. -/
def subU32 (a b : Nat) : Nat := (a % 4294967296 + (4294967296 - b % 4294967296)) % 4294967296

/-- A `float` value: either supplied by the caller as is, or converted from an integer. -/
inductive F32 where
  | raw (bits : Nat)
  | ofInt (i : Int)
  deriving DecidableEq, Repr

/-! ## Enumerations of the graphics abstraction -/

inductive CommandBufferType where
  | PRIMARY
  | SECONDARY
  deriving DecidableEq, Repr

inductive PrimitiveMode where
  | POINT_LIST
  | LINE_LIST
  | LINE_STRIP
  | LINE_LOOP
  | LINE_LIST_ADJACENCY
  | LINE_STRIP_ADJACENCY
  | ISO_LINE_LIST
  | TRIANGLE_LIST
  | TRIANGLE_STRIP
  | TRIANGLE_FAN
  | TRIANGLE_LIST_ADJACENCY
  | TRIANGLE_STRIP_ADJACENCY
  | TRIANGLE_PATCH_ADJACENCY
  | QUAD_PATCH_LIST
  deriving DecidableEq, Repr

inductive PipelineBindPoint where
  | GRAPHICS
  | COMPUTE
  | RAY_TRACING
  deriving DecidableEq, Repr

inductive VkPipelineBindPoint where
  | VK_PIPELINE_BIND_POINT_GRAPHICS
  | VK_PIPELINE_BIND_POINT_COMPUTE
  | VK_PIPELINE_BIND_POINT_RAY_TRACING
  deriving DecidableEq, Repr

/-- Table `VK_PIPELINE_BIND_POINTS`, indexed by the abstract bind point. -/
def VK_PIPELINE_BIND_POINTS : PipelineBindPoint → VkPipelineBindPoint
  | .GRAPHICS => .VK_PIPELINE_BIND_POINT_GRAPHICS
  | .COMPUTE => .VK_PIPELINE_BIND_POINT_COMPUTE
  | .RAY_TRACING => .VK_PIPELINE_BIND_POINT_RAY_TRACING

/-! ## GPU objects read by the recorder -/

/-- Object `CCVKGPUDescriptorSet`: one native descriptor set per back buffer. -/
structure CCVKGPUDescriptorSet where
  addr : Nat
  instances : List Nat
  deriving DecidableEq, Repr

/-- Object `CCVKDescriptorSet`, reduced to what `gpuDescriptorSet()` returns. -/
structure DescriptorSet where
  gpuDescriptorSet : Option CCVKGPUDescriptorSet
  deriving DecidableEq, Repr

structure CCVKGPUDescriptorSetLayout where
  defaultDescriptorSet : Nat
  deriving DecidableEq, Repr

structure CCVKGPUPipelineLayout where
  setLayouts : List CCVKGPUDescriptorSetLayout
  dynamicOffsetOffsets : List Nat
  dynamicOffsetCount : Nat
  vkPipelineLayout : Nat
  deriving DecidableEq, Repr

structure CCVKGPUPipelineState where
  addr : Nat
  bindPoint : PipelineBindPoint
  primitive : PrimitiveMode
  gpuPipelineLayout : CCVKGPUPipelineLayout
  vkPipeline : Nat
  deriving DecidableEq, Repr

/-- Object `CCVKPipelineState`, reduced to what `gpuPipelineState()` returns. -/
structure PipelineState where
  gpuPipelineState : CCVKGPUPipelineState
  deriving DecidableEq, Repr

structure CCVKGPUBuffer where
  vkBuffer : Nat
  startOffset : Nat
  count : Nat
  instanceSize : Nat
  stride : Nat
  isDrawIndirectByIndex : Bool
  deriving DecidableEq, Repr

structure DrawInfo where
  vertexCount : Nat
  firstVertex : Nat
  indexCount : Nat
  firstIndex : Nat
  vertexOffset : Nat
  instanceCount : Nat
  firstInstance : Nat
  deriving DecidableEq, Repr

structure CCVKGPUInputAssembler where
  addr : Nat
  gpuVertexBuffers : List CCVKGPUBuffer
  gpuIndexBuffer : Option CCVKGPUBuffer
  gpuIndirectBuffer : Option CCVKGPUBuffer
  vertexBuffers : List Nat
  vertexBufferOffsets : List Nat
  deriving DecidableEq, Repr

/-- Object `CCVKInputAssembler`: its GPU object and the counts `extractDrawInfo` copies out. -/
structure InputAssembler where
  gpuInputAssembler : CCVKGPUInputAssembler
  drawInfo : DrawInfo
  deriving DecidableEq, Repr

/-- The fields of `CCVKGPUDevice` the recorder reads. -/
structure CCVKGPUDevice where
  curBackBufferIndex : Nat
  useMultiDrawIndirect : Bool
  deriving DecidableEq, Repr

structure CCVKGPUBufferView where
  offset : Nat
  deriving DecidableEq, Repr

/-- Object `CCVKBuffer`, reduced to `gpuBuffer()` and `gpuBufferView()`. -/
structure Buffer where
  gpuBuffer : CCVKGPUBuffer
  gpuBufferView : CCVKGPUBufferView
  deriving DecidableEq, Repr

structure DispatchInfo where
  groupCountX : Nat
  groupCountY : Nat
  groupCountZ : Nat
  indirectBuffer : Option Buffer
  indirectOffset : Nat
  deriving DecidableEq, Repr

/-- Size in bytes of `VkDrawIndexedIndirectCommand` (five 32-bit fields). -/
def sizeofVkDrawIndexedIndirectCommand : Nat := 20

/-- Size in bytes of `VkDrawIndirectCommand` (four 32-bit fields). -/
def sizeofVkDrawIndirectCommand : Nat := 16

/-! ## Render passes, framebuffers, textures and the swapchain -/

inductive LoadOp where
  | LOAD
  | CLEAR
  | DISCARD
  deriving DecidableEq, Repr

/-- A texel format; only `UNKNOWN` is told apart from the others by the recorder. -/
inductive Format where
  | UNKNOWN
  | known (code : Nat)
  deriving DecidableEq, Repr

/-- An abstract access kind (`AccessType`), as its index into `THSVS_ACCESS_TYPES`. -/
abbrev AccessType := Nat

/-- A native access type of the synchronization helper library (`ThsvsAccessType`). -/
abbrev ThsvsAccessType := Nat

structure ColorAttachment where
  format : Format
  loadOp : LoadOp
  endAccess : AccessType
  deriving DecidableEq, Repr

structure DepthStencilAttachment where
  format : Format
  depthLoadOp : LoadOp
  endAccess : AccessType
  deriving DecidableEq, Repr

structure Color where
  x : F32
  y : F32
  z : F32
  w : F32
  deriving DecidableEq, Repr

structure Rect where
  x : Int
  y : Int
  width : Nat
  height : Nat
  deriving DecidableEq, Repr

inductive StencilFace where
  | FRONT
  | BACK
  | ALL
  deriving DecidableEq, Repr

/-- The type of the member `_curStencilWriteMask`. -/
structure StencilWriteMask where
  face : StencilFace
  write_mask : Nat
  deriving DecidableEq, Repr

/-- The type of the member `_curStencilCompareMask`. -/
structure StencilCompareMask where
  face : StencilFace
  reference : Int
  compareMask : Nat
  deriving DecidableEq, Repr

structure Viewport where
  left : Int
  top : Int
  width : Nat
  height : Nat
  minDepth : F32
  maxDepth : F32
  deriving DecidableEq, Repr

/-- The union `VkClearValue`, by the member written last. -/
inductive VkClearValue where
  | color (x y z w : F32)
  | depthStencil (depth : F32) (stencil : Nat)
  deriving DecidableEq, Repr

structure VkRect2D where
  x : Int
  y : Int
  width : Nat
  height : Nat
  deriving DecidableEq, Repr

structure VkViewport where
  x : F32
  y : F32
  width : F32
  height : F32
  minDepth : F32
  maxDepth : F32
  deriving DecidableEq, Repr

inductive VkSubpassContents where
  | VK_SUBPASS_CONTENTS_INLINE
  | VK_SUBPASS_CONTENTS_SECONDARY_COMMAND_BUFFERS
  deriving DecidableEq, Repr

structure CCVKGPURenderPass where
  colorAttachments : List ColorAttachment
  depthStencilAttachment : DepthStencilAttachment
  clearValues : List VkClearValue
  vkRenderPass : Nat
  deriving DecidableEq, Repr

/-- Object `CCVKRenderPass`, reduced to what `gpuRenderPass()` returns. -/
structure RenderPass where
  gpuRenderPass : CCVKGPURenderPass
  deriving DecidableEq, Repr

inductive ThsvsImageLayout where
  | THSVS_IMAGE_LAYOUT_OPTIMAL
  | THSVS_IMAGE_LAYOUT_GENERAL
  | THSVS_IMAGE_LAYOUT_GENERAL_AND_PRESENTATION
  deriving DecidableEq, Repr

/-- Object `CCVKGPUTexture` without its access types, which live in `AccessState` under the
texture's address. -/
structure CCVKGPUTexture where
  addr : Nat
  vkImage : Nat
  aspectMask : Nat
  layoutRule : ThsvsImageLayout
  deriving DecidableEq, Repr

structure CCVKGPUTextureView where
  gpuTexture : CCVKGPUTexture
  deriving DecidableEq, Repr

/-- Object `CCVKTexture`, reduced to what `gpuTexture()` returns. -/
structure Texture where
  gpuTexture : CCVKGPUTexture
  deriving DecidableEq, Repr

/-- Object `CCVKGPUSwapchain` without its two vectors of access types, which live in
`AccessState` under the swapchain's address.  The framebuffer map is keyed by the address of
the framebuffer object. -/
structure CCVKGPUSwapchain where
  addr : Nat
  curImageIndex : Nat
  swapchainImages : List Nat
  vkSwapchainFramebufferListMap : List (Nat × List Nat)
  deriving DecidableEq, Repr

structure CCVKGPUFramebuffer where
  addr : Nat
  gpuRenderPass : CCVKGPURenderPass
  gpuColorViews : List (Option CCVKGPUTextureView)
  gpuDepthStencilView : Option CCVKGPUTextureView
  vkFramebuffer : Nat
  swapchain : Option CCVKGPUSwapchain
  isOffscreen : Bool
  deriving DecidableEq, Repr

/-- Object `CCVKFramebuffer`, reduced to what `gpuFBO()` returns. -/
structure Framebuffer where
  gpuFBO : CCVKGPUFramebuffer
  deriving DecidableEq, Repr

/-- Object `CCVKQueue`, reduced to `gpuQueue()->queueFamilyIndex`. -/
structure Queue where
  queueFamilyIndex : Nat
  deriving DecidableEq, Repr

/-- The Resource Access State: the mutable `currentAccessTypes` of every texture (by texture
address) and the `swapchainImageAccessTypes` and `depthStencilImageAccessTypes` vectors of
every swapchain (by swapchain address). -/
structure AccessState where
  textures : Nat → List ThsvsAccessType
  swapchainImageAccessTypes : Nat → List (List ThsvsAccessType)
  depthStencilImageAccessTypes : Nat → List (List ThsvsAccessType)

/-- A resource whose access types are tracked. -/
inductive Resource where
  | texture (addr : Nat)
  | swapchainImage (swapchain : Nat) (index : Nat)
  | depthStencilImage (swapchain : Nat) (index : Nat)
  deriving DecidableEq, Repr

/-- The access types currently recorded for a resource; `none` for an image index outside
the swapchain's vector. -/
def AccessState.get (st : AccessState) : Resource → Option (List ThsvsAccessType)
  | .texture addr => some (st.textures addr)
  | .swapchainImage sc i => (st.swapchainImageAccessTypes sc)[i]?
  | .depthStencilImage sc i => (st.depthStencilImageAccessTypes sc)[i]?

/-- The effect of `accessTypes.assign(...)` on the vector of a resource; `none` for an image
index outside the swapchain's vector. -/
def AccessState.assign (st : AccessState) (r : Resource) (v : List ThsvsAccessType) :
    Option AccessState :=
  match r with
  | .texture addr => some { st with textures := Function.update st.textures addr v }
  | .swapchainImage sc i =>
    if i < (st.swapchainImageAccessTypes sc).length then
      some { st with
        swapchainImageAccessTypes :=
          Function.update st.swapchainImageAccessTypes sc
            ((st.swapchainImageAccessTypes sc).set i v) }
    else none
  | .depthStencilImage sc i =>
    if i < (st.depthStencilImageAccessTypes sc).length then
      some { st with
        depthStencilImageAccessTypes :=
          Function.update st.depthStencilImageAccessTypes sc
            ((st.depthStencilImageAccessTypes sc).set i v) }
    else none

/-! ## Native barrier structures and the synchronization helper library -/

structure VkMemoryBarrier where
  srcAccessMask : Nat
  dstAccessMask : Nat
  deriving DecidableEq, Repr

structure VkImageSubresourceRange where
  aspectMask : Nat
  baseMipLevel : Nat
  levelCount : Nat
  baseArrayLayer : Nat
  layerCount : Nat
  deriving DecidableEq, Repr

/-- The native image barrier, as the helper library fills it in. -/
structure VkImageMemoryBarrier where
  srcAccessMask : Nat
  dstAccessMask : Nat
  oldLayout : Nat
  newLayout : Nat
  srcQueueFamilyIndex : Nat
  dstQueueFamilyIndex : Nat
  image : Nat
  subresourceRange : VkImageSubresourceRange
  deriving DecidableEq, Repr

structure ThsvsGlobalBarrier where
  prevAccesses : List ThsvsAccessType
  nextAccesses : List ThsvsAccessType
  deriving DecidableEq, Repr

structure ThsvsImageBarrier where
  prevAccesses : List ThsvsAccessType
  nextAccesses : List ThsvsAccessType
  prevLayout : ThsvsImageLayout
  nextLayout : ThsvsImageLayout
  discardContents : Bool
  srcQueueFamilyIndex : Nat
  dstQueueFamilyIndex : Nat
  image : Nat
  subresourceRange : VkImageSubresourceRange
  deriving DecidableEq, Repr

/-- What the recorder takes from outside this file for barriers: the table
`THSVS_ACCESS_TYPES`, and the two helper-library functions, each giving the source stages, the
destination stages and the native barrier it derives for one barrier (its three outputs). -/
structure Thsvs where
  THSVS_ACCESS_TYPES : AccessType → ThsvsAccessType
  thsvsGetVulkanMemoryBarrier : ThsvsGlobalBarrier → Nat × Nat × VkMemoryBarrier
  thsvsGetVulkanImageMemoryBarrier : ThsvsImageBarrier → Nat × Nat × VkImageMemoryBarrier

def VK_PIPELINE_STAGE_TOP_OF_PIPE_BIT : Nat := 0x00000001
def VK_PIPELINE_STAGE_EARLY_FRAGMENT_TESTS_BIT : Nat := 0x00000100
def VK_PIPELINE_STAGE_LATE_FRAGMENT_TESTS_BIT : Nat := 0x00000200
def VK_PIPELINE_STAGE_COLOR_ATTACHMENT_OUTPUT_BIT : Nat := 0x00000400
def VK_PIPELINE_STAGE_TRANSFER_BIT : Nat := 0x00001000
def VK_PIPELINE_STAGE_BOTTOM_OF_PIPE_BIT : Nat := 0x00002000
def VK_ACCESS_COLOR_ATTACHMENT_READ_BIT : Nat := 0x00000080
def VK_ACCESS_COLOR_ATTACHMENT_WRITE_BIT : Nat := 0x00000100
def VK_ACCESS_DEPTH_STENCIL_ATTACHMENT_READ_BIT : Nat := 0x00000200
def VK_ACCESS_DEPTH_STENCIL_ATTACHMENT_WRITE_BIT : Nat := 0x00000400
def VK_IMAGE_ASPECT_COLOR_BIT : Nat := 0x00000001
def VK_QUEUE_FAMILY_IGNORED : Nat := 4294967295
def VK_REMAINING_MIP_LEVELS : Nat := 4294967295
def VK_REMAINING_ARRAY_LAYERS : Nat := 4294967295

/-- Levels of the compile-time switch `BARRIER_DEDUCTION_LEVEL`. -/
def BARRIER_DEDUCTION_LEVEL_NONE : Nat := 0
def BARRIER_DEDUCTION_LEVEL_BASIC : Nat := 1
def BARRIER_DEDUCTION_LEVEL_FULL : Nat := 2

/-- The caller's `GlobalBarrier`; each access array is given with its count as a list. -/
structure GlobalBarrier where
  prevAccesses : List AccessType
  nextAccesses : List AccessType
  deriving DecidableEq, Repr

/-- The caller's `TextureBarrier`; `texture = none` names the current swapchain image. -/
structure TextureBarrier where
  prevAccesses : List AccessType
  nextAccesses : List AccessType
  discardContents : Bool
  srcQueue : Option Queue
  dstQueue : Option Queue
  texture : Option Texture
  deriving DecidableEq, Repr

inductive VkIndexType where
  | VK_INDEX_TYPE_UINT16
  | VK_INDEX_TYPE_UINT32
  deriving DecidableEq, Repr

inductive VkImageLayout where
  | VK_IMAGE_LAYOUT_UNDEFINED
  | VK_IMAGE_LAYOUT_GENERAL
  | VK_IMAGE_LAYOUT_TRANSFER_SRC_OPTIMAL
  | VK_IMAGE_LAYOUT_TRANSFER_DST_OPTIMAL
  deriving DecidableEq, Repr

structure TextureSubresLayers where
  mipLevel : Nat
  baseArrayLayer : Nat
  layerCount : Nat
  deriving DecidableEq, Repr

structure Offset where
  x : Int
  y : Int
  z : Int
  deriving DecidableEq, Repr

structure Extent where
  width : Nat
  height : Nat
  depth : Nat
  deriving DecidableEq, Repr

/-- The caller's `TextureBlit`: one region of a blit. -/
structure TextureBlit where
  srcSubres : TextureSubresLayers
  srcOffset : Offset
  srcExtent : Extent
  dstSubres : TextureSubresLayers
  dstOffset : Offset
  dstExtent : Extent
  deriving DecidableEq, Repr

structure VkImageSubresourceLayers where
  aspectMask : Nat
  mipLevel : Nat
  baseArrayLayer : Nat
  layerCount : Nat
  deriving DecidableEq, Repr

structure VkOffset3D where
  x : Int
  y : Int
  z : Int
  deriving DecidableEq, Repr

/-- The native blit region; the two corners of each box are `Offsets0` and `Offsets1`. -/
structure VkImageBlit where
  srcSubresource : VkImageSubresourceLayers
  srcOffsets0 : VkOffset3D
  srcOffsets1 : VkOffset3D
  dstSubresource : VkImageSubresourceLayers
  dstOffsets0 : VkOffset3D
  dstOffsets1 : VkOffset3D
  deriving DecidableEq, Repr

inductive VkStencilFaceFlagBits where
  | VK_STENCIL_FACE_FRONT_BIT
  | VK_STENCIL_FACE_BACK_BIT
  deriving DecidableEq, Repr

/-! ## Native calls -/

/-- The native recording calls, with the arguments the recorder chooses. -/
inductive VkCmd where
  | BindPipeline (bindPoint : VkPipelineBindPoint) (vkPipeline : Nat)
  | BindDescriptorSets (bindPoint : VkPipelineBindPoint) (vkPipelineLayout : Nat)
      (firstSet : Nat) (descriptorSetCount : Nat) (descriptorSets : List Nat)
      (dynamicOffsetCount : Nat) (dynamicOffsets : List Nat)
  | DrawIndexedIndirect (vkBuffer : Nat) (offset : Nat) (drawCount : Nat) (stride : Nat)
  | DrawIndirect (vkBuffer : Nat) (offset : Nat) (drawCount : Nat) (stride : Nat)
  | DrawIndexed (indexCount instanceCount firstIndex vertexOffset firstInstance : Nat)
  | Draw (vertexCount instanceCount firstVertex firstInstance : Nat)
  | Dispatch (groupCountX groupCountY groupCountZ : Nat)
  | DispatchIndirect (vkBuffer : Nat) (offset : Nat)
  | ExecuteCommands (commandBufferCount : Nat) (commandBuffers : List Nat)
  | PipelineBarrier (srcStageMask dstStageMask : Nat) (memoryBarriers : List VkMemoryBarrier)
      (imageMemoryBarriers : List VkImageMemoryBarrier)
  | BeginRenderPass (vkRenderPass : Nat) (framebuffer : Nat) (clearValues : List VkClearValue)
      (renderArea : VkRect2D) (contents : VkSubpassContents)
  | EndRenderPass
  | SetViewport (viewport : VkViewport)
  | SetScissor (scissor : VkRect2D)
  | BindVertexBuffers (firstBinding bindingCount : Nat) (buffers : List Nat) (offsets : List Nat)
  | BindIndexBuffer (vkBuffer : Nat) (offset : Nat) (indexType : VkIndexType)
  | ThsvsCmdPipelineBarrier (globalBarrier : Option ThsvsGlobalBarrier)
      (imageBarriers : List ThsvsImageBarrier)
  | BlitImage (srcImage : Nat) (srcImageLayout : VkImageLayout) (dstImage : Nat)
      (dstImageLayout : VkImageLayout) (regions : List VkImageBlit) (filter : Nat)
  | SetStencilWriteMask (faceMask : VkStencilFaceFlagBits) (writeMask : Nat)
  | SetStencilReference (faceMask : VkStencilFaceFlagBits) (reference : Nat)
  | SetStencilCompareMask (faceMask : VkStencilFaceFlagBits) (compareMask : Nat)
  deriving DecidableEq, Repr

/-- Recognises the native bind-descriptor-sets call. -/
def VkCmd.isBindDescriptorSets : VkCmd → Bool
  | .BindDescriptorSets _ _ _ _ _ _ _ => true
  | _ => false

/-! ## Recorder state -/

structure CCVKGPUCommandBuffer where
  began : Bool
  vkCommandBuffer : Nat
  deriving DecidableEq, Repr

/-- The members of `CCVKCommandBuffer` (and of its base class) used by the recorder. -/
structure CCVKCommandBuffer where
  type : CommandBufferType
  gpuCommandBuffer : CCVKGPUCommandBuffer
  curGPUPipelineState : Option CCVKGPUPipelineState
  curGPUInputAssember : Option CCVKGPUInputAssembler
  curGPUFBO : Option CCVKGPUFramebuffer
  curGPUDescriptorSets : List (Option CCVKGPUDescriptorSet)
  curVkDescriptorSets : List Nat
  curDynamicOffsetPtrs : List (List Nat)
  curDynamicOffsetCounts : List Nat
  curDynamicOffsets : List Nat
  firstDirtyDescriptorSet : Nat
  numDrawCalls : Nat
  numInstances : Nat
  numTriangles : Nat
  pendingQueue : List Nat
  vkCommandBuffers : List Nat
  accessTypes : List ThsvsAccessType
  imageMemoryBarriers : List VkImageMemoryBarrier
  curViewport : Viewport
  curScissor : Rect
  blitRegions : List VkImageBlit
  curStencilWriteMask : StencilWriteMask
  curStencilCompareMask : StencilCompareMask
  deriving DecidableEq, Repr

namespace CCVKCommandBuffer

/-! ## `bindPipelineState`, `bindDescriptorSet` -/

/-- Member `bindPipelineState`: binds natively only when the pipeline differs from the cached one. -/
def bindPipelineState (s : CCVKCommandBuffer) (pso : PipelineState) :
    CCVKCommandBuffer × List VkCmd :=
  let gpuPipelineState := pso.gpuPipelineState
  if s.curGPUPipelineState ≠ some gpuPipelineState then
    ({ s with curGPUPipelineState := some gpuPipelineState },
      [VkCmd.BindPipeline (VK_PIPELINE_BIND_POINTS gpuPipelineState.bindPoint)
        gpuPipelineState.vkPipeline])
  else (s, [])

/-- Member `bindDescriptorSet`.  The `CCASSERT` on the set index is the `none` result.  The
four per-set vectors are sized together (by the initializer), so the writes to the
dynamic-offset vectors are at a valid index whenever the assertion holds. -/
def bindDescriptorSet (s : CCVKCommandBuffer) (set : Nat) (descriptorSet : DescriptorSet)
    (dynamicOffsetCount : Nat) (dynamicOffsets : List Nat) : Option CCVKCommandBuffer :=
  if s.curGPUDescriptorSets.length > set then
    let gpuDescriptorSet := descriptorSet.gpuDescriptorSet
    let s1 :=
      if s.curGPUDescriptorSets.getD set none ≠ gpuDescriptorSet then
        { s with
          curGPUDescriptorSets := s.curGPUDescriptorSets.set set gpuDescriptorSet
          firstDirtyDescriptorSet :=
            if set < s.firstDirtyDescriptorSet then set else s.firstDirtyDescriptorSet }
      else s
    let s2 :=
      if dynamicOffsetCount ≠ 0 then
        { s1 with
          curDynamicOffsetPtrs := s1.curDynamicOffsetPtrs.set set dynamicOffsets
          curDynamicOffsetCounts := s1.curDynamicOffsetCounts.set set dynamicOffsetCount
          firstDirtyDescriptorSet :=
            if set < s1.firstDirtyDescriptorSet then set else s1.firstDirtyDescriptorSet }
      else s1
    some s2
  else none

/-! ## Descriptor flush (`bindDescriptorSets`) -/

/-- The `memcpy` of the flush: `src` (already cut to the copied length) overwrites `dst`
from position `pos`.  Defined only when the destination range lies inside `dst`. -/
def memcpyAt (dst : List Nat) (pos : Nat) (src : List Nat) : Option (List Nat) :=
  if pos + src.length ≤ dst.length then
    some (dst.take pos ++ src ++ dst.drop (pos + src.length))
  else none

/-- The native descriptor set the flush selects for set `i`: the instance of the bound set
for the current back buffer, or the layout's default set when nothing is bound. -/
def flushDescriptorSet (gpuDevice : CCVKGPUDevice) (pipelineLayout : CCVKGPUPipelineLayout)
    (slot : Option CCVKGPUDescriptorSet) (i : Nat) : Option Nat :=
  match slot with
  | some gpuDescriptorSet => gpuDescriptorSet.instances[gpuDevice.curBackBufferIndex]?
  | none => (pipelineLayout.setLayouts[i]?).map (fun l => l.defaultDescriptorSet)

/-- One iteration of the loop of `bindDescriptorSets`, for set `i`.  The loop body writes
to `_curVkDescriptorSets` and `_curDynamicOffsets` only; these two vectors are threaded
through, the rest of the recorder is read. -/
def flushSet (gpuDevice : CCVKGPUDevice) (pipelineLayout : CCVKGPUPipelineLayout)
    (s : CCVKCommandBuffer) (acc : List Nat × List Nat) (i : Nat) :
    Option (List Nat × List Nat) := do
  let slot ← s.curGPUDescriptorSets[i]?
  let vkDescriptorSet ← flushDescriptorSet gpuDevice pipelineLayout slot i
  if acc.1.length ≤ i then none
  let hi ← pipelineLayout.dynamicOffsetOffsets[i + 1]?
  let lo ← pipelineLayout.dynamicOffsetOffsets[i]?
  let supplied ← s.curDynamicOffsetCounts[i]?
  let count := min (subU32 hi lo) supplied
  let curVk := acc.1.set i vkDescriptorSet
  if count > 0 then
    let src ← s.curDynamicOffsetPtrs[i]?
    if src.length < count then none
    let curDyn ← memcpyAt acc.2 lo (src.take count)
    pure (curVk, curDyn)
  else
    pure (curVk, acc.2)

/-- The effect of `vector::resize` on a vector of `uint`: truncate, or pad with zeros. -/
def resizeZero (v : List Nat) (n : Nat) : List Nat :=
  v.take n ++ List.replicate (n - v.length) 0

/-- Member `bindDescriptorSets`: the descriptor flush.  Returns the recorder after the flush
and the one native call it issues. -/
def bindDescriptorSets (bindPoint : VkPipelineBindPoint) (gpuDevice : CCVKGPUDevice)
    (s : CCVKCommandBuffer) : Option (CCVKCommandBuffer × VkCmd) := do
  let pipelineState ← s.curGPUPipelineState
  let pipelineLayout := pipelineState.gpuPipelineLayout
  let dynamicOffsetOffsets := pipelineLayout.dynamicOffsetOffsets
  let descriptorSetCount := u32 pipelineLayout.setLayouts.length
  let resized := resizeZero s.curDynamicOffsets pipelineLayout.dynamicOffsetCount
  let first := s.firstDirtyDescriptorSet
  let dirtyDescriptorSetCount := subU32 descriptorSetCount first
  let (curVk, curDyn) ←
    (List.range' first (descriptorSetCount - first)).foldlM
      (flushSet gpuDevice pipelineLayout s) (s.curVkDescriptorSets, resized)
  let dynamicOffsetStartIndex ← dynamicOffsetOffsets[first]?
  let dynamicOffsetEndIndex ← dynamicOffsetOffsets[u32 (first + dirtyDescriptorSetCount)]?
  let dynamicOffsetCount := subU32 dynamicOffsetEndIndex dynamicOffsetStartIndex
  if curVk.length ≤ first then none
  pure
    ({ s with
        curVkDescriptorSets := curVk
        curDynamicOffsets := curDyn
        firstDirtyDescriptorSet := UINT_MAX },
      VkCmd.BindDescriptorSets bindPoint pipelineLayout.vkPipelineLayout
        first dirtyDescriptorSetCount
        ((curVk.drop first).take dirtyDescriptorSetCount)
        dynamicOffsetCount
        ((curDyn.drop dynamicOffsetStartIndex).take dynamicOffsetCount))

/-- The guard of `draw` and `dispatch`: flush when the watermark is below the set count. -/
def flushIfDirty (bindPoint : VkPipelineBindPoint) (gpuDevice : CCVKGPUDevice)
    (s : CCVKCommandBuffer) : Option (CCVKCommandBuffer × List VkCmd) :=
  if s.firstDirtyDescriptorSet < s.curGPUDescriptorSets.length then
    (bindDescriptorSets bindPoint gpuDevice s).map (fun r => (r.1, [r.2]))
  else some (s, [])

/-- Conditions under which the flush of recorder `s`, with pipeline `p` bound, stays inside
every vector it indexes: the layout has no more sets than the recorder has slots and the
watermark is not beyond them, the per-set vectors have the size of the slot vector, the
dynamic-offset table has one entry more than the layout has sets, is non-decreasing and ends
within the layout's dynamic-offset count, every bound descriptor set has an instance for the
current back buffer, and the caller's offset arrays hold the values to be copied. -/
structure FlushReady (gpuDevice : CCVKGPUDevice) (s : CCVKCommandBuffer)
    (p : CCVKGPUPipelineState) : Prop where
  bound : s.curGPUPipelineState = some p
  first_le : s.firstDirtyDescriptorSet ≤ p.gpuPipelineLayout.setLayouts.length
  setCount_le : p.gpuPipelineLayout.setLayouts.length ≤ s.curGPUDescriptorSets.length
  slots_u32 : s.curGPUDescriptorSets.length ≤ UINT_MAX
  vk_len : s.curVkDescriptorSets.length = s.curGPUDescriptorSets.length
  ptrs_len : s.curDynamicOffsetPtrs.length = s.curGPUDescriptorSets.length
  counts_len : s.curDynamicOffsetCounts.length = s.curGPUDescriptorSets.length
  table_len : p.gpuPipelineLayout.dynamicOffsetOffsets.length
    = p.gpuPipelineLayout.setLayouts.length + 1
  table_mono : ∀ i, i < p.gpuPipelineLayout.setLayouts.length →
    p.gpuPipelineLayout.dynamicOffsetOffsets.getD i 0
      ≤ p.gpuPipelineLayout.dynamicOffsetOffsets.getD (i + 1) 0
  table_last : p.gpuPipelineLayout.dynamicOffsetOffsets.getD
    p.gpuPipelineLayout.setLayouts.length 0 ≤ p.gpuPipelineLayout.dynamicOffsetCount
  count_u32 : p.gpuPipelineLayout.dynamicOffsetCount ≤ UINT_MAX
  instances : ∀ ds, some ds ∈ s.curGPUDescriptorSets →
    gpuDevice.curBackBufferIndex < ds.instances.length
  supplied : ∀ i, i < p.gpuPipelineLayout.setLayouts.length →
    min (p.gpuPipelineLayout.dynamicOffsetOffsets.getD (i + 1) 0
        - p.gpuPipelineLayout.dynamicOffsetOffsets.getD i 0)
      (s.curDynamicOffsetCounts.getD i 0) ≤ (s.curDynamicOffsetPtrs.getD i []).length

/-- Conditions under which `draw` and `dispatch` are defined: when their guard triggers the
flush, the flush is ready. -/
def DrawReady (gpuDevice : CCVKGPUDevice) (s : CCVKCommandBuffer) : Prop :=
  s.firstDirtyDescriptorSet < s.curGPUDescriptorSets.length →
    ∃ p, FlushReady gpuDevice s p

/-! ## `draw`, `dispatch` -/

/-- The indirect branch of `draw`: the native indirect draws, in issue order. -/
def drawIndirectCmds (gpuDevice : CCVKGPUDevice) (gpuIndirectBuffer : CCVKGPUBuffer) :
    List VkCmd :=
  let drawInfoCount := gpuIndirectBuffer.count
  let offset :=
    gpuIndirectBuffer.startOffset + gpuDevice.curBackBufferIndex * gpuIndirectBuffer.instanceSize
  if gpuDevice.useMultiDrawIndirect then
    if gpuIndirectBuffer.isDrawIndirectByIndex then
      [VkCmd.DrawIndexedIndirect gpuIndirectBuffer.vkBuffer offset drawInfoCount
        sizeofVkDrawIndexedIndirectCommand]
    else
      [VkCmd.DrawIndirect gpuIndirectBuffer.vkBuffer offset drawInfoCount
        sizeofVkDrawIndirectCommand]
  else
    if gpuIndirectBuffer.isDrawIndirectByIndex then
      (List.range drawInfoCount).map (fun j =>
        VkCmd.DrawIndexedIndirect gpuIndirectBuffer.vkBuffer
          (offset + j * sizeofVkDrawIndexedIndirectCommand) 1 sizeofVkDrawIndexedIndirectCommand)
    else
      (List.range drawInfoCount).map (fun j =>
        VkCmd.DrawIndirect gpuIndirectBuffer.vkBuffer
          (offset + j * sizeofVkDrawIndirectCommand) 1 sizeofVkDrawIndirectCommand)

/-- The statistics update at the end of the direct branch of `draw`.  The counts of `drawInfo`
are `uint` values; the counters are `uint` and wrap. -/
def drawStatistics (s : CCVKCommandBuffer) (drawInfo : DrawInfo) (instanceCount : Nat)
    (hasIndexBuffer : Bool) : CCVKCommandBuffer :=
  let s1 :=
    { s with
      numDrawCalls := u32 (s.numDrawCalls + 1)
      numInstances := u32 (s.numInstances + drawInfo.instanceCount) }
  match s1.curGPUPipelineState with
  | some pipelineState =>
    let indexCount := if hasIndexBuffer then drawInfo.indexCount else drawInfo.vertexCount
    match pipelineState.primitive with
    | .TRIANGLE_LIST =>
      { s1 with numTriangles := u32 (s1.numTriangles + u32 (indexCount / 3 * instanceCount)) }
    | .TRIANGLE_STRIP =>
      { s1 with numTriangles := u32 (s1.numTriangles + u32 (subU32 indexCount 2 * instanceCount)) }
    | .TRIANGLE_FAN =>
      { s1 with numTriangles := u32 (s1.numTriangles + u32 (subU32 indexCount 2 * instanceCount)) }
    | _ => s1
  | none => s1

/-- The native call of the direct branch of `draw`. -/
def directDrawCmd (drawInfo : DrawInfo) (instanceCount : Nat) (hasIndexBuffer : Bool) : VkCmd :=
  if hasIndexBuffer then
    VkCmd.DrawIndexed drawInfo.indexCount instanceCount drawInfo.firstIndex
      drawInfo.vertexOffset drawInfo.firstInstance
  else
    VkCmd.Draw drawInfo.vertexCount instanceCount drawInfo.firstVertex drawInfo.firstInstance

/-- Member `draw`. -/
def draw (gpuDevice : CCVKGPUDevice) (s : CCVKCommandBuffer) (ia : InputAssembler) :
    Option (CCVKCommandBuffer × List VkCmd) := do
  let (s1, flushed) ← flushIfDirty .VK_PIPELINE_BIND_POINT_GRAPHICS gpuDevice s
  let gpuInputAssembler := ia.gpuInputAssembler
  match gpuInputAssembler.gpuIndirectBuffer with
  | some gpuIndirectBuffer =>
    pure (s1, flushed ++ drawIndirectCmds gpuDevice gpuIndirectBuffer)
  | none =>
    let drawInfo := ia.drawInfo
    let instanceCount := max drawInfo.instanceCount 1
    let hasIndexBuffer := gpuInputAssembler.gpuIndexBuffer.isSome && decide (drawInfo.indexCount > 0)
    pure (drawStatistics s1 drawInfo instanceCount hasIndexBuffer,
      flushed ++ [directDrawCmd drawInfo instanceCount hasIndexBuffer])

/-- The native call of `dispatch`. -/
def dispatchCmd (info : DispatchInfo) : VkCmd :=
  match info.indirectBuffer with
  | some indirectBuffer =>
    VkCmd.DispatchIndirect indirectBuffer.gpuBuffer.vkBuffer
      (indirectBuffer.gpuBuffer.startOffset + indirectBuffer.gpuBufferView.offset
        + info.indirectOffset)
  | none => VkCmd.Dispatch info.groupCountX info.groupCountY info.groupCountZ

/-- Member `dispatch`. -/
def dispatch (gpuDevice : CCVKGPUDevice) (s : CCVKCommandBuffer) (info : DispatchInfo) :
    Option (CCVKCommandBuffer × List VkCmd) := do
  let (s1, flushed) ← flushIfDirty .VK_PIPELINE_BIND_POINT_COMPUTE gpuDevice s
  pure (s1, flushed ++ [dispatchCmd info])

/-- The index or vertex count `draw` uses for the triangle statistics: the index count when
an index buffer is attached and the index count is positive, else the vertex count. -/
def drawCount (ia : InputAssembler) : Nat :=
  if ia.gpuInputAssembler.gpuIndexBuffer.isSome ∧ 0 < ia.drawInfo.indexCount then
    ia.drawInfo.indexCount
  else ia.drawInfo.vertexCount

/-- The instance count with 0 replaced by 1. -/
def drawInstances (ia : InputAssembler) : Nat :=
  if ia.drawInfo.instanceCount = 0 then 1 else ia.drawInfo.instanceCount

/-! ## `execute` -/

/-- The secondary command buffers, as the objects the pointers of `cmdBuffs` address. -/
abbrev Buffers := Nat → CCVKCommandBuffer

/-- The loop of `execute` over the remaining buffers: `validCount` handles have been stored
in `_vkCommandBuffers` so far.  A buffer with a pending handle has its front handle stored and
popped, and its three counters added to the recorder's. -/
def executeLoop (buffers : Buffers) (s : CCVKCommandBuffer) (validCount : Nat) :
    List Nat → Buffers × CCVKCommandBuffer × Nat
  | [] => (buffers, s, validCount)
  | c :: cs =>
    let cmdBuff := buffers c
    match cmdBuff.pendingQueue with
    | front :: rest =>
      executeLoop
        (Function.update buffers c { cmdBuff with pendingQueue := rest })
        { s with
          vkCommandBuffers := s.vkCommandBuffers.set validCount front
          numDrawCalls := u32 (s.numDrawCalls + cmdBuff.numDrawCalls)
          numInstances := u32 (s.numInstances + cmdBuff.numInstances)
          numTriangles := u32 (s.numTriangles + cmdBuff.numTriangles) }
        (validCount + 1) cs
    | [] => executeLoop buffers s validCount cs

/-- Member `execute`, on a recorder `s` that is none of the buffers of `cmdBuffs`.  Returns the
secondary buffers and the recorder after the call, and the native calls issued. -/
def execute (buffers : Buffers) (s : CCVKCommandBuffer) (cmdBuffs : List Nat) :
    Buffers × CCVKCommandBuffer × List VkCmd :=
  if cmdBuffs.length = 0 then (buffers, s, [])
  else
    let s0 := { s with vkCommandBuffers := resizeZero s.vkCommandBuffers cmdBuffs.length }
    let r := executeLoop buffers s0 0 cmdBuffs
    (r.1, r.2.1,
      if r.2.2 ≠ 0 then [VkCmd.ExecuteCommands r.2.2 (r.2.1.vkCommandBuffers.take r.2.2)]
      else [])

/-- The buffers of the list whose pending queue is not empty, in list order. -/
def withPending (buffers : Buffers) (cmdBuffs : List Nat) : List Nat :=
  cmdBuffs.filter (fun c => !(buffers c).pendingQueue.isEmpty)

/-- The front pending handle of each buffer of the list that has one, in list order. -/
def frontHandles (buffers : Buffers) (cmdBuffs : List Nat) : List Nat :=
  cmdBuffs.filterMap (fun c => (buffers c).pendingQueue.head?)

/-- A 32-bit counter after the amounts of `xs` have been added to it one by one. -/
def addAllU32 (a : Nat) (xs : List Nat) : Nat := xs.foldl (fun acc x => u32 (acc + x)) a

/-! ## `beginRenderPass`, `endRenderPass` -/

/-- The native framebuffer `beginRenderPass` passes on: the framebuffer's own handle when it is
offscreen, else the entry of the swapchain's framebuffer map for this framebuffer at the current
image index. -/
def nativeFramebuffer (gpuFBO : CCVKGPUFramebuffer) : Option Nat :=
  if gpuFBO.isOffscreen then some gpuFBO.vkFramebuffer
  else do
    let swapchain ← gpuFBO.swapchain
    let list ← swapchain.vkSwapchainFramebufferListMap.lookup gpuFBO.addr
    list[swapchain.curImageIndex]?

/-- The clear values `beginRenderPass` writes into the render pass: every slot but the last
takes the clear colour of its index, the last slot takes depth and stencil. -/
def setClearValues (clearValues : List VkClearValue) (colors : List Color) (depth : F32)
    (stencil : Int) : Option (List VkClearValue) :=
  let attachmentCount := clearValues.length
  if attachmentCount ≠ 0 then do
    let written ← (List.range (attachmentCount - 1)).foldlM
      (fun (cv : List VkClearValue) i => do
        let c ← colors[i]?
        pure (cv.set i (VkClearValue.color c.x c.y c.z c.w)))
      clearValues
    pure (written.set (attachmentCount - 1)
      (VkClearValue.depthStencil depth (stencil % 4294967296).toNat))
  else some clearValues

/-- The barriers `beginRenderPass` issues for load operations. -/
def loadOpBarriers (barrierDeductionLevel : Nat) (gpuRenderPass : CCVKGPURenderPass) :
    List VkCmd :=
  if barrierDeductionLevel ≥ BARRIER_DEDUCTION_LEVEL_BASIC then
    (if gpuRenderPass.colorAttachments.length ≠ 0
        ∧ gpuRenderPass.colorAttachments.head?.map (fun a => a.loadOp) = some LoadOp.LOAD then
      [VkCmd.PipelineBarrier VK_PIPELINE_STAGE_COLOR_ATTACHMENT_OUTPUT_BIT
        VK_PIPELINE_STAGE_COLOR_ATTACHMENT_OUTPUT_BIT
        [⟨VK_ACCESS_COLOR_ATTACHMENT_WRITE_BIT, VK_ACCESS_COLOR_ATTACHMENT_READ_BIT⟩] []]
      else [])
    ++ (if gpuRenderPass.depthStencilAttachment.depthLoadOp = LoadOp.LOAD then
      [VkCmd.PipelineBarrier VK_PIPELINE_STAGE_LATE_FRAGMENT_TESTS_BIT
        (VK_PIPELINE_STAGE_EARLY_FRAGMENT_TESTS_BIT ||| VK_PIPELINE_STAGE_LATE_FRAGMENT_TESTS_BIT)
        [⟨VK_ACCESS_DEPTH_STENCIL_ATTACHMENT_WRITE_BIT,
          VK_ACCESS_DEPTH_STENCIL_ATTACHMENT_READ_BIT⟩] []]
      else [])
  else []

/-- Member `beginRenderPass`.  Returns the recorder, the render pass object (whose clear
values the call overwrites) and the native calls. -/
def beginRenderPass (barrierDeductionLevel : Nat) (s : CCVKCommandBuffer)
    (renderPass : RenderPass) (fbo : Framebuffer) (renderArea : Rect) (colors : List Color)
    (depth : F32) (stencil : Int) (secondaryCBCount : Nat) :
    Option (CCVKCommandBuffer × CCVKGPURenderPass × List VkCmd) := do
  let gpuFBO := fbo.gpuFBO
  let gpuRenderPass := renderPass.gpuRenderPass
  let framebuffer ← nativeFramebuffer gpuFBO
  let clearValues ← setClearValues gpuRenderPass.clearValues colors depth stencil
  let area : VkRect2D := ⟨renderArea.x, renderArea.y, renderArea.width, renderArea.height⟩
  let passBegin := VkCmd.BeginRenderPass gpuRenderPass.vkRenderPass framebuffer clearValues area
    (if secondaryCBCount ≠ 0 then VkSubpassContents.VK_SUBPASS_CONTENTS_SECONDARY_COMMAND_BUFFERS
      else VkSubpassContents.VK_SUBPASS_CONTENTS_INLINE)
  let dynamicState :=
    if secondaryCBCount = 0 then
      [VkCmd.SetViewport
        ⟨F32.ofInt renderArea.x, F32.ofInt renderArea.y, F32.ofInt renderArea.width,
          F32.ofInt renderArea.height, F32.ofInt 0, F32.ofInt 1⟩,
        VkCmd.SetScissor area]
    else []
  pure ({ s with curGPUFBO := some gpuFBO },
    { gpuRenderPass with clearValues := clearValues },
    loadOpBarriers barrierDeductionLevel gpuRenderPass ++ [passBegin] ++ dynamicState)

/-- The resource behind an attachment: the texture of its view, or the swapchain's current
image when the attachment has no view (`depth` selects the swapchain's depth/stencil image). -/
def attachmentResource (depth : Bool) (view : Option CCVKGPUTextureView)
    (swapchain : Option CCVKGPUSwapchain) : Option Resource :=
  match view with
  | some v => some (Resource.texture v.gpuTexture.addr)
  | none =>
    swapchain.map (fun sc =>
      if depth then Resource.depthStencilImage sc.addr sc.curImageIndex
      else Resource.swapchainImage sc.addr sc.curImageIndex)

/-- Iteration `i` of the colour loop of `endRenderPass`: the resource it assigns to and the
access types it assigns, both taken from the framebuffer. -/
def colorAttachmentWrite (thsvs : Thsvs) (gpuFBO : CCVKGPUFramebuffer) (i : Nat) :
    Option (Resource × List ThsvsAccessType) := do
  let attachment ← gpuFBO.gpuRenderPass.colorAttachments[i]?
  let accessType := thsvs.THSVS_ACCESS_TYPES attachment.endAccess
  let view ← gpuFBO.gpuColorViews[i]?
  let resource ← attachmentResource false view gpuFBO.swapchain
  pure (resource, [accessType])

/-- The depth/stencil assignment of `endRenderPass`. -/
def depthStencilWrite (thsvs : Thsvs) (gpuFBO : CCVKGPUFramebuffer) :
    Option (Resource × List ThsvsAccessType) := do
  let accessType := thsvs.THSVS_ACCESS_TYPES gpuFBO.gpuRenderPass.depthStencilAttachment.endAccess
  let resource ← attachmentResource true gpuFBO.gpuDepthStencilView gpuFBO.swapchain
  pure (resource, [accessType])

/-- One assignment to the Resource Access State. -/
def assignWrite (st : AccessState) (w : Resource × List ThsvsAccessType) : Option AccessState :=
  st.assign w.1 w.2

/-- The native calls of `endRenderPass`: the end of the pass, then the barrier guarding
against the write-after-read hazard. -/
def endRenderPassCmds (barrierDeductionLevel : Nat) : List VkCmd :=
  [VkCmd.EndRenderPass] ++
    (if barrierDeductionLevel ≥ BARRIER_DEDUCTION_LEVEL_BASIC then
      [VkCmd.PipelineBarrier VK_PIPELINE_STAGE_COLOR_ATTACHMENT_OUTPUT_BIT
        VK_PIPELINE_STAGE_TRANSFER_BIT [] []]
    else [])

/-- The depth/stencil part of `endRenderPass`: assigns when the framebuffer's render pass has a
depth/stencil attachment. -/
def endDepthStencil (thsvs : Thsvs) (gpuFBO : CCVKGPUFramebuffer) (st : AccessState) :
    Option AccessState :=
  if gpuFBO.gpuRenderPass.depthStencilAttachment.format ≠ Format.UNKNOWN then
    (depthStencilWrite thsvs gpuFBO).bind (assignWrite st)
  else some st

/-- Member `endRenderPass`. -/
def endRenderPass (barrierDeductionLevel : Nat) (thsvs : Thsvs) (st : AccessState)
    (s : CCVKCommandBuffer) : Option (AccessState × CCVKCommandBuffer × List VkCmd) := do
  let gpuFBO ← s.curGPUFBO
  let cmds := endRenderPassCmds barrierDeductionLevel
  let st1 ← (List.range gpuFBO.gpuRenderPass.colorAttachments.length).foldlM
    (fun st i => (colorAttachmentWrite thsvs gpuFBO i).bind (assignWrite st)) st
  let st2 ← endDepthStencil thsvs gpuFBO st1
  pure (st2, { s with curGPUFBO := none }, cmds)

/-- The assignments `endRenderPass` makes for a framebuffer, in the order it makes them: one
per colour attachment, then the depth/stencil one when the render pass has that attachment. -/
def endWrites (thsvs : Thsvs) (gpuFBO : CCVKGPUFramebuffer) :
    List (Resource × List ThsvsAccessType) :=
  (List.range gpuFBO.gpuRenderPass.colorAttachments.length).filterMap
      (colorAttachmentWrite thsvs gpuFBO)
    ++ (if gpuFBO.gpuRenderPass.depthStencilAttachment.format ≠ Format.UNKNOWN then
        (depthStencilWrite thsvs gpuFBO).toList
      else [])

/-- The access types assigned to resource `r` by the last assignment of the list that names
it; `none` when no assignment names it. -/
def lastWrite (ws : List (Resource × List ThsvsAccessType)) (r : Resource) :
    Option (List ThsvsAccessType) :=
  match ws with
  | [] => none
  | w :: rest =>
    match lastWrite rest r with
    | some v => some v
    | none => if w.1 = r then some w.2 else none

/-- Conditions under which `beginRenderPass` followed by `endRenderPass` stays inside every
vector: the framebuffer has a native handle for the current image, the caller supplies a clear
colour for every slot but the last, the framebuffer has a view entry for every colour
attachment of its render pass, a swapchain when an attachment has no view, and every resource
so attached has an entry in the Resource Access State. -/
structure RenderPassReady (thsvs : Thsvs) (st : AccessState) (renderPass : RenderPass)
    (fbo : Framebuffer) (colors : List Color) : Prop where
  framebuffer : (nativeFramebuffer fbo.gpuFBO).isSome
  colors_len : renderPass.gpuRenderPass.clearValues.length - 1 ≤ colors.length
  color_writes : ∀ i, i < fbo.gpuFBO.gpuRenderPass.colorAttachments.length →
    ∃ w, colorAttachmentWrite thsvs fbo.gpuFBO i = some w ∧ (st.get w.1).isSome
  depth_write : fbo.gpuFBO.gpuRenderPass.depthStencilAttachment.format ≠ Format.UNKNOWN →
    ∃ w, depthStencilWrite thsvs fbo.gpuFBO = some w ∧ (st.get w.1).isSome

/-- The resource of colour attachment `i` of a framebuffer: the attached texture, or the
current swapchain image when the attachment has no texture view. -/
def colorResource (gpuFBO : CCVKGPUFramebuffer) (i : Nat) : Option Resource :=
  (gpuFBO.gpuColorViews[i]?).bind (fun view => attachmentResource false view gpuFBO.swapchain)

/-- The depth/stencil resource of a framebuffer. -/
def depthStencilResource (gpuFBO : CCVKGPUFramebuffer) : Option Resource :=
  attachmentResource true gpuFBO.gpuDepthStencilView gpuFBO.swapchain

/-- The access types of a resource after a list of assignments: those of the last assignment
naming it, or the ones it had before. -/
def accessAfter (st : AccessState) (ws : List (Resource × List ThsvsAccessType))
    (r : Resource) : Option (List ThsvsAccessType) :=
  match lastWrite ws r with
  | some v => some v
  | none => st.get r

/-! ## `pipelineBarrier` -/

/-- What a texture barrier is about: the tracked resource, and the image, aspect mask and
layout rule put into the image barrier.  For a named texture these are the texture's; without
a texture they are those of the device swapchain's current image. -/
def textureBarrierTarget (gpuSwapchain : Option CCVKGPUSwapchain) (textureBarrier : TextureBarrier) :
    Option (Resource × Nat × Nat × ThsvsImageLayout) :=
  match textureBarrier.texture with
  | some texture =>
    some (Resource.texture texture.gpuTexture.addr, texture.gpuTexture.vkImage,
      texture.gpuTexture.aspectMask, texture.gpuTexture.layoutRule)
  | none => do
    let swapchain ← gpuSwapchain
    let image ← swapchain.swapchainImages[swapchain.curImageIndex]?
    pure (Resource.swapchainImage swapchain.addr swapchain.curImageIndex, image,
      VK_IMAGE_ASPECT_COLOR_BIT, ThsvsImageLayout.THSVS_IMAGE_LAYOUT_OPTIMAL)

/-- The helper-library image barrier `pipelineBarrier` builds for one texture barrier. -/
def imageBarrierOf (thsvs : Thsvs) (gpuSwapchain : Option CCVKGPUSwapchain)
    (textureBarrier : TextureBarrier) : Option ThsvsImageBarrier :=
  (textureBarrierTarget gpuSwapchain textureBarrier).map (fun target =>
    { prevAccesses := textureBarrier.prevAccesses.map thsvs.THSVS_ACCESS_TYPES
      nextAccesses := textureBarrier.nextAccesses.map thsvs.THSVS_ACCESS_TYPES
      prevLayout := target.2.2.2
      nextLayout := target.2.2.2
      discardContents := textureBarrier.discardContents
      srcQueueFamilyIndex :=
        match textureBarrier.srcQueue with
        | some q => q.queueFamilyIndex
        | none => VK_QUEUE_FAMILY_IGNORED
      dstQueueFamilyIndex :=
        match textureBarrier.dstQueue with
        | some q => q.queueFamilyIndex
        | none => VK_QUEUE_FAMILY_IGNORED
      image := target.2.1
      subresourceRange :=
        { aspectMask := target.2.2.1, baseMipLevel := 0, levelCount := VK_REMAINING_MIP_LEVELS,
          baseArrayLayer := 0, layerCount := VK_REMAINING_ARRAY_LAYERS } })

/-- The assignment to the Resource Access State one texture barrier makes: its resource takes
the table-mapped next accesses. -/
def textureBarrierWrite (thsvs : Thsvs) (gpuSwapchain : Option CCVKGPUSwapchain)
    (textureBarrier : TextureBarrier) : Option (Resource × List ThsvsAccessType) :=
  (textureBarrierTarget gpuSwapchain textureBarrier).map (fun target =>
    (target.1, textureBarrier.nextAccesses.map thsvs.THSVS_ACCESS_TYPES))

/-- The running values of the texture-barrier loop of `pipelineBarrier`. -/
structure BarrierLoop where
  st : AccessState
  srcStageMask : Nat
  dstStageMask : Nat
  imageMemoryBarriers : List VkImageMemoryBarrier

/-- One iteration of the texture-barrier loop of `pipelineBarrier`. -/
def textureBarrierStep (thsvs : Thsvs) (gpuSwapchain : Option CCVKGPUSwapchain)
    (acc : BarrierLoop) (textureBarrier : TextureBarrier) : Option BarrierLoop := do
  let imageBarrier ← imageBarrierOf thsvs gpuSwapchain textureBarrier
  let derived := thsvs.thsvsGetVulkanImageMemoryBarrier imageBarrier
  let write ← textureBarrierWrite thsvs gpuSwapchain textureBarrier
  let st ← assignWrite acc.st write
  pure
    { st := st
      srcStageMask := acc.srcStageMask ||| derived.1
      dstStageMask := acc.dstStageMask ||| derived.2.1
      imageMemoryBarriers := acc.imageMemoryBarriers ++ [derived.2.2] }

/-- The helper-library global barrier `pipelineBarrier` builds for the caller's one. -/
def globalBarrierOf (thsvs : Thsvs) (barrier : GlobalBarrier) : ThsvsGlobalBarrier :=
  { prevAccesses := barrier.prevAccesses.map thsvs.THSVS_ACCESS_TYPES
    nextAccesses := barrier.nextAccesses.map thsvs.THSVS_ACCESS_TYPES }

/-- The table-mapped access types `pipelineBarrier` stores in `_accessTypes`, in order. -/
def flattenedAccessTypes (thsvs : Thsvs) (barrier : Option GlobalBarrier)
    (textureBarriers : List TextureBarrier) : List ThsvsAccessType :=
  (match barrier with
    | some b => (b.prevAccesses ++ b.nextAccesses).map thsvs.THSVS_ACCESS_TYPES
    | none => [])
  ++ (textureBarriers.map (fun tb =>
      (tb.prevAccesses ++ tb.nextAccesses).map thsvs.THSVS_ACCESS_TYPES)).flatten

/-- Member `pipelineBarrier`.  `gpuSwapchain` is the device's swapchain. -/
def pipelineBarrier (thsvs : Thsvs) (gpuSwapchain : Option CCVKGPUSwapchain)
    (st : AccessState) (s : CCVKCommandBuffer) (barrier : Option GlobalBarrier)
    (textureBarriers : List TextureBarrier) :
    Option (AccessState × CCVKCommandBuffer × List VkCmd) := do
  let srcStageMask := VK_PIPELINE_STAGE_TOP_OF_PIPE_BIT
  let dstStageMask := VK_PIPELINE_STAGE_BOTTOM_OF_PIPE_BIT
  let global : Nat × Nat × List VkMemoryBarrier :=
    match barrier with
    | some b =>
      let derived := thsvs.thsvsGetVulkanMemoryBarrier (globalBarrierOf thsvs b)
      (srcStageMask ||| derived.1, dstStageMask ||| derived.2.1, [derived.2.2])
    | none => (srcStageMask, dstStageMask, [])
  let loop ← textureBarriers.foldlM (textureBarrierStep thsvs gpuSwapchain)
    { st := st, srcStageMask := global.1, dstStageMask := global.2.1, imageMemoryBarriers := [] }
  pure (loop.st,
    { s with
      accessTypes := flattenedAccessTypes thsvs barrier textureBarriers
      imageMemoryBarriers :=
        if textureBarriers.length > 0 then loop.imageMemoryBarriers else s.imageMemoryBarriers },
    [VkCmd.PipelineBarrier loop.srcStageMask loop.dstStageMask global.2.2
      loop.imageMemoryBarriers])

/-- The source stages the helper library derives for the optional global barrier (no bits
when there is none). -/
def globalSrcStages (thsvs : Thsvs) (barrier : Option GlobalBarrier) : Nat :=
  match barrier with
  | some b => (thsvs.thsvsGetVulkanMemoryBarrier (globalBarrierOf thsvs b)).1
  | none => 0

/-- The destination stages the helper library derives for the optional global barrier. -/
def globalDstStages (thsvs : Thsvs) (barrier : Option GlobalBarrier) : Nat :=
  match barrier with
  | some b => (thsvs.thsvsGetVulkanMemoryBarrier (globalBarrierOf thsvs b)).2.1
  | none => 0

/-- The image barriers built for a list of texture barriers. -/
def imageBarriersOf (thsvs : Thsvs) (gpuSwapchain : Option CCVKGPUSwapchain)
    (textureBarriers : List TextureBarrier) : List ThsvsImageBarrier :=
  textureBarriers.filterMap (imageBarrierOf thsvs gpuSwapchain)

/-- The bitwise union of a list of stage masks with a starting mask. -/
def unionStages (start : Nat) (masks : List Nat) : Nat := masks.foldl (fun m x => m ||| x) start

/-- The assignments to the Resource Access State a list of texture barriers makes, in order. -/
def barrierWrites (thsvs : Thsvs) (gpuSwapchain : Option CCVKGPUSwapchain)
    (textureBarriers : List TextureBarrier) : List (Resource × List ThsvsAccessType) :=
  textureBarriers.filterMap (textureBarrierWrite thsvs gpuSwapchain)

/-- The resource a texture barrier names. -/
def barrierResource (gpuSwapchain : Option CCVKGPUSwapchain) (textureBarrier : TextureBarrier) :
    Option Resource :=
  (textureBarrierTarget gpuSwapchain textureBarrier).map (fun target => target.1)

/-- Conditions under which `pipelineBarrier` stays inside every vector: each texture barrier
names a texture, or the device has a swapchain with an image at the current index, and the
named resource has an entry in the Resource Access State. -/
def PipelineBarrierReady (gpuSwapchain : Option CCVKGPUSwapchain) (st : AccessState)
    (textureBarriers : List TextureBarrier) : Prop :=
  ∀ tb ∈ textureBarriers, ∃ r, barrierResource gpuSwapchain tb = some r ∧ (st.get r).isSome

/-! ## `begin`, `end` -/

def VK_NULL_HANDLE : Nat := 0
def VK_COMMAND_BUFFER_USAGE_ONE_TIME_SUBMIT_BIT : Nat := 0x00000001
def VK_COMMAND_BUFFER_USAGE_RENDER_PASS_CONTINUE_BIT : Nat := 0x00000002

structure VkCommandBufferInheritanceInfo where
  renderPass : Nat
  subpass : Nat
  framebuffer : Nat
  deriving DecidableEq, Repr

structure VkCommandBufferBeginInfo where
  flags : Nat
  pInheritanceInfo : Option VkCommandBufferInheritanceInfo
  deriving DecidableEq, Repr

/-- The device's command-buffer pool, which is declared outside this file: each of its two
operations is given by the native handle it leaves in the `CCVKGPUCommandBuffer` it is handed. -/
structure CCVKGPUCommandBufferPool where
  request : CCVKGPUCommandBuffer → Nat
  yield : CCVKGPUCommandBuffer → Nat

/-- What `begin` and `end` do outside the recorder, in issue order: the requests to the
command-buffer pool and the two native calls. -/
inductive LifecycleCall where
  | PoolRequest
  | BeginCommandBuffer (vkCommandBuffer : Nat) (beginInfo : VkCommandBufferBeginInfo)
  | EndCommandBuffer (vkCommandBuffer : Nat)
  | PoolYield
  deriving DecidableEq, Repr

/-- Recognises the native begin call. -/
def LifecycleCall.isBeginCommandBuffer : LifecycleCall → Bool
  | .BeginCommandBuffer _ _ => true
  | _ => false

/-- Recognises the native end call. -/
def LifecycleCall.isEndCommandBuffer : LifecycleCall → Bool
  | .EndCommandBuffer _ => true
  | _ => false

/-- The part of `begin` between the recording check and the command-buffer type check: the
pool request (which leaves its handle in the GPU object) and the reset of the caches, of the
watermark and of the statistics. -/
def beginReset (pool : CCVKGPUCommandBufferPool) (s : CCVKCommandBuffer) : CCVKCommandBuffer :=
  { s with
    gpuCommandBuffer :=
      { s.gpuCommandBuffer with vkCommandBuffer := pool.request s.gpuCommandBuffer }
    curGPUPipelineState := none
    curGPUInputAssember := none
    curGPUDescriptorSets := List.replicate s.curGPUDescriptorSets.length none
    curDynamicOffsetCounts := List.replicate s.curDynamicOffsetCounts.length 0
    firstDirtyDescriptorSet := UINT_MAX
    numDrawCalls := 0
    numInstances := 0
    numTriangles := 0 }

/-- The framebuffer `begin` writes into the inheritance information of a secondary buffer:
the null handle when no framebuffer is given. -/
def inheritedFramebuffer (frameBuffer : Option Framebuffer) : Option Nat :=
  match frameBuffer with
  | some fb => nativeFramebuffer fb.gpuFBO
  | none => some VK_NULL_HANDLE

/-- The begin information of a secondary buffer begun with render pass `renderPass`. -/
def secondaryBeginInfo (renderPass : RenderPass) (subpass : Nat) (framebuffer : Nat) :
    VkCommandBufferBeginInfo :=
  { flags :=
      VK_COMMAND_BUFFER_USAGE_ONE_TIME_SUBMIT_BIT
        ||| VK_COMMAND_BUFFER_USAGE_RENDER_PASS_CONTINUE_BIT
    pInheritanceInfo :=
      some { renderPass := renderPass.gpuRenderPass.vkRenderPass, subpass := subpass,
             framebuffer := framebuffer } }

/-- The last two statements of `begin`, after the calls `issued` so far: the native begin
call (taken to succeed) and the recording flag. -/
def beginNative (s : CCVKCommandBuffer) (issued : List LifecycleCall)
    (beginInfo : VkCommandBufferBeginInfo) : CCVKCommandBuffer × List LifecycleCall :=
  ({ s with gpuCommandBuffer := { s.gpuCommandBuffer with began := true } },
    issued ++ [LifecycleCall.BeginCommandBuffer s.gpuCommandBuffer.vkCommandBuffer beginInfo])

/-- Member `begin`. -/
def begin (pool : CCVKGPUCommandBufferPool) (s : CCVKCommandBuffer)
    (renderPass : Option RenderPass) (subpass : Nat) (frameBuffer : Option Framebuffer) :
    Option (CCVKCommandBuffer × List LifecycleCall) :=
  if s.gpuCommandBuffer.began then some (s, [])
  else
    let s1 := beginReset pool s
    let issued := [LifecycleCall.PoolRequest]
    if s1.type = CommandBufferType.SECONDARY then
      match renderPass with
      | none => some (s1, issued)
      | some rp =>
        (inheritedFramebuffer frameBuffer).map (fun framebuffer =>
          beginNative s1 issued (secondaryBeginInfo rp subpass framebuffer))
    else
      some (beginNative s1 issued
        { flags := VK_COMMAND_BUFFER_USAGE_ONE_TIME_SUBMIT_BIT, pInheritanceInfo := none })

/-- Member `end`. -/
def end_ (pool : CCVKGPUCommandBufferPool) (s : CCVKCommandBuffer) :
    CCVKCommandBuffer × List LifecycleCall :=
  if ¬ s.gpuCommandBuffer.began then (s, [])
  else
    let ended : CCVKGPUCommandBuffer := { s.gpuCommandBuffer with began := false }
    ({ s with
        curGPUFBO := none
        curGPUInputAssember := none
        curViewport := { s.curViewport with width := 0, height := 0 }
        curScissor := { s.curScissor with width := 0, height := 0 }
        pendingQueue := s.pendingQueue ++ [ended.vkCommandBuffer]
        gpuCommandBuffer := { ended with vkCommandBuffer := pool.yield ended } },
      [LifecycleCall.EndCommandBuffer s.gpuCommandBuffer.vkCommandBuffer,
        LifecycleCall.PoolYield])

/-! ## `bindInputAssembler`, `setViewport`, `setScissor` -/

/-- The effect of `vector::resize` of `bindInputAssembler` on the two native arrays of the
input assembler: both grow to `vbCount` when the buffer array is shorter. -/
def resizeVertexArrays (gpuInputAssembler : CCVKGPUInputAssembler) : List Nat × List Nat :=
  let vbCount := gpuInputAssembler.gpuVertexBuffers.length
  if gpuInputAssembler.vertexBuffers.length < vbCount then
    (resizeZero gpuInputAssembler.vertexBuffers vbCount,
      resizeZero gpuInputAssembler.vertexBufferOffsets vbCount)
  else (gpuInputAssembler.vertexBuffers, gpuInputAssembler.vertexBufferOffsets)

/-- One iteration of the loop of `bindInputAssembler`: entry `i` of the two native arrays
takes the handle and the start offset of vertex buffer `i`. -/
def writeVertexBuffer (gpuVertexBuffers : List CCVKGPUBuffer) (acc : List Nat × List Nat)
    (i : Nat) : Option (List Nat × List Nat) := do
  let gpuVertexBuffer ← gpuVertexBuffers[i]?
  if acc.1.length ≤ i ∨ acc.2.length ≤ i then none
  pure (acc.1.set i gpuVertexBuffer.vkBuffer, acc.2.set i gpuVertexBuffer.startOffset)

/-- The native index-buffer bind of `bindInputAssembler`, issued when there is an index
buffer. -/
def bindIndexBufferCmds (gpuIndexBuffer : Option CCVKGPUBuffer) : List VkCmd :=
  match gpuIndexBuffer with
  | some b =>
    [VkCmd.BindIndexBuffer b.vkBuffer 0
      (if b.stride = 4 then VkIndexType.VK_INDEX_TYPE_UINT32
        else VkIndexType.VK_INDEX_TYPE_UINT16)]
  | none => []

/-- The body of the `if` of `bindInputAssembler`: returns the input assembler object with its
two native arrays rewritten, and the native calls. -/
def rebindInputAssembler (gpuInputAssembler : CCVKGPUInputAssembler) :
    Option (CCVKGPUInputAssembler × List VkCmd) := do
  let vbCount := gpuInputAssembler.gpuVertexBuffers.length
  let arrays ← (List.range vbCount).foldlM
    (writeVertexBuffer gpuInputAssembler.gpuVertexBuffers) (resizeVertexArrays gpuInputAssembler)
  pure ({ gpuInputAssembler with vertexBuffers := arrays.1, vertexBufferOffsets := arrays.2 },
    [VkCmd.BindVertexBuffers 0 vbCount (arrays.1.take vbCount) (arrays.2.take vbCount)]
      ++ bindIndexBufferCmds gpuInputAssembler.gpuIndexBuffer)

/-- Member `bindInputAssembler`.  The call rewrites the object its argument points to, so the
comparison of the cached pointer with the argument is the comparison of the two addresses.
Returns the recorder, the input assembler as the call leaves it, and the native calls. -/
def bindInputAssembler (s : CCVKCommandBuffer) (ia : InputAssembler) :
    Option (CCVKCommandBuffer × InputAssembler × List VkCmd) :=
  let gpuInputAssembler := ia.gpuInputAssembler
  if s.curGPUInputAssember.map (fun cur => cur.addr) ≠ some gpuInputAssembler.addr then
    (rebindInputAssembler gpuInputAssembler).map (fun r =>
      ({ s with curGPUInputAssember := some r.1 }, { ia with gpuInputAssembler := r.1 }, r.2))
  else some (s, ia, [])

/-- Member `setViewport`.  The operator `!=` of `Viewport` is declared outside this file and
is the parameter `viewportNe`. -/
def setViewport (viewportNe : Viewport → Viewport → Bool) (s : CCVKCommandBuffer)
    (vp : Viewport) : CCVKCommandBuffer × List VkCmd :=
  if viewportNe s.curViewport vp then
    ({ s with curViewport := vp },
      [VkCmd.SetViewport
        ⟨F32.ofInt vp.left, F32.ofInt vp.top, F32.ofInt vp.width, F32.ofInt vp.height,
          vp.minDepth, vp.maxDepth⟩])
  else (s, [])

/-- Member `setScissor`.  The operator `!=` of `Rect` is declared outside this file and is the
parameter `rectNe`. -/
def setScissor (rectNe : Rect → Rect → Bool) (s : CCVKCommandBuffer) (rect : Rect) :
    CCVKCommandBuffer × List VkCmd :=
  if rectNe s.curScissor rect then
    ({ s with curScissor := rect },
      [VkCmd.SetScissor ⟨rect.x, rect.y, rect.width, rect.height⟩])
  else (s, [])

/-- Conditions under which `bindInputAssembler` stays inside the two native arrays of the
input assembler: the offset array is not shorter than the buffer array. -/
def InputAssemblerReady (gpuInputAssembler : CCVKGPUInputAssembler) : Prop :=
  gpuInputAssembler.vertexBuffers.length ≤ gpuInputAssembler.vertexBufferOffsets.length

/-! ## `blitTexture` -/

/-- What `blitTexture` takes from outside this file: the two native access types it tests
for, the positions of the two transfer accesses in `THSVS_ACCESS_TYPES`, and the table
`VK_FILTERS`. -/
structure BlitTables where
  THSVS_ACCESS_TRANSFER_READ : ThsvsAccessType
  THSVS_ACCESS_TRANSFER_WRITE : ThsvsAccessType
  TRANSFER_READ : AccessType
  TRANSFER_WRITE : AccessType
  VK_FILTERS : Nat → Nat

/-- The image barrier `blitTexture` builds for the current swapchain image: from the access
types recorded for it to the single access `nextAccess`. -/
def swapchainImageBarrier (image : Nat) (curAccessTypes : List ThsvsAccessType)
    (nextAccess : ThsvsAccessType) : ThsvsImageBarrier :=
  { prevAccesses := curAccessTypes
    nextAccesses := [nextAccess]
    prevLayout := ThsvsImageLayout.THSVS_IMAGE_LAYOUT_OPTIMAL
    nextLayout := ThsvsImageLayout.THSVS_IMAGE_LAYOUT_OPTIMAL
    discardContents := false
    srcQueueFamilyIndex := VK_QUEUE_FAMILY_IGNORED
    dstQueueFamilyIndex := VK_QUEUE_FAMILY_IGNORED
    image := image
    subresourceRange :=
      { aspectMask := VK_IMAGE_ASPECT_COLOR_BIT, baseMipLevel := 0,
        levelCount := VK_REMAINING_MIP_LEVELS, baseArrayLayer := 0,
        layerCount := VK_REMAINING_ARRAY_LAYERS } }

/-- The block of `blitTexture` compiled in at barrier deduction level full, for an endpoint
that is the current swapchain image: when `tested` is not among the access types recorded for
the image, a barrier to `nextAccess` is issued and the recorded access types become
`tested` alone. -/
def swapchainTransition (barrierDeductionLevel : Nat) (st : AccessState)
    (swapchain : CCVKGPUSwapchain) (image : Nat) (tested : ThsvsAccessType)
    (nextAccess : ThsvsAccessType) : Option (AccessState × List VkCmd) :=
  if barrierDeductionLevel ≥ BARRIER_DEDUCTION_LEVEL_FULL then
    (st.get (Resource.swapchainImage swapchain.addr swapchain.curImageIndex)).bind
      (fun curAccessTypes =>
        if tested ∉ curAccessTypes then
          (st.assign (Resource.swapchainImage swapchain.addr swapchain.curImageIndex)
            [tested]).map (fun st1 =>
              (st1, [VkCmd.ThsvsCmdPipelineBarrier none
                [swapchainImageBarrier image curAccessTypes nextAccess]]))
        else some (st, []))
  else some (st, [])

/-- An endpoint of a blit: aspect mask, image and image layout. -/
structure BlitEndpoint where
  aspectMask : Nat
  image : Nat
  imageLayout : VkImageLayout
  deriving DecidableEq, Repr

/-- The source block of `blitTexture`. -/
def blitSource (barrierDeductionLevel : Nat) (thsvs : Thsvs) (tables : BlitTables)
    (gpuSwapchain : Option CCVKGPUSwapchain) (st : AccessState) (srcTexture : Option Texture) :
    Option (BlitEndpoint × AccessState × List VkCmd) :=
  match srcTexture with
  | some texture =>
    let gpuTextureSrc := texture.gpuTexture
    some
      ({ aspectMask := gpuTextureSrc.aspectMask
         image := gpuTextureSrc.vkImage
         imageLayout :=
           if gpuTextureSrc.layoutRule = ThsvsImageLayout.THSVS_IMAGE_LAYOUT_OPTIMAL then
             VkImageLayout.VK_IMAGE_LAYOUT_TRANSFER_SRC_OPTIMAL
           else VkImageLayout.VK_IMAGE_LAYOUT_GENERAL },
        st, [])
  | none =>
    gpuSwapchain.bind (fun swapchain =>
      (swapchain.swapchainImages[swapchain.curImageIndex]?).bind (fun srcImage =>
        (swapchainTransition barrierDeductionLevel st swapchain srcImage
            tables.THSVS_ACCESS_TRANSFER_READ
            (thsvs.THSVS_ACCESS_TYPES tables.TRANSFER_READ)).map
          (fun r =>
            ({ aspectMask := VK_IMAGE_ASPECT_COLOR_BIT, image := srcImage,
               imageLayout := VkImageLayout.VK_IMAGE_LAYOUT_TRANSFER_SRC_OPTIMAL },
              r.1, r.2))))

/-- The destination block of `blitTexture`. -/
def blitDestination (barrierDeductionLevel : Nat) (thsvs : Thsvs) (tables : BlitTables)
    (gpuSwapchain : Option CCVKGPUSwapchain) (st : AccessState) (dstTexture : Option Texture) :
    Option (BlitEndpoint × AccessState × List VkCmd) :=
  match dstTexture with
  | some texture =>
    let gpuTextureDst := texture.gpuTexture
    some
      ({ aspectMask := gpuTextureDst.aspectMask
         image := gpuTextureDst.vkImage
         imageLayout :=
           if gpuTextureDst.layoutRule = ThsvsImageLayout.THSVS_IMAGE_LAYOUT_OPTIMAL then
             VkImageLayout.VK_IMAGE_LAYOUT_TRANSFER_SRC_OPTIMAL
           else VkImageLayout.VK_IMAGE_LAYOUT_GENERAL },
        st, [])
  | none =>
    gpuSwapchain.bind (fun swapchain =>
      (swapchain.swapchainImages[swapchain.curImageIndex]?).bind (fun dstImage =>
        (swapchainTransition barrierDeductionLevel st swapchain dstImage
            tables.THSVS_ACCESS_TRANSFER_WRITE
            (thsvs.THSVS_ACCESS_TYPES tables.TRANSFER_WRITE)).map
          (fun r =>
            ({ aspectMask := VK_IMAGE_ASPECT_COLOR_BIT, image := dstImage,
               imageLayout := VkImageLayout.VK_IMAGE_LAYOUT_TRANSFER_DST_OPTIMAL },
              r.1, r.2))))

/-- The native region `blitTexture` writes for one region of the caller. -/
def blitRegion (srcAspectMask dstAspectMask : Nat) (region : TextureBlit) : VkImageBlit :=
  { srcSubresource :=
      { aspectMask := srcAspectMask, mipLevel := region.srcSubres.mipLevel,
        baseArrayLayer := region.srcSubres.baseArrayLayer,
        layerCount := region.srcSubres.layerCount }
    srcOffsets0 := ⟨region.srcOffset.x, region.srcOffset.y, region.srcOffset.z⟩
    srcOffsets1 := ⟨region.srcExtent.width, region.srcExtent.height, region.srcExtent.depth⟩
    dstSubresource :=
      { aspectMask := dstAspectMask, mipLevel := region.dstSubres.mipLevel,
        baseArrayLayer := region.dstSubres.baseArrayLayer,
        layerCount := region.dstSubres.layerCount }
    dstOffsets0 := ⟨region.dstOffset.x, region.dstOffset.y, region.dstOffset.z⟩
    dstOffsets1 := ⟨region.dstExtent.width, region.dstExtent.height, region.dstExtent.depth⟩ }

/-- Member `blitTexture`.  `gpuSwapchain` is the device's swapchain; the array `regions` is
given with its count as a list. -/
def blitTexture (barrierDeductionLevel : Nat) (thsvs : Thsvs) (tables : BlitTables)
    (gpuSwapchain : Option CCVKGPUSwapchain) (st : AccessState) (s : CCVKCommandBuffer)
    (srcTexture dstTexture : Option Texture) (regions : List TextureBlit) (filter : Nat) :
    Option (AccessState × CCVKCommandBuffer × List VkCmd) :=
  (blitSource barrierDeductionLevel thsvs tables gpuSwapchain st srcTexture).bind (fun src =>
    (blitDestination barrierDeductionLevel thsvs tables gpuSwapchain src.2.1 dstTexture).map
      (fun dst =>
        let blitRegions := regions.map (blitRegion src.1.aspectMask dst.1.aspectMask)
        (dst.2.1, { s with blitRegions := blitRegions },
          src.2.2 ++ dst.2.2 ++
            [VkCmd.BlitImage src.1.image src.1.imageLayout dst.1.image dst.1.imageLayout
              blitRegions (tables.VK_FILTERS filter)])))

/-- The image barriers handed to the helper library for image `image`, over a list of native
calls, in issue order. -/
def transitionBarriers (image : Nat) (cmds : List VkCmd) : List ThsvsImageBarrier :=
  (cmds.map (fun c =>
    match c with
    | .ThsvsCmdPipelineBarrier _ imageBarriers => imageBarriers.filter (fun b => b.image = image)
    | _ => [])).flatten

/-- Conditions under which a blit with an absent endpoint stays inside every vector: the
device's swapchain has an image, and recorded access types, at the current image index. -/
def BlitReady (st : AccessState) (swapchain : CCVKGPUSwapchain) : Prop :=
  swapchain.curImageIndex < swapchain.swapchainImages.length ∧
    swapchain.curImageIndex < (st.swapchainImageAccessTypes swapchain.addr).length

/-! ## Barriers and clear values of `beginRenderPass`, by name -/

/-- The memory barrier from colour-attachment write to colour-attachment read that
`beginRenderPass` issues for a colour load. -/
def colorLoadBarrier : VkCmd :=
  VkCmd.PipelineBarrier VK_PIPELINE_STAGE_COLOR_ATTACHMENT_OUTPUT_BIT
    VK_PIPELINE_STAGE_COLOR_ATTACHMENT_OUTPUT_BIT
    [⟨VK_ACCESS_COLOR_ATTACHMENT_WRITE_BIT, VK_ACCESS_COLOR_ATTACHMENT_READ_BIT⟩] []

/-- The memory barrier from depth/stencil-attachment write to depth/stencil-attachment read
that `beginRenderPass` issues for a depth load. -/
def depthStencilLoadBarrier : VkCmd :=
  VkCmd.PipelineBarrier VK_PIPELINE_STAGE_LATE_FRAGMENT_TESTS_BIT
    (VK_PIPELINE_STAGE_EARLY_FRAGMENT_TESTS_BIT ||| VK_PIPELINE_STAGE_LATE_FRAGMENT_TESTS_BIT)
    [⟨VK_ACCESS_DEPTH_STENCIL_ATTACHMENT_WRITE_BIT,
      VK_ACCESS_DEPTH_STENCIL_ATTACHMENT_READ_BIT⟩] []

/-- Recognises the native begin-render-pass call. -/
def isBeginRenderPass : VkCmd → Bool
  | .BeginRenderPass _ _ _ _ _ => true
  | _ => false

/-- Recognises the native pipeline-barrier call. -/
def isPipelineBarrier : VkCmd → Bool
  | .PipelineBarrier _ _ _ _ => true
  | _ => false

/-! ## Indirect draws, by name -/

/-- The size of the native record an indirect buffer holds: the indexed record when the buffer
draws by index, else the non-indexed record. -/
def indirectRecordSize (gpuIndirectBuffer : CCVKGPUBuffer) : Nat :=
  if gpuIndirectBuffer.isDrawIndirectByIndex then sizeofVkDrawIndexedIndirectCommand
  else sizeofVkDrawIndirectCommand

/-- The native indirect draw on an indirect buffer at byte offset `offset` with draw count
`drawCount`: the indexed call when the buffer draws by index, else the non-indexed call. -/
def nativeIndirectDraw (gpuIndirectBuffer : CCVKGPUBuffer) (offset drawCount : Nat) : VkCmd :=
  if gpuIndirectBuffer.isDrawIndirectByIndex then
    VkCmd.DrawIndexedIndirect gpuIndirectBuffer.vkBuffer offset drawCount
      (indirectRecordSize gpuIndirectBuffer)
  else
    VkCmd.DrawIndirect gpuIndirectBuffer.vkBuffer offset drawCount
      (indirectRecordSize gpuIndirectBuffer)

/-! ## `setStencilWriteMask`, `setStencilCompareMask` -/

/-- The native face the two stencil setters pass on: the front face for `FRONT`, the back face
for every other value. -/
def vkStencilFace (face : StencilFace) : VkStencilFaceFlagBits :=
  if face = StencilFace.FRONT then VkStencilFaceFlagBits.VK_STENCIL_FACE_FRONT_BIT
  else VkStencilFaceFlagBits.VK_STENCIL_FACE_BACK_BIT

/-- Member `setStencilWriteMask`. -/
def setStencilWriteMask (s : CCVKCommandBuffer) (face : StencilFace) (mask : Nat) :
    CCVKCommandBuffer × List VkCmd :=
  if s.curStencilWriteMask.face ≠ face ∨ s.curStencilWriteMask.write_mask ≠ mask then
    ({ s with curStencilWriteMask := { face := face, write_mask := mask } },
      [VkCmd.SetStencilWriteMask (vkStencilFace face) mask])
  else (s, [])

/-- Member `setStencilCompareMask`.  The cache compares and keeps the `int` argument; the
native set-stencil-reference call takes a 32-bit unsigned reference, so the argument arrives
there modulo 2^32 (-1 as 4294967295). -/
def setStencilCompareMask (s : CCVKCommandBuffer) (face : StencilFace) (reference : Int)
    (mask : Nat) : CCVKCommandBuffer × List VkCmd :=
  if s.curStencilCompareMask.face ≠ face ∨ s.curStencilCompareMask.reference ≠ reference
      ∨ s.curStencilCompareMask.compareMask ≠ mask then
    ({ s with
        curStencilCompareMask := { face := face, reference := reference, compareMask := mask } },
      [VkCmd.SetStencilReference (vkStencilFace face) (reference % 4294967296).toNat,
        VkCmd.SetStencilCompareMask (vkStencilFace face) mask])
  else (s, [])

/-! ## The dynamic offsets of a flush, by name -/

/-- The position of set `i` in the flush's dynamic-offset array: entry `i` of the layout's
offset table. -/
def offsetPosition (pipelineLayout : CCVKGPUPipelineLayout) (i : Nat) : Nat :=
  pipelineLayout.dynamicOffsetOffsets.getD i 0

/-- The number of dynamic offsets the layout declares for set `i`. -/
def declaredOffsets (pipelineLayout : CCVKGPUPipelineLayout) (i : Nat) : Nat :=
  offsetPosition pipelineLayout (i + 1) - offsetPosition pipelineLayout i

/-- The number of dynamic offsets the caller supplied for set `i`. -/
def suppliedOffsets (s : CCVKCommandBuffer) (i : Nat) : Nat :=
  s.curDynamicOffsetCounts.getD i 0

/-- The caller's array of dynamic offsets for set `i`. -/
def suppliedArray (s : CCVKCommandBuffer) (i : Nat) : List Nat :=
  s.curDynamicOffsetPtrs.getD i []

/-- The preconditions of the descriptor flush of recorder `s` with pipeline `p` bound: the
watermark is below the configured set count, the layout of the bound pipeline has exactly the
configured number of sets, and its offset table has one entry more than there are sets, is
non-decreasing and ends at the layout's dynamic-offset count.  With them: the per-set vectors
have the size of the slot vector (as `initialize` resizes them), the values of type `uint`
are below 2^32, every bound descriptor set has an instance for the current back buffer, and
each array the caller supplied holds as many values as the count supplied with it. -/
structure FlushPreconditions (gpuDevice : CCVKGPUDevice) (s : CCVKCommandBuffer)
    (p : CCVKGPUPipelineState) : Prop where
  bound : s.curGPUPipelineState = some p
  dirty : s.firstDirtyDescriptorSet < s.curGPUDescriptorSets.length
  setCount : p.gpuPipelineLayout.setLayouts.length = s.curGPUDescriptorSets.length
  table_len : p.gpuPipelineLayout.dynamicOffsetOffsets.length
    = p.gpuPipelineLayout.setLayouts.length + 1
  table_mono : ∀ i, i < p.gpuPipelineLayout.setLayouts.length →
    offsetPosition p.gpuPipelineLayout i ≤ offsetPosition p.gpuPipelineLayout (i + 1)
  table_last : offsetPosition p.gpuPipelineLayout p.gpuPipelineLayout.setLayouts.length
    = p.gpuPipelineLayout.dynamicOffsetCount
  vk_len : s.curVkDescriptorSets.length = s.curGPUDescriptorSets.length
  ptrs_len : s.curDynamicOffsetPtrs.length = s.curGPUDescriptorSets.length
  counts_len : s.curDynamicOffsetCounts.length = s.curGPUDescriptorSets.length
  slots_u32 : s.curGPUDescriptorSets.length ≤ UINT_MAX
  count_u32 : p.gpuPipelineLayout.dynamicOffsetCount ≤ UINT_MAX
  instances : ∀ ds, some ds ∈ s.curGPUDescriptorSets →
    gpuDevice.curBackBufferIndex < ds.instances.length
  arrays : ∀ i, i < p.gpuPipelineLayout.setLayouts.length →
    suppliedOffsets s i ≤ (suppliedArray s i).length

/-! ## `bindDescriptorSet` with an out-of-range set index -/

/-- How a call of `bindDescriptorSet` ends: it returns with a recorder, or it stops at the
failing `CCASSERT`, or it indexes the slot vector (of size `size`) at `index`, outside the
vector. -/
inductive BindOutcome where
  | returned (s : CCVKCommandBuffer)
  | assertionFailed
  | slotOutOfRange (index size : Nat)
  deriving DecidableEq, Repr

/-- Member `bindDescriptorSet`, with its ways of not returning told apart.  The macro
`CCASSERT` is declared outside the file: `assertChecked` says whether it evaluates its
condition (and stops the program when the condition fails) or expands to nothing.  After the
macro the function has no check of the set index: the comparison of the cached slot is its
first access to `_curGPUDescriptorSets[set]`. -/
def bindDescriptorSetOutcome (assertChecked : Bool) (s : CCVKCommandBuffer) (set : Nat)
    (descriptorSet : DescriptorSet) (dynamicOffsetCount : Nat) (dynamicOffsets : List Nat) :
    BindOutcome :=
  if assertChecked = true ∧ ¬ (s.curGPUDescriptorSets.length > set) then
    BindOutcome.assertionFailed
  else
    let gpuDescriptorSet := descriptorSet.gpuDescriptorSet
    match s.curGPUDescriptorSets[set]? with
    | none => BindOutcome.slotOutOfRange set s.curGPUDescriptorSets.length
    | some cached =>
      let s1 :=
        if cached ≠ gpuDescriptorSet then
          { s with
            curGPUDescriptorSets := s.curGPUDescriptorSets.set set gpuDescriptorSet
            firstDirtyDescriptorSet :=
              if set < s.firstDirtyDescriptorSet then set else s.firstDirtyDescriptorSet }
        else s
      let s2 :=
        if dynamicOffsetCount ≠ 0 then
          { s1 with
            curDynamicOffsetPtrs := s1.curDynamicOffsetPtrs.set set dynamicOffsets
            curDynamicOffsetCounts := s1.curDynamicOffsetCounts.set set dynamicOffsetCount
            firstDirtyDescriptorSet :=
              if set < s1.firstDirtyDescriptorSet then set else s1.firstDirtyDescriptorSet }
        else s1
      BindOutcome.returned s2

/-! ## `initialize` and the sizes of the per-set vectors -/

/-- The effect of `vector::resize(n)`: the first `n` entries are kept, and the vector is
padded with value-initialised entries `d` up to size `n`. -/
def vectorResize {α : Type} (v : List α) (n : Nat) (d : α) : List α :=
  v.take n ++ List.replicate (n - v.length) d

/-- Member `initialize` (the name is a keyword of Lean, hence the underscore), for the members of the recorder state: the type, the GPU
command-buffer object that `CC_NEW` creates (`gpuCommandBuffer`), and the four per-set
vectors, resized to `setCount`, the number of buffer offsets of the device's binding
mapping.  The second component is the value returned. -/
def initialize_ (s : CCVKCommandBuffer) (type : CommandBufferType)
    (gpuCommandBuffer : CCVKGPUCommandBuffer) (setCount : Nat) : CCVKCommandBuffer × Bool :=
  ({ s with
      type := type
      gpuCommandBuffer := gpuCommandBuffer
      curGPUDescriptorSets := vectorResize s.curGPUDescriptorSets setCount none
      curVkDescriptorSets := vectorResize s.curVkDescriptorSets setCount VK_NULL_HANDLE
      curDynamicOffsetPtrs := vectorResize s.curDynamicOffsetPtrs setCount []
      curDynamicOffsetCounts := vectorResize s.curDynamicOffsetCounts setCount 0 },
    true)

/-- The recorder is configured with `setCount` sets: its four per-set vectors have that
size. -/
structure Configured (setCount : Nat) (s : CCVKCommandBuffer) : Prop where
  slots : s.curGPUDescriptorSets.length = setCount
  vk : s.curVkDescriptorSets.length = setCount
  ptrs : s.curDynamicOffsetPtrs.length = setCount
  counts : s.curDynamicOffsetCounts.length = setCount

/-! ## Sequences of `bindDescriptorSet` calls -/

/-- The arguments of one `bindDescriptorSet` call. -/
structure BindCall where
  set : Nat
  descriptorSet : DescriptorSet
  dynamicOffsetCount : Nat
  dynamicOffsets : List Nat
  deriving DecidableEq, Repr

/-- A sequence of `bindDescriptorSet` calls, run in order. -/
def bindDescriptorSetSeq (s : CCVKCommandBuffer) : List BindCall → Option CCVKCommandBuffer
  | [] => some s
  | c :: cs =>
    (bindDescriptorSet s c.set c.descriptorSet c.dynamicOffsetCount c.dynamicOffsets).bind
      (fun s1 => bindDescriptorSetSeq s1 cs)

/-- The smallest element of a list of set indices, the sentinel for the empty list. -/
def minSetIndex (l : List Nat) : Nat := l.foldr min UINT_MAX

/-- Reading of "the set indices a call sequence mutates": the set index of every call
that supplies a descriptor set other than the one bound at its slot just before the call
(`slots` holds the bound sets before the first call), or a non-zero dynamic-offset count. -/
def mutatedSets (slots : List (Option CCVKGPUDescriptorSet)) : List BindCall → List Nat
  | [] => []
  | c :: cs =>
    (if slots.getD c.set none ≠ c.descriptorSet.gpuDescriptorSet ∨ c.dynamicOffsetCount ≠ 0
      then [c.set] else [])
      ++ mutatedSets (slots.set c.set c.descriptorSet.gpuDescriptorSet) cs

/-! ## Concrete recorders used as examples -/

/-- A recorder as `begin` leaves it, for a device configured with three sets. -/
def exFresh : CCVKCommandBuffer :=
  { type := .PRIMARY
    gpuCommandBuffer := { began := true, vkCommandBuffer := 100 }
    curGPUPipelineState := none
    curGPUInputAssember := none
    curGPUFBO := none
    curGPUDescriptorSets := [none, none, none]
    curVkDescriptorSets := [0, 0, 0]
    curDynamicOffsetPtrs := [[], [], []]
    curDynamicOffsetCounts := [0, 0, 0]
    curDynamicOffsets := []
    firstDirtyDescriptorSet := UINT_MAX
    numDrawCalls := 0
    numInstances := 0
    numTriangles := 0
    pendingQueue := []
    vkCommandBuffers := []
    accessTypes := []
    imageMemoryBarriers := []
    curViewport := ⟨0, 0, 0, 0, .ofInt 0, .ofInt 1⟩
    curScissor := ⟨0, 0, 0, 0⟩
    blitRegions := []
    curStencilWriteMask := ⟨.FRONT, 0⟩
    curStencilCompareMask := ⟨.FRONT, 0, 0⟩ }

def exDevice : CCVKGPUDevice := { curBackBufferIndex := 0, useMultiDrawIndirect := false }

/-- A pipeline layout with three sets; set 1 declares two dynamic offsets. -/
def exLayout3 : CCVKGPUPipelineLayout :=
  { setLayouts := [⟨900⟩, ⟨901⟩, ⟨902⟩]
    dynamicOffsetOffsets := [0, 0, 2, 2]
    dynamicOffsetCount := 2
    vkPipelineLayout := 50 }

/-- A pipeline layout with two sets, fewer than the device is configured with. -/
def exLayout2 : CCVKGPUPipelineLayout :=
  { setLayouts := [⟨900⟩, ⟨901⟩]
    dynamicOffsetOffsets := [0, 0, 0]
    dynamicOffsetCount := 0
    vkPipelineLayout := 51 }

def exPipeline (primitive : PrimitiveMode) (layout : CCVKGPUPipelineLayout) :
    CCVKGPUPipelineState :=
  { addr := 7, bindPoint := .GRAPHICS, primitive := primitive, gpuPipelineLayout := layout,
    vkPipeline := 70 }

def exSetA : CCVKGPUDescriptorSet := { addr := 11, instances := [501, 502] }

def exSetB : CCVKGPUDescriptorSet := { addr := 12, instances := [601, 602] }

/-- A direct input assembler without index buffer. -/
def exIA (vertexCount instanceCount : Nat) : InputAssembler :=
  { gpuInputAssembler :=
      { addr := 21, gpuVertexBuffers := [], gpuIndexBuffer := none, gpuIndirectBuffer := none,
        vertexBuffers := [], vertexBufferOffsets := [] }
    drawInfo :=
      { vertexCount := vertexCount, firstVertex := 0, indexCount := 0, firstIndex := 0,
        vertexOffset := 0, instanceCount := instanceCount, firstInstance := 0 } }

def exIndexBuffer : CCVKGPUBuffer :=
  { vkBuffer := 31, startOffset := 0, count := 0, instanceSize := 0, stride := 2,
    isDrawIndirectByIndex := false }

/-- A direct input assembler with an index buffer. -/
def exIAIndexed (indexCount instanceCount : Nat) : InputAssembler :=
  { gpuInputAssembler :=
      { addr := 22, gpuVertexBuffers := [], gpuIndexBuffer := some exIndexBuffer,
        gpuIndirectBuffer := none, vertexBuffers := [], vertexBufferOffsets := [] }
    drawInfo :=
      { vertexCount := 0, firstVertex := 0, indexCount := indexCount, firstIndex := 0,
        vertexOffset := 0, instanceCount := instanceCount, firstInstance := 0 } }

/-- An input assembler with an indirect buffer of two records. -/
def exIAIndirect : InputAssembler :=
  { gpuInputAssembler :=
      { addr := 23, gpuVertexBuffers := [], gpuIndexBuffer := none,
        gpuIndirectBuffer := some
          { vkBuffer := 32, startOffset := 64, count := 2, instanceSize := 256, stride := 16,
            isDrawIndirectByIndex := false }
        vertexBuffers := [], vertexBufferOffsets := [] }
    drawInfo :=
      { vertexCount := 0, firstVertex := 0, indexCount := 0, firstIndex := 0,
        vertexOffset := 0, instanceCount := 0, firstInstance := 0 } }

/-- The fresh recorder with a pipeline bound. -/
def exBound (primitive : PrimitiveMode) (layout : CCVKGPUPipelineLayout) : CCVKCommandBuffer :=
  (bindPipelineState exFresh ⟨exPipeline primitive layout⟩).1

/-- The recorder after `bindPipelineState`, `bindDescriptorSet(0, A)` and a draw, which
flushes set 0: a state "after a descriptor flush". -/
def exAfterFlush : Option CCVKCommandBuffer :=
  (bindDescriptorSet (exBound .TRIANGLE_LIST exLayout3) 0 ⟨some exSetA⟩ 0 []).bind
    (fun s => (draw exDevice s (exIA 3 1)).map Prod.fst)

/-- The call `bindDescriptorSet(0, A)` again, without dynamic offsets. -/
def exRebind : BindCall :=
  { set := 0, descriptorSet := ⟨some exSetA⟩, dynamicOffsetCount := 0, dynamicOffsets := [] }

/-- A recorder with a pipeline of layout `layout` bound, set 1 bound to `B` with two dynamic
offsets, and the watermark at 1. -/
def exDirty (primitive : PrimitiveMode) (layout : CCVKGPUPipelineLayout) : CCVKCommandBuffer :=
  { exBound primitive layout with
    curGPUDescriptorSets := [none, some exSetB, none]
    curDynamicOffsetPtrs := [[], [16, 32], []]
    curDynamicOffsetCounts := [0, 2, 0]
    firstDirtyDescriptorSet := 1 }

/-- A recorder configured with three sets after `bindPipelineState` with a pipeline whose
layout has two sets, and `bindDescriptorSet(0, A)`: the watermark is 0. -/
def exDirtyTwoSets : Option CCVKCommandBuffer :=
  bindDescriptorSet (exBound .TRIANGLE_LIST exLayout2) 0 ⟨some exSetA⟩ 0 []

def exDispatch : DispatchInfo :=
  { groupCountX := 4, groupCountY := 2, groupCountZ := 1, indirectBuffer := none,
    indirectOffset := 0 }

/-- A secondary command buffer that has ended recordings pending. -/
def exSecondary (pending : List Nat) (drawCalls instances triangles : Nat) :
    CCVKCommandBuffer :=
  { exFresh with
    type := .SECONDARY
    gpuCommandBuffer := { began := false, vkCommandBuffer := 0 }
    pendingQueue := pending
    numDrawCalls := drawCalls
    numInstances := instances
    numTriangles := triangles }

/-- Three secondary buffers: buffers 1 and 3 have a pending recording, buffer 2 has none. -/
def exBuffers : Buffers := fun c =>
  if c = 1 then exSecondary [201] 5 2 100
  else if c = 2 then exSecondary [] 7 7 7
  else exSecondary [203, 204] 1 1 10

/-- Two secondary buffers with exactly one pending recording each. -/
def exBuffersOnce : Buffers := fun c =>
  if c = 1 then exSecondary [201] 5 2 100 else exSecondary [202] 1 1 10

/-- A stand-in for the barrier helper library: access kind `a` maps to native access type
`a + 100`, whose stage is bit `a % 8`; a barrier's source stages are those of its previous
accesses and its destination stages those of its next accesses. -/
def exThsvs : Thsvs :=
  { THSVS_ACCESS_TYPES := fun a => a + 100
    thsvsGetVulkanMemoryBarrier := fun b =>
      (b.prevAccesses.foldl (fun m a => m ||| 2 ^ (a % 8)) 0,
        b.nextAccesses.foldl (fun m a => m ||| 2 ^ (a % 8)) 0,
        ⟨b.prevAccesses.sum, b.nextAccesses.sum⟩)
    thsvsGetVulkanImageMemoryBarrier := fun b =>
      (b.prevAccesses.foldl (fun m a => m ||| 2 ^ (a % 8)) 0,
        b.nextAccesses.foldl (fun m a => m ||| 2 ^ (a % 8)) 0,
        ⟨b.prevAccesses.sum, b.nextAccesses.sum, 0, 0, b.srcQueueFamilyIndex,
          b.dstQueueFamilyIndex, b.image, b.subresourceRange⟩) }

/-- A Resource Access State: every texture was last a shader read (7), the swapchains have two
images each. -/
def exAccess : AccessState :=
  { textures := fun _ => [7]
    swapchainImageAccessTypes := fun _ => [[1], [2]]
    depthStencilImageAccessTypes := fun _ => [[3], [4]] }

def exTexture (addr : Nat) : CCVKGPUTexture :=
  { addr := addr, vkImage := 1000 + addr, aspectMask := 1,
    layoutRule := .THSVS_IMAGE_LAYOUT_OPTIMAL }

/-- A render pass with one colour attachment and a depth/stencil attachment, declaring the
given end accesses. -/
def exPass (colorEnd depthEnd : AccessType) : CCVKGPURenderPass :=
  { colorAttachments := [⟨.known 1, .CLEAR, colorEnd⟩]
    depthStencilAttachment := ⟨.known 2, .CLEAR, depthEnd⟩
    clearValues := [.color (.ofInt 0) (.ofInt 0) (.ofInt 0) (.ofInt 0), .depthStencil (.ofInt 0) 0]
    vkRenderPass := 80 + colorEnd }

/-- An offscreen framebuffer over textures 40 (colour) and 41 (depth/stencil), created with
render pass `pass`. -/
def exOffscreen (pass : CCVKGPURenderPass) : Framebuffer :=
  ⟨{ addr := 90, gpuRenderPass := pass, gpuColorViews := [some ⟨exTexture 40⟩],
     gpuDepthStencilView := some ⟨exTexture 41⟩, vkFramebuffer := 91, swapchain := none,
     isOffscreen := true }⟩

/-- A render pass with two colour attachments, end accesses 5 and 9, and no depth/stencil. -/
def exPassTwoColors : CCVKGPURenderPass :=
  { colorAttachments := [⟨.known 1, .CLEAR, 5⟩, ⟨.known 1, .CLEAR, 9⟩]
    depthStencilAttachment := ⟨.UNKNOWN, .DISCARD, 0⟩
    clearValues := [.color (.ofInt 0) (.ofInt 0) (.ofInt 0) (.ofInt 0),
      .color (.ofInt 0) (.ofInt 0) (.ofInt 0) (.ofInt 0)]
    vkRenderPass := 82 }

def exSwapchain : CCVKGPUSwapchain :=
  { addr := 60, curImageIndex := 1, swapchainImages := [71, 72],
    vkSwapchainFramebufferListMap := [(92, [810, 811])] }

/-- A swapchain framebuffer whose two colour attachments both have no view, so both stand for
the current swapchain image. -/
def exOnscreenTwoColors : Framebuffer :=
  ⟨{ addr := 92, gpuRenderPass := exPassTwoColors, gpuColorViews := [none, none],
     gpuDepthStencilView := none, vkFramebuffer := 0, swapchain := some exSwapchain,
     isOffscreen := false }⟩

def exArea : Rect := { x := 0, y := 0, width := 640, height := 480 }

def exColors : List Color :=
  [⟨.ofInt 0, .ofInt 0, .ofInt 0, .ofInt 1⟩, ⟨.ofInt 1, .ofInt 1, .ofInt 1, .ofInt 1⟩]

/-- The Resource Access State after `beginRenderPass` followed by `endRenderPass` on the
fresh recorder. -/
def exRoundTrip (renderPass : RenderPass) (fbo : Framebuffer) : Option AccessState :=
  (beginRenderPass BARRIER_DEDUCTION_LEVEL_BASIC exFresh renderPass fbo exArea exColors
      (.ofInt 1) 0 0).bind
    (fun r => (endRenderPass BARRIER_DEDUCTION_LEVEL_BASIC exThsvs exAccess r.1).map
      (fun q => q.1))

/-- A texture barrier on texture `addr` (or on the current swapchain image for `none`). -/
def exTextureBarrier (addr : Option Nat) (prev next : List AccessType) : TextureBarrier :=
  { prevAccesses := prev, nextAccesses := next, discardContents := false, srcQueue := none,
    dstQueue := none, texture := addr.map (fun a => ⟨exTexture a⟩) }

/-- Three texture barriers: texture 40, the current swapchain image, texture 40 again. -/
def exTextureBarriers : List TextureBarrier :=
  [exTextureBarrier (some 40) [3] [5], exTextureBarrier none [2] [9],
    exTextureBarrier (some 40) [5] [6, 7]]

/-- A command-buffer pool that hands out handle 300 and takes the handle back on yield. -/
def exPool : CCVKGPUCommandBufferPool :=
  { request := fun _ => 300, yield := fun _ => VK_NULL_HANDLE }

/-- A secondary buffer that is not recording: an earlier recording is pending, its statistics
are 5 draw calls, 2 instances and 100 triangles, and the caches hold what it bound. -/
def exIdleSecondary : CCVKCommandBuffer :=
  { exSecondary [201] 5 2 100 with
    curGPUPipelineState := some (exPipeline .TRIANGLE_LIST exLayout3)
    curGPUInputAssember := some (exIA 3 1).gpuInputAssembler
    curGPUDescriptorSets := [some exSetA, none, none]
    curDynamicOffsetCounts := [0, 2, 0]
    firstDirtyDescriptorSet := 0 }

/-- A recording primary buffer with a pipeline bound, inside a render pass. -/
def exRecording : CCVKCommandBuffer :=
  { exBound .TRIANGLE_LIST exLayout3 with
    curGPUFBO := some (exOffscreen (exPass 5 6)).gpuFBO
    curGPUInputAssember := some (exIA 3 1).gpuInputAssembler
    numDrawCalls := 4
    numInstances := 4
    numTriangles := 12
    pendingQueue := [201] }

/-- A render pass with two colour attachments and no depth/stencil attachment; the first
attachment is cleared, the second is loaded. -/
def exPassSecondLoad : CCVKGPURenderPass :=
  { exPassTwoColors with
    colorAttachments := [⟨.known 1, .CLEAR, 5⟩, ⟨.known 1, .LOAD, 9⟩]
    vkRenderPass := 83 }

/-- A render pass whose first colour attachment and whose depth/stencil attachment are
loaded. -/
def exPassLoad : CCVKGPURenderPass :=
  { exPass 5 6 with
    colorAttachments := [⟨.known 1, .LOAD, 5⟩]
    depthStencilAttachment := ⟨.known 2, .LOAD, 6⟩ }

/-- An offscreen framebuffer over the colour textures 40 and 42, without depth/stencil view,
created with render pass `pass`. -/
def exOffscreenTwoColors (pass : CCVKGPURenderPass) : Framebuffer :=
  ⟨{ addr := 93, gpuRenderPass := pass,
     gpuColorViews := [some ⟨exTexture 40⟩, some ⟨exTexture 42⟩],
     gpuDepthStencilView := none, vkFramebuffer := 94, swapchain := none,
     isOffscreen := true }⟩

/-- Two clear colours: red and green, both opaque. -/
def exClearColors : List Color :=
  [⟨.ofInt 1, .ofInt 0, .ofInt 0, .ofInt 1⟩, ⟨.ofInt 0, .ofInt 1, .ofInt 0, .ofInt 1⟩]

/-- Memberwise inequality of two viewports. -/
def exViewportNe (a b : Viewport) : Bool := decide (a ≠ b)

/-- Memberwise inequality of two rectangles. -/
def exRectNe (a b : Rect) : Bool := decide (a ≠ b)

def exViewport : Viewport := ⟨0, 0, 640, 480, .ofInt 0, .ofInt 1⟩

def exVertexBuffer (vkBuffer startOffset : Nat) : CCVKGPUBuffer :=
  { vkBuffer := vkBuffer, startOffset := startOffset, count := 0, instanceSize := 0,
    stride := 16, isDrawIndirectByIndex := false }

/-- An input assembler with two vertex buffers and a 16-bit index buffer, whose native arrays
have not been filled in yet. -/
def exIAVertexBuffers : InputAssembler :=
  { gpuInputAssembler :=
      { addr := 24, gpuVertexBuffers := [exVertexBuffer 33 0, exVertexBuffer 34 128],
        gpuIndexBuffer := some exIndexBuffer, gpuIndirectBuffer := none,
        vertexBuffers := [], vertexBufferOffsets := [] }
    drawInfo :=
      { vertexCount := 0, firstVertex := 0, indexCount := 6, firstIndex := 0,
        vertexOffset := 0, instanceCount := 1, firstInstance := 0 } }

/-- Stand-ins for the constants of `blitTexture`: transfer read and transfer write are the
access kinds 17 and 18, which the table of `exThsvs` maps to the native access types 117 and
118; the filter table is the identity. -/
def exBlitTables : BlitTables :=
  { THSVS_ACCESS_TRANSFER_READ := 117
    THSVS_ACCESS_TRANSFER_WRITE := 118
    TRANSFER_READ := 17
    TRANSFER_WRITE := 18
    VK_FILTERS := fun f => f }

/-- A blit at barrier deduction level full from recorder `exFresh`, without regions. -/
def exBlit (st : AccessState) (srcTexture dstTexture : Option Texture) :
    Option (AccessState × CCVKCommandBuffer × List VkCmd) :=
  blitTexture BARRIER_DEDUCTION_LEVEL_FULL exThsvs exBlitTables (some exSwapchain) st exFresh
    srcTexture dstTexture [] 0

/-- The access types recorded for the current swapchain image (image 72 of swapchain 60). -/
def exSwapchainAccess (st : AccessState) : Option (List ThsvsAccessType) :=
  st.get (Resource.swapchainImage exSwapchain.addr exSwapchain.curImageIndex)

/-- A Resource Access State in which the current swapchain image was last written by a
transfer: the state a blit to the swapchain image leaves. -/
def exAccessWritten : AccessState :=
  { exAccess with swapchainImageAccessTypes := fun _ => [[1], [118]] }

/-- The recorder `exDirty` after a draw, which flushes: set 1 is bound to `B` with the two
dynamic offsets 16 and 32 recorded for it, and the watermark is the sentinel. -/
def exFlushed : Option CCVKCommandBuffer :=
  (draw exDevice (exDirty .TRIANGLE_LIST exLayout3) (exIA 3 1)).map Prod.fst

/-- A recorder with a triangle-strip pipeline bound whose triangle counter stands at 12. -/
def exStripCounted : CCVKCommandBuffer :=
  { exBound .TRIANGLE_STRIP exLayout3 with numTriangles := 12 }

/-- A recorder with a triangle-fan pipeline bound whose triangle counter stands at 12. -/
def exFanCounted : CCVKCommandBuffer :=
  { exBound .TRIANGLE_FAN exLayout3 with numTriangles := 12 }

/-- The native blits among a list of native calls, by their two image layouts. -/
def blitLayouts (cmds : List VkCmd) : List (VkImageLayout × VkImageLayout) :=
  cmds.filterMap (fun c =>
    match c with
    | .BlitImage _ srcImageLayout _ dstImageLayout _ _ => some (srcImageLayout, dstImageLayout)
    | _ => none)

/-- The recording buffer of the examples after `setStencilWriteMask(FRONT, 255)` and
`setStencilCompareMask(FRONT, 1, 255)`. -/
def exStencilSet : CCVKCommandBuffer :=
  (setStencilCompareMask (setStencilWriteMask exRecording .FRONT 255).1 .FRONT 1 255).1

/-- The recorder after `end` and a new `begin` on `exStencilSet`. -/
def exNextRecording : Option CCVKCommandBuffer :=
  (begin exPool (end_ exPool exStencilSet).1 none 0 none).map Prod.fst

/-- The viewport of the last native set-viewport call of a list of native calls. -/
def lastViewport (cmds : List VkCmd) : Option VkViewport :=
  (cmds.filterMap (fun c =>
    match c with
    | .SetViewport viewport => some viewport
    | _ => none)).getLast?

/-- The rectangle of the last native set-scissor call of a list of native calls. -/
def lastScissor (cmds : List VkCmd) : Option VkRect2D :=
  (cmds.filterMap (fun c =>
    match c with
    | .SetScissor scissor => some scissor
    | _ => none)).getLast?

/-- A render area covering the upper left quarter of `exArea`. -/
def exQuarterArea : Rect := { x := 0, y := 0, width := 320, height := 240 }

/-- One recording on the fresh recorder: `setViewport(exViewport)` and `setScissor(exArea)`,
both 640 by 480, then `beginRenderPass` in inline mode over the render area `exQuarterArea`,
then `setViewport(exViewport)` and `setScissor(exArea)` again.  Returns the native calls up to
and including those of `beginRenderPass`, and the native calls of the two repeated setters. -/
def exViewportTrace : Option (List VkCmd × List VkCmd × List VkCmd) :=
  let r1 := setViewport exViewportNe exFresh exViewport
  let r2 := setScissor exRectNe r1.1 exArea
  (beginRenderPass BARRIER_DEDUCTION_LEVEL_BASIC r2.1 ⟨exPass 5 6⟩ (exOffscreen (exPass 5 6))
      exQuarterArea exColors (.ofInt 1) 0 0).map
    (fun r3 =>
      (r1.2 ++ r2.2 ++ r3.2.2, (setViewport exViewportNe r3.1 exViewport).2,
        (setScissor exRectNe r3.1 exArea).2))

/-- A command-buffer pool that hands out handle 301. -/
def exPoolNext : CCVKGPUCommandBufferPool :=
  { request := fun _ => 301, yield := fun _ => VK_NULL_HANDLE }

/-- A secondary buffer after one recording: `begin`, `bindPipelineState`, one draw of three
vertices (one triangle), `end`. -/
def exRecordedOnce : Option CCVKCommandBuffer :=
  (begin exPool (exSecondary [] 0 0 0) (some ⟨exPass 5 6⟩) 0 none).bind (fun r =>
    (draw exDevice (bindPipelineState r.1 ⟨exPipeline .TRIANGLE_LIST exLayout3⟩).1
        (exIA 3 1)).map
      (fun d => (end_ exPool d.1).1))

/-- The secondary buffer `exRecordedOnce` after a second recording without any draw: `begin`,
`end`. -/
def exRecordedTwice : Option CCVKCommandBuffer :=
  exRecordedOnce.bind (fun s =>
    (begin exPoolNext s (some ⟨exPass 5 6⟩) 0 none).map (fun r => (end_ exPoolNext r.1).1))

/-- The pending queue and the three counters of a recorder. -/
def pendingAndCounters (s : CCVKCommandBuffer) : List Nat × Nat × Nat × Nat :=
  (s.pendingQueue, s.numDrawCalls, s.numInstances, s.numTriangles)

/-- The recorder `exDirty` with one dynamic offset supplied for set 1, where the layout
declares two, and the offset array holding 7 and 9 from an earlier flush. -/
def exDirtyShort : CCVKCommandBuffer :=
  { exDirty .TRIANGLE_LIST exLayout3 with
    curDynamicOffsetPtrs := [[], [16], []]
    curDynamicOffsetCounts := [0, 1, 0]
    curDynamicOffsets := [7, 9] }

/-- A device whose current back buffer is the third one (index 2). -/
def exDeviceThirdBuffer : CCVKGPUDevice :=
  { curBackBufferIndex := 2, useMultiDrawIndirect := false }

/-- The recorder `exDirty` with an array of one dynamic offset supplied for set 1 together
with the count 2. -/
def exDirtyShortArray : CCVKCommandBuffer :=
  { exDirty .TRIANGLE_LIST exLayout3 with curDynamicOffsetPtrs := [[], [16], []] }

end CCVKCommandBuffer

/-! # Theorems -/

namespace CCVKCommandBuffer

theorem getD_none_eq_set_self {α : Type} (l : List (Option α)) (k : Nat) (v : Option α)
    (hk : k < l.length) (h : l.getD k none = v) : l.set k v = l := by
  apply List.ext_getElem (by simp)
  intro i h1 h2
  by_cases hik : k = i
  · subst hik
    simp only [List.getElem_set_self]
    rw [← h]; simp [List.getD, List.getElem?_eq_getElem hk]
  · simp [List.getElem_set_ne hik]

theorem bindDescriptorSet_spec (s : CCVKCommandBuffer) (k : Nat) (d : DescriptorSet)
    (c : Nat) (offs : List Nat) (hk : k < s.curGPUDescriptorSets.length) :
    ∃ s1, bindDescriptorSet s k d c offs = some s1 ∧
      s1.curGPUDescriptorSets = s.curGPUDescriptorSets.set k d.gpuDescriptorSet ∧
      s1.firstDirtyDescriptorSet =
        (if s.curGPUDescriptorSets.getD k none ≠ d.gpuDescriptorSet ∨ c ≠ 0
          then min k s.firstDirtyDescriptorSet else s.firstDirtyDescriptorSet) := by
  unfold bindDescriptorSet
  rw [if_pos hk]
  refine ⟨_, rfl, ?_, ?_⟩
  · by_cases h1 : s.curGPUDescriptorSets.getD k none = d.gpuDescriptorSet
    · have hset := getD_none_eq_set_self _ k _ hk h1
      by_cases h2 : c = 0
      · simp only [ne_eq, h1, h2, not_true_eq_false, if_false, hset]
      · simp only [ne_eq, h1, h2, not_true_eq_false, not_false_eq_true, if_true, if_false, hset]
    · by_cases h2 : c = 0
      · simp only [ne_eq, h1, h2, not_true_eq_false, not_false_eq_true, if_true, if_false]
      · simp only [ne_eq, h1, h2, not_false_eq_true, if_true]
  · by_cases h1 : s.curGPUDescriptorSets.getD k none = d.gpuDescriptorSet
    · by_cases h2 : c = 0
      · simp only [ne_eq, h1, h2, not_true_eq_false, if_false, or_self]
      · simp only [ne_eq, h1, h2, not_true_eq_false, not_false_eq_true, if_true, if_false,
          false_or]
        split <;> omega
    · by_cases h2 : c = 0
      · simp only [ne_eq, h1, h2, not_true_eq_false, not_false_eq_true, if_true, if_false,
          or_false]
        split <;> omega
      · simp only [ne_eq, h1, h2, not_false_eq_true, if_true, or_self]
        split
        · rw [if_neg (lt_irrefl k)]; omega
        · omega

theorem foldr_min_min (l : List Nat) (k w : Nat) :
    l.foldr min (min k w) = min k (l.foldr min w) := by
  induction l with
  | nil => rfl
  | cons a l ih => simp only [List.foldr_cons, ih]; omega

theorem foldr_min_le_init (l : List Nat) (w : Nat) : l.foldr min w ≤ w := by
  induction l with
  | nil => exact le_refl _
  | cons a l ih => simp only [List.foldr_cons]; omega

theorem bindDescriptorSetSeq_watermark (calls : List BindCall) :
    ∀ s : CCVKCommandBuffer, (∀ c ∈ calls, c.set < s.curGPUDescriptorSets.length) →
      ∃ s1, bindDescriptorSetSeq s calls = some s1 ∧
        s1.firstDirtyDescriptorSet =
          (mutatedSets s.curGPUDescriptorSets calls).foldr min s.firstDirtyDescriptorSet := by
  induction calls with
  | nil => intro s _; exact ⟨s, rfl, rfl⟩
  | cons c cs ih =>
    intro s hr
    have hc : c.set < s.curGPUDescriptorSets.length := hr c (List.mem_cons_self _ _)
    obtain ⟨s1, h1, hslots, hw⟩ :=
      bindDescriptorSet_spec s c.set c.descriptorSet c.dynamicOffsetCount c.dynamicOffsets hc
    have hr1 : ∀ x ∈ cs, x.set < s1.curGPUDescriptorSets.length := by
      intro x hx
      rw [hslots, List.length_set]
      exact hr x (List.mem_cons_of_mem _ hx)
    obtain ⟨s2, h2, hw2⟩ := ih s1 hr1
    refine ⟨s2, ?_, ?_⟩
    · simp only [bindDescriptorSetSeq, h1, Option.some_bind, h2]
    · rw [hw2, hw, hslots]
      simp only [mutatedSets]
      split
      · rw [foldr_min_min]; rfl
      · rfl

theorem mutatedSets_fresh (calls : List BindCall) :
    ∀ (slots : List (Option CCVKGPUDescriptorSet)) (w : Nat),
      (∀ c ∈ calls, c.set < slots.length) →
      (∀ c ∈ calls, c.descriptorSet.gpuDescriptorSet ≠ none) →
      (∀ i, slots.getD i none ≠ none → w ≤ i) →
      (mutatedSets slots calls).foldr min w = (calls.map BindCall.set).foldr min w := by
  induction calls with
  | nil => intro _ _ _ _ _; rfl
  | cons c cs ih =>
    intro slots w hr hd hinv
    have hc : c.set < slots.length := hr c (List.mem_cons_self _ _)
    have hdc := hd c (List.mem_cons_self _ _)
    have hr1 : ∀ x ∈ cs, x.set < (slots.set c.set c.descriptorSet.gpuDescriptorSet).length := by
      intro x hx
      rw [List.length_set]
      exact hr x (List.mem_cons_of_mem _ hx)
    have hd1 : ∀ x ∈ cs, x.descriptorSet.gpuDescriptorSet ≠ none :=
      fun x hx => hd x (List.mem_cons_of_mem _ hx)
    have hget : ∀ i, (slots.set c.set c.descriptorSet.gpuDescriptorSet).getD i none ≠ none →
        i = c.set ∨ slots.getD i none ≠ none := by
      intro i hi
      by_cases hik : c.set = i
      · exact Or.inl hik.symm
      · right
        simpa [List.getD_eq_getElem?_getD, List.getElem?_set_ne hik] using hi
    simp only [mutatedSets, List.map_cons, List.foldr_cons]
    split
    · have hinv1 : ∀ i, (slots.set c.set c.descriptorSet.gpuDescriptorSet).getD i none ≠ none →
          min c.set w ≤ i := by
        intro i hi
        rcases hget i hi with h | h
        · omega
        · have := hinv i h; omega
      have := ih _ (min c.set w) hr1 hd1 hinv1
      rw [foldr_min_min, foldr_min_min] at this
      simpa using this
    · rename_i hne
      have hbound : slots.getD c.set none ≠ none := by
        intro h0
        apply hne
        left
        rw [h0]
        exact fun h => hdc h.symm
      have hwk : w ≤ c.set := hinv _ hbound
      have hinv1 : ∀ i, (slots.set c.set c.descriptorSet.gpuDescriptorSet).getD i none ≠ none →
          w ≤ i := by
        intro i hi
        rcases hget i hi with h | h
        · omega
        · exact hinv i h
      have := ih _ w hr1 hd1 hinv1
      simp only [List.nil_append]
      rw [this]
      have := foldr_min_le_init (cs.map BindCall.set) w
      omega

/-- C1 (as amended).  Starting from a recorder whose dirty watermark is the sentinel, every
finite sequence of `bindDescriptorSet` calls with in-range set indices succeeds, and afterwards
the watermark is the minimum set index among the calls that supplied a descriptor set other
than the one bound at their slot, or a non-zero dynamic-offset count (the sentinel when there
is no such call).  When every slot is unbound at the start (the state `begin` leaves) and every
call supplies a non-null descriptor set, this is the minimum set index named by any call. -/
theorem C1_watermark_is_min_mutated_set (s : CCVKCommandBuffer) (calls : List BindCall)
    (hs : s.firstDirtyDescriptorSet = UINT_MAX)
    (hr : ∀ c ∈ calls, c.set < s.curGPUDescriptorSets.length) :
    ∃ s1, bindDescriptorSetSeq s calls = some s1 ∧
      s1.firstDirtyDescriptorSet = minSetIndex (mutatedSets s.curGPUDescriptorSets calls) ∧
      ((∀ slot ∈ s.curGPUDescriptorSets, slot = none) →
        (∀ c ∈ calls, c.descriptorSet.gpuDescriptorSet ≠ none) →
        s1.firstDirtyDescriptorSet = minSetIndex (calls.map BindCall.set)) := by
  obtain ⟨s1, h1, hw⟩ := bindDescriptorSetSeq_watermark calls s hr
  refine ⟨s1, h1, ?_, ?_⟩
  · rw [hw, hs]; rfl
  · intro hnone hd
    rw [hw, hs]
    apply mutatedSets_fresh calls _ _ hr hd
    intro i hi
    exfalso
    apply hi
    by_cases hlt : i < s.curGPUDescriptorSets.length
    · rw [List.getD_eq_getElem _ _ hlt]
      exact hnone _ (List.getElem_mem _)
    · rw [List.getD_eq_default _ _ (by omega)]

/-- Witness for C1: on the fresh recorder, binding set 2 and then set 1 leaves the watermark
at 1. -/
theorem C1_watermark_is_min_mutated_set_witness :
    exFresh.firstDirtyDescriptorSet = UINT_MAX ∧
    (∃ s1, bindDescriptorSetSeq exFresh
        [⟨2, ⟨some exSetA⟩, 0, []⟩, ⟨1, ⟨some exSetB⟩, 0, []⟩] = some s1 ∧
      s1.firstDirtyDescriptorSet = 1) := by
  refine ⟨rfl, ?_⟩
  obtain ⟨s1, h1, -, h3⟩ := C1_watermark_is_min_mutated_set exFresh
    [⟨2, ⟨some exSetA⟩, 0, []⟩, ⟨1, ⟨some exSetB⟩, 0, []⟩] rfl (by decide)
  refine ⟨s1, h1, ?_⟩
  rw [h3 (by decide) (by decide)]
  decide

/-- Counterexample to C1 as stated.  After a descriptor flush the watermark is the sentinel;
`bindDescriptorSet(0, A)` with the set `A` that is already bound at slot 0 names set 0, yet
the watermark stays at the sentinel instead of becoming 0. -/
theorem C1_counterexample :
    exAfterFlush.map (fun s => s.firstDirtyDescriptorSet) = some UINT_MAX ∧
    (exAfterFlush.bind (fun s => bindDescriptorSetSeq s [exRebind])).map
        (fun s => s.firstDirtyDescriptorSet) = some UINT_MAX ∧
    minSetIndex ([exRebind].map BindCall.set) = 0 ∧
    (exAfterFlush.bind (fun s => bindDescriptorSetSeq s [exRebind])).map
        (fun s => s.firstDirtyDescriptorSet) ≠ some (minSetIndex ([exRebind].map BindCall.set)) := by
  decide

theorem subU32_of_le (a b : Nat) (hb : b ≤ a) (ha : a ≤ UINT_MAX) : subU32 a b = a - b := by
  unfold subU32
  unfold UINT_MAX at ha
  omega

theorem u32_of_le (a : Nat) (ha : a ≤ UINT_MAX) : u32 a = a := by
  unfold u32
  unfold UINT_MAX at ha
  omega

theorem resizeZero_length (v : List Nat) (n : Nat) : (resizeZero v n).length = n := by
  simp only [resizeZero, List.length_append, List.length_take, List.length_replicate]
  omega

theorem FlushReady.table_le {gpuDevice : CCVKGPUDevice} {s : CCVKCommandBuffer}
    {p : CCVKGPUPipelineState} (h : FlushReady gpuDevice s p) :
    ∀ d i, i + d ≤ p.gpuPipelineLayout.setLayouts.length →
      p.gpuPipelineLayout.dynamicOffsetOffsets.getD i 0
        ≤ p.gpuPipelineLayout.dynamicOffsetOffsets.getD (i + d) 0 := by
  intro d
  induction d with
  | zero => intro i _; exact le_refl _
  | succ d ih =>
    intro i hi
    have h1 := ih i (by omega)
    have h2 := h.table_mono (i + d) (by omega)
    exact le_trans h1 h2

theorem FlushReady.table_le_count {gpuDevice : CCVKGPUDevice} {s : CCVKCommandBuffer}
    {p : CCVKGPUPipelineState} (h : FlushReady gpuDevice s p) (i : Nat)
    (hi : i ≤ p.gpuPipelineLayout.setLayouts.length) :
    p.gpuPipelineLayout.dynamicOffsetOffsets.getD i 0 ≤ p.gpuPipelineLayout.dynamicOffsetCount := by
  have h1 := h.table_le (p.gpuPipelineLayout.setLayouts.length - i) i (by omega)
  have h2 : i + (p.gpuPipelineLayout.setLayouts.length - i)
      = p.gpuPipelineLayout.setLayouts.length := by omega
  rw [h2] at h1
  exact le_trans h1 h.table_last

theorem flushSet_ready {gpuDevice : CCVKGPUDevice} {s : CCVKCommandBuffer}
    {p : CCVKGPUPipelineState} (h : FlushReady gpuDevice s p) (acc : List Nat × List Nat)
    (i : Nat) (hi : i < p.gpuPipelineLayout.setLayouts.length)
    (h1 : acc.1.length = s.curGPUDescriptorSets.length)
    (h2 : acc.2.length = p.gpuPipelineLayout.dynamicOffsetCount) :
    ∃ acc1, flushSet gpuDevice p.gpuPipelineLayout s acc i = some acc1 ∧
      acc1.1.length = acc.1.length ∧ acc1.2.length = acc.2.length := by
  have hn := h.setCount_le
  have hislots : i < s.curGPUDescriptorSets.length := by omega
  have hslot : s.curGPUDescriptorSets[i]? = some s.curGPUDescriptorSets[i] :=
    List.getElem?_eq_getElem hislots
  have hhi : p.gpuPipelineLayout.dynamicOffsetOffsets[i + 1]?
      = some (p.gpuPipelineLayout.dynamicOffsetOffsets.getD (i + 1) 0) := by
    have : i + 1 < p.gpuPipelineLayout.dynamicOffsetOffsets.length := by rw [h.table_len]; omega
    rw [List.getElem?_eq_getElem this, List.getD_eq_getElem _ _ this]
  have hlo : p.gpuPipelineLayout.dynamicOffsetOffsets[i]?
      = some (p.gpuPipelineLayout.dynamicOffsetOffsets.getD i 0) := by
    have : i < p.gpuPipelineLayout.dynamicOffsetOffsets.length := by rw [h.table_len]; omega
    rw [List.getElem?_eq_getElem this, List.getD_eq_getElem _ _ this]
  have hsup : s.curDynamicOffsetCounts[i]? = some (s.curDynamicOffsetCounts.getD i 0) := by
    have : i < s.curDynamicOffsetCounts.length := by rw [h.counts_len]; omega
    rw [List.getElem?_eq_getElem this, List.getD_eq_getElem _ _ this]
  have hsrc : s.curDynamicOffsetPtrs[i]? = some (s.curDynamicOffsetPtrs.getD i []) := by
    have : i < s.curDynamicOffsetPtrs.length := by rw [h.ptrs_len]; omega
    rw [List.getElem?_eq_getElem this, List.getD_eq_getElem _ _ this]
  have hmono := h.table_mono i hi
  have hcap := h.table_le_count (i + 1) (by omega)
  have hsub := subU32_of_le _ _ hmono (le_trans hcap h.count_u32)
  have hcopy := h.supplied i hi
  have hacc : ¬ acc.1.length ≤ i := by omega
  have hcount : min (p.gpuPipelineLayout.dynamicOffsetOffsets.getD (i + 1) 0
      - p.gpuPipelineLayout.dynamicOffsetOffsets.getD i 0) (s.curDynamicOffsetCounts.getD i 0)
      ≤ p.gpuPipelineLayout.dynamicOffsetOffsets.getD (i + 1) 0
        - p.gpuPipelineLayout.dynamicOffsetOffsets.getD i 0 := min_le_left _ _
  have hdst : p.gpuPipelineLayout.dynamicOffsetOffsets.getD i 0
      + ((s.curDynamicOffsetPtrs.getD i []).take
          (min (p.gpuPipelineLayout.dynamicOffsetOffsets.getD (i + 1) 0
            - p.gpuPipelineLayout.dynamicOffsetOffsets.getD i 0)
            (s.curDynamicOffsetCounts.getD i 0))).length ≤ acc.2.length := by
    rw [List.length_take, h2]
    omega
  have hlen : ¬ (s.curDynamicOffsetPtrs.getD i []).length
      < min (p.gpuPipelineLayout.dynamicOffsetOffsets.getD (i + 1) 0
        - p.gpuPipelineLayout.dynamicOffsetOffsets.getD i 0)
        (s.curDynamicOffsetCounts.getD i 0) := by omega
  have hvk : ∃ vk, flushDescriptorSet gpuDevice p.gpuPipelineLayout s.curGPUDescriptorSets[i] i
      = some vk := by
    unfold flushDescriptorSet
    cases hds : s.curGPUDescriptorSets[i] with
    | none =>
      exact ⟨p.gpuPipelineLayout.setLayouts[i].defaultDescriptorSet,
        by simp [List.getElem?_eq_getElem hi]⟩
    | some ds =>
      have hmem : some ds ∈ s.curGPUDescriptorSets := by
        rw [← hds]; exact List.getElem_mem _
      exact ⟨_, List.getElem?_eq_getElem (h.instances ds hmem)⟩
  obtain ⟨vk, hvk⟩ := hvk
  have key : flushSet gpuDevice p.gpuPipelineLayout s acc i =
      some (acc.1.set i vk,
        if min (p.gpuPipelineLayout.dynamicOffsetOffsets.getD (i + 1) 0
            - p.gpuPipelineLayout.dynamicOffsetOffsets.getD i 0)
            (s.curDynamicOffsetCounts.getD i 0) > 0 then
          acc.2.take (p.gpuPipelineLayout.dynamicOffsetOffsets.getD i 0)
            ++ (s.curDynamicOffsetPtrs.getD i []).take
              (min (p.gpuPipelineLayout.dynamicOffsetOffsets.getD (i + 1) 0
                - p.gpuPipelineLayout.dynamicOffsetOffsets.getD i 0)
                (s.curDynamicOffsetCounts.getD i 0))
            ++ acc.2.drop (p.gpuPipelineLayout.dynamicOffsetOffsets.getD i 0
              + ((s.curDynamicOffsetPtrs.getD i []).take
                (min (p.gpuPipelineLayout.dynamicOffsetOffsets.getD (i + 1) 0
                  - p.gpuPipelineLayout.dynamicOffsetOffsets.getD i 0)
                  (s.curDynamicOffsetCounts.getD i 0))).length)
        else acc.2) := by
    unfold flushSet
    simp only [hslot, Option.bind_eq_bind, Option.some_bind, hvk, hacc, if_false, hhi, hlo,
      hsup, hsub, Option.pure_def]
    split
    · simp only [hsrc, Option.some_bind, hlen, if_false, memcpyAt, hdst, if_true]
    · rfl
  rw [key]
  refine ⟨_, rfl, by simp, ?_⟩
  split
  · simp only [List.length_append, List.length_take, List.length_drop]
    rw [List.length_take] at hdst
    omega
  · rfl

theorem flush_fold_ready {gpuDevice : CCVKGPUDevice} {s : CCVKCommandBuffer}
    {p : CCVKGPUPipelineState} (h : FlushReady gpuDevice s p) (l : List Nat)
    (hl : ∀ i ∈ l, i < p.gpuPipelineLayout.setLayouts.length) :
    ∀ acc : List Nat × List Nat, acc.1.length = s.curGPUDescriptorSets.length →
      acc.2.length = p.gpuPipelineLayout.dynamicOffsetCount →
      ∃ acc1, l.foldlM (flushSet gpuDevice p.gpuPipelineLayout s) acc = some acc1 ∧
        acc1.1.length = s.curGPUDescriptorSets.length ∧
        acc1.2.length = p.gpuPipelineLayout.dynamicOffsetCount := by
  induction l with
  | nil => intro acc h1 h2; exact ⟨acc, rfl, h1, h2⟩
  | cons i l ih =>
    intro acc h1 h2
    obtain ⟨acc1, hstep, g1, g2⟩ :=
      flushSet_ready h acc i (hl i (List.mem_cons_self _ _)) h1 h2
    obtain ⟨acc2, hrest, k1, k2⟩ :=
      ih (fun j hj => hl j (List.mem_cons_of_mem _ hj)) acc1 (by rw [g1, h1]) (by rw [g2, h2])
    exact ⟨acc2, by simp only [List.foldlM_cons, hstep, Option.bind_eq_bind, Option.some_bind,
      hrest], k1, k2⟩

theorem bindDescriptorSets_ready {gpuDevice : CCVKGPUDevice} {s : CCVKCommandBuffer}
    {p : CCVKGPUPipelineState} (h : FlushReady gpuDevice s p)
    (hw : s.firstDirtyDescriptorSet < s.curGPUDescriptorSets.length)
    (bindPoint : VkPipelineBindPoint) :
    ∃ curVk curDyn cmd, bindDescriptorSets bindPoint gpuDevice s =
      some ({ s with
              curVkDescriptorSets := curVk
              curDynamicOffsets := curDyn
              firstDirtyDescriptorSet := UINT_MAX }, cmd) ∧
      cmd = VkCmd.BindDescriptorSets bindPoint p.gpuPipelineLayout.vkPipelineLayout
          s.firstDirtyDescriptorSet
          (p.gpuPipelineLayout.setLayouts.length - s.firstDirtyDescriptorSet)
          ((curVk.drop s.firstDirtyDescriptorSet).take
            (p.gpuPipelineLayout.setLayouts.length - s.firstDirtyDescriptorSet))
          (p.gpuPipelineLayout.dynamicOffsetOffsets.getD p.gpuPipelineLayout.setLayouts.length 0
            - p.gpuPipelineLayout.dynamicOffsetOffsets.getD s.firstDirtyDescriptorSet 0)
          ((curDyn.drop
              (p.gpuPipelineLayout.dynamicOffsetOffsets.getD s.firstDirtyDescriptorSet 0)).take
            (p.gpuPipelineLayout.dynamicOffsetOffsets.getD p.gpuPipelineLayout.setLayouts.length 0
              - p.gpuPipelineLayout.dynamicOffsetOffsets.getD s.firstDirtyDescriptorSet 0)) := by
  have hn32 : p.gpuPipelineLayout.setLayouts.length ≤ UINT_MAX :=
    le_trans h.setCount_le h.slots_u32
  have hu : u32 p.gpuPipelineLayout.setLayouts.length = p.gpuPipelineLayout.setLayouts.length :=
    u32_of_le _ hn32
  have hsub : subU32 p.gpuPipelineLayout.setLayouts.length s.firstDirtyDescriptorSet
      = p.gpuPipelineLayout.setLayouts.length - s.firstDirtyDescriptorSet :=
    subU32_of_le _ _ h.first_le hn32
  have hend : u32 (s.firstDirtyDescriptorSet
      + (p.gpuPipelineLayout.setLayouts.length - s.firstDirtyDescriptorSet))
      = p.gpuPipelineLayout.setLayouts.length := by
    have : s.firstDirtyDescriptorSet
        + (p.gpuPipelineLayout.setLayouts.length - s.firstDirtyDescriptorSet)
        = p.gpuPipelineLayout.setLayouts.length := by have := h.first_le; omega
    rw [this, hu]
  have hrange : ∀ i ∈ List.range' s.firstDirtyDescriptorSet
      (p.gpuPipelineLayout.setLayouts.length - s.firstDirtyDescriptorSet),
      i < p.gpuPipelineLayout.setLayouts.length := by
    intro i hi
    rw [List.mem_range'_1] at hi
    omega
  obtain ⟨acc, hfold, hl1, hl2⟩ := flush_fold_ready h _ hrange
    (s.curVkDescriptorSets, resizeZero s.curDynamicOffsets p.gpuPipelineLayout.dynamicOffsetCount)
    h.vk_len (resizeZero_length _ _)
  have hstart : p.gpuPipelineLayout.dynamicOffsetOffsets[s.firstDirtyDescriptorSet]?
      = some (p.gpuPipelineLayout.dynamicOffsetOffsets.getD s.firstDirtyDescriptorSet 0) := by
    have : s.firstDirtyDescriptorSet < p.gpuPipelineLayout.dynamicOffsetOffsets.length := by
      rw [h.table_len]; have := h.first_le; omega
    rw [List.getElem?_eq_getElem this, List.getD_eq_getElem _ _ this]
  have hlast : p.gpuPipelineLayout.dynamicOffsetOffsets[p.gpuPipelineLayout.setLayouts.length]?
      = some (p.gpuPipelineLayout.dynamicOffsetOffsets.getD
          p.gpuPipelineLayout.setLayouts.length 0) := by
    have : p.gpuPipelineLayout.setLayouts.length
        < p.gpuPipelineLayout.dynamicOffsetOffsets.length := by rw [h.table_len]; omega
    rw [List.getElem?_eq_getElem this, List.getD_eq_getElem _ _ this]
  have hmono : p.gpuPipelineLayout.dynamicOffsetOffsets.getD s.firstDirtyDescriptorSet 0
      ≤ p.gpuPipelineLayout.dynamicOffsetOffsets.getD p.gpuPipelineLayout.setLayouts.length 0 := by
    have := h.table_le (p.gpuPipelineLayout.setLayouts.length - s.firstDirtyDescriptorSet)
      s.firstDirtyDescriptorSet (by have := h.first_le; omega)
    have e : s.firstDirtyDescriptorSet
        + (p.gpuPipelineLayout.setLayouts.length - s.firstDirtyDescriptorSet)
        = p.gpuPipelineLayout.setLayouts.length := by have := h.first_le; omega
    rwa [e] at this
  have hsub2 := subU32_of_le _ _ hmono (le_trans h.table_last h.count_u32)
  have hvk : ¬ acc.1.length ≤ s.firstDirtyDescriptorSet := by rw [hl1]; omega
  refine ⟨acc.1, acc.2, _, ?_, rfl⟩
  unfold bindDescriptorSets
  simp only [h.bound, Option.bind_eq_bind, Option.some_bind, hu, hsub, hfold, hstart, hend,
    hlast, hsub2, hvk, if_false, Option.pure_def]

/-- What the guard of `draw` and `dispatch` does: one flush call when the watermark is below
the slot count, nothing otherwise; only the two flush vectors and the watermark change. -/
theorem flushIfDirty_ready {gpuDevice : CCVKGPUDevice} {s : CCVKCommandBuffer}
    (h : DrawReady gpuDevice s) (bindPoint : VkPipelineBindPoint) :
    ∃ curVk curDyn first flushed, flushIfDirty bindPoint gpuDevice s =
      some ({ s with
              curVkDescriptorSets := curVk
              curDynamicOffsets := curDyn
              firstDirtyDescriptorSet := first }, flushed) ∧
      (s.firstDirtyDescriptorSet < s.curGPUDescriptorSets.length →
        first = UINT_MAX ∧
        ∃ p sets offsets, s.curGPUPipelineState = some p ∧
          flushed = [VkCmd.BindDescriptorSets bindPoint p.gpuPipelineLayout.vkPipelineLayout
            s.firstDirtyDescriptorSet
            (p.gpuPipelineLayout.setLayouts.length - s.firstDirtyDescriptorSet) sets
            (p.gpuPipelineLayout.dynamicOffsetOffsets.getD
                p.gpuPipelineLayout.setLayouts.length 0
              - p.gpuPipelineLayout.dynamicOffsetOffsets.getD s.firstDirtyDescriptorSet 0)
            offsets]) ∧
      (¬ s.firstDirtyDescriptorSet < s.curGPUDescriptorSets.length →
        first = s.firstDirtyDescriptorSet ∧ flushed = []) := by
  by_cases hw : s.firstDirtyDescriptorSet < s.curGPUDescriptorSets.length
  · obtain ⟨p, hp⟩ := h hw
    obtain ⟨curVk, curDyn, cmd, hflush, hcmd⟩ := bindDescriptorSets_ready hp hw bindPoint
    refine ⟨curVk, curDyn, UINT_MAX, [cmd], ?_, ?_, ?_⟩
    · unfold flushIfDirty
      rw [if_pos hw, hflush]
      rfl
    · intro _
      exact ⟨rfl, p, _, _, hp.bound, by rw [hcmd]⟩
    · intro hn; exact absurd hw hn
  · refine ⟨s.curVkDescriptorSets, s.curDynamicOffsets, s.firstDirtyDescriptorSet, [], ?_, ?_, ?_⟩
    · unfold flushIfDirty
      rw [if_neg hw]
    · intro hn; exact absurd hn hw
    · intro _; exact ⟨rfl, rfl⟩

theorem draw_indirect {gpuDevice : CCVKGPUDevice} {s s1 : CCVKCommandBuffer}
    {flushed : List VkCmd} {ia : InputAssembler} {ib : CCVKGPUBuffer}
    (hf : flushIfDirty .VK_PIPELINE_BIND_POINT_GRAPHICS gpuDevice s = some (s1, flushed))
    (hib : ia.gpuInputAssembler.gpuIndirectBuffer = some ib) :
    draw gpuDevice s ia = some (s1, flushed ++ drawIndirectCmds gpuDevice ib) := by
  unfold draw
  simp only [hf, Option.bind_eq_bind, Option.some_bind, hib, Option.pure_def]

theorem draw_direct {gpuDevice : CCVKGPUDevice} {s s1 : CCVKCommandBuffer}
    {flushed : List VkCmd} {ia : InputAssembler}
    (hf : flushIfDirty .VK_PIPELINE_BIND_POINT_GRAPHICS gpuDevice s = some (s1, flushed))
    (hib : ia.gpuInputAssembler.gpuIndirectBuffer = none) :
    draw gpuDevice s ia =
      some (drawStatistics s1 ia.drawInfo (max ia.drawInfo.instanceCount 1)
          (ia.gpuInputAssembler.gpuIndexBuffer.isSome && decide (ia.drawInfo.indexCount > 0)),
        flushed ++ [directDrawCmd ia.drawInfo (max ia.drawInfo.instanceCount 1)
          (ia.gpuInputAssembler.gpuIndexBuffer.isSome
            && decide (ia.drawInfo.indexCount > 0))]) := by
  unfold draw
  simp only [hf, Option.bind_eq_bind, Option.some_bind, hib, Option.pure_def]

theorem dispatch_eq {gpuDevice : CCVKGPUDevice} {s s1 : CCVKCommandBuffer}
    {flushed : List VkCmd} {info : DispatchInfo}
    (hf : flushIfDirty .VK_PIPELINE_BIND_POINT_COMPUTE gpuDevice s = some (s1, flushed)) :
    dispatch gpuDevice s info = some (s1, flushed ++ [dispatchCmd info]) := by
  unfold dispatch
  simp only [hf, Option.bind_eq_bind, Option.some_bind, Option.pure_def]

theorem drawIndirectCmds_not_bind (gpuDevice : CCVKGPUDevice) (ib : CCVKGPUBuffer) :
    ∀ c ∈ drawIndirectCmds gpuDevice ib, c.isBindDescriptorSets = false := by
  intro c hc
  unfold drawIndirectCmds at hc
  simp only at hc
  split at hc
  · split at hc <;> simp only [List.mem_singleton] at hc <;> subst hc <;> rfl
  · split at hc <;> simp only [List.mem_map] at hc <;> obtain ⟨j, -, rfl⟩ := hc <;> rfl

theorem directDrawCmd_not_bind (drawInfo : DrawInfo) (n : Nat) (b : Bool) :
    (directDrawCmd drawInfo n b).isBindDescriptorSets = false := by
  unfold directDrawCmd
  split <;> rfl

theorem dispatchCmd_not_bind (info : DispatchInfo) :
    (dispatchCmd info).isBindDescriptorSets = false := by
  unfold dispatchCmd
  split <;> rfl

theorem drawStatistics_frame (s : CCVKCommandBuffer) (drawInfo : DrawInfo) (n : Nat)
    (b : Bool) :
    (drawStatistics s drawInfo n b).firstDirtyDescriptorSet = s.firstDirtyDescriptorSet ∧
    (drawStatistics s drawInfo n b).numDrawCalls = u32 (s.numDrawCalls + 1) ∧
    (drawStatistics s drawInfo n b).numInstances = u32 (s.numInstances + drawInfo.instanceCount)
    := by
  unfold drawStatistics
  simp only
  split
  · split <;> exact ⟨rfl, rfl, rfl⟩
  · exact ⟨rfl, rfl, rfl⟩

/-- The native calls `draw` issues after the flush contain no bind-descriptor-sets call, and
the draw leaves the watermark the flush guard produced. -/
theorem draw_after_guard {gpuDevice : CCVKGPUDevice} {s s1 : CCVKCommandBuffer}
    {flushed : List VkCmd} (ia : InputAssembler)
    (hf : flushIfDirty .VK_PIPELINE_BIND_POINT_GRAPHICS gpuDevice s = some (s1, flushed)) :
    ∃ s2 rest, draw gpuDevice s ia = some (s2, flushed ++ rest) ∧
      (∀ c ∈ rest, c.isBindDescriptorSets = false) ∧
      s2.firstDirtyDescriptorSet = s1.firstDirtyDescriptorSet := by
  cases hib : ia.gpuInputAssembler.gpuIndirectBuffer with
  | some ib =>
    exact ⟨_, _, draw_indirect hf hib, drawIndirectCmds_not_bind gpuDevice ib, rfl⟩
  | none =>
    refine ⟨_, _, draw_direct hf hib, ?_, (drawStatistics_frame _ _ _ _).1⟩
    intro c hc
    rw [List.mem_singleton] at hc
    rw [hc]
    exact directDrawCmd_not_bind _ _ _

theorem u32_add_u32_mul (a b c : Nat) :
    u32 (a + u32 (b % 4294967296 * c)) = (a + b * c) % 4294967296 := by
  unfold u32
  rw [Nat.add_mod_mod]
  exact Nat.ModEq.add_left a ((Nat.mod_modEq b 4294967296).mul_right c)

theorem u32_add_u32 (a b : Nat) : u32 (a + u32 b) = (a + b) % 4294967296 := by
  unfold u32
  rw [Nat.add_mod_mod]

theorem subU32_two (n : Nat) (hn : 2 ≤ n) : subU32 n 2 = (n - 2) % 4294967296 := by
  unfold subU32
  omega

theorem drawCount_eq (ia : InputAssembler) :
    (if (ia.gpuInputAssembler.gpuIndexBuffer.isSome && decide (ia.drawInfo.indexCount > 0)) = true
      then ia.drawInfo.indexCount else ia.drawInfo.vertexCount) = drawCount ia := by
  unfold drawCount
  by_cases h1 : ia.gpuInputAssembler.gpuIndexBuffer.isSome = true <;>
    by_cases h2 : 0 < ia.drawInfo.indexCount <;> simp [h1, h2]

theorem drawInstances_eq (ia : InputAssembler) :
    max ia.drawInfo.instanceCount 1 = drawInstances ia := by
  unfold drawInstances
  split <;> omega

theorem drawStatistics_triangles (s : CCVKCommandBuffer) (drawInfo : DrawInfo) (n : Nat)
    (b : Bool) :
    (∀ p, s.curGPUPipelineState = some p →
      (p.primitive = .TRIANGLE_LIST →
        (drawStatistics s drawInfo n b).numTriangles =
          (s.numTriangles
            + (if b = true then drawInfo.indexCount else drawInfo.vertexCount) / 3 * n)
            % 4294967296) ∧
      ((p.primitive = .TRIANGLE_STRIP ∨ p.primitive = .TRIANGLE_FAN) →
        2 ≤ (if b = true then drawInfo.indexCount else drawInfo.vertexCount) →
        (drawStatistics s drawInfo n b).numTriangles =
          (s.numTriangles
            + ((if b = true then drawInfo.indexCount else drawInfo.vertexCount) - 2) * n)
            % 4294967296) ∧
      (p.primitive ≠ .TRIANGLE_LIST → p.primitive ≠ .TRIANGLE_STRIP →
        p.primitive ≠ .TRIANGLE_FAN →
        (drawStatistics s drawInfo n b).numTriangles = s.numTriangles)) ∧
    (s.curGPUPipelineState = none →
      (drawStatistics s drawInfo n b).numTriangles = s.numTriangles) := by
  constructor
  · intro p hp
    unfold drawStatistics
    simp only [hp]
    refine ⟨?_, ?_, ?_⟩
    · intro h
      simp only [h]
      exact u32_add_u32 _ _
    · intro h hn
      rcases h with h | h <;> simp only [h] <;> rw [subU32_two _ hn] <;>
        exact u32_add_u32_mul _ _ _
    · intro h1 h2 h3
      cases hprim : p.primitive <;> simp_all
  · intro hp
    unfold drawStatistics
    simp only [hp]

/-- The shape of every defined result of the flush. -/
theorem bindDescriptorSets_shape {bindPoint : VkPipelineBindPoint} {gpuDevice : CCVKGPUDevice}
    {s s1 : CCVKCommandBuffer} {cmd : VkCmd}
    (h : bindDescriptorSets bindPoint gpuDevice s = some (s1, cmd)) :
    ∃ p curVk curDyn sets count offsets, s.curGPUPipelineState = some p ∧
      s1 = { s with
              curVkDescriptorSets := curVk
              curDynamicOffsets := curDyn
              firstDirtyDescriptorSet := UINT_MAX } ∧
      cmd = VkCmd.BindDescriptorSets bindPoint p.gpuPipelineLayout.vkPipelineLayout
        s.firstDirtyDescriptorSet
        (subU32 (u32 p.gpuPipelineLayout.setLayouts.length) s.firstDirtyDescriptorSet)
        sets count offsets := by
  unfold bindDescriptorSets at h
  simp only [Option.bind_eq_bind, Option.bind_eq_some, Option.pure_def] at h
  obtain ⟨p, hp, acc, hfold, start, hstart, last, hlast, hrest⟩ := h
  split at hrest
  · simp at hrest
  · simp only [Option.some_bind, Option.some.injEq, Prod.mk.injEq] at hrest
    exact ⟨p, acc.1, acc.2, _, _, _, hp, hrest.1.symm, hrest.2.symm⟩

/-- The shape of every defined result of the guard of `draw` and `dispatch`. -/
theorem flushIfDirty_shape {bindPoint : VkPipelineBindPoint} {gpuDevice : CCVKGPUDevice}
    {s s1 : CCVKCommandBuffer} {flushed : List VkCmd}
    (h : flushIfDirty bindPoint gpuDevice s = some (s1, flushed)) :
    (∃ curVk curDyn first, s1 = { s with
        curVkDescriptorSets := curVk
        curDynamicOffsets := curDyn
        firstDirtyDescriptorSet := first }) ∧
    (s.firstDirtyDescriptorSet < s.curGPUDescriptorSets.length →
      s1.firstDirtyDescriptorSet = UINT_MAX ∧
      ∃ p sets count offsets, s.curGPUPipelineState = some p ∧
        flushed = [VkCmd.BindDescriptorSets bindPoint p.gpuPipelineLayout.vkPipelineLayout
          s.firstDirtyDescriptorSet
          (subU32 (u32 p.gpuPipelineLayout.setLayouts.length) s.firstDirtyDescriptorSet)
          sets count offsets]) ∧
    (¬ s.firstDirtyDescriptorSet < s.curGPUDescriptorSets.length →
      s1 = s ∧ flushed = []) := by
  unfold flushIfDirty at h
  by_cases hw : s.firstDirtyDescriptorSet < s.curGPUDescriptorSets.length
  · rw [if_pos hw] at h
    simp only [Option.map_eq_some', Prod.mk.injEq] at h
    obtain ⟨r, hr, hr1, hr2⟩ := h
    obtain ⟨p, curVk, curDyn, sets, count, offsets, hp, hs1, hcmd⟩ :=
      bindDescriptorSets_shape (show bindDescriptorSets bindPoint gpuDevice s = some (r.1, r.2)
        from hr)
    refine ⟨⟨curVk, curDyn, UINT_MAX, ?_⟩, ?_, fun hn => absurd hw hn⟩
    · rw [← hr1, hs1]
    · intro _
      refine ⟨?_, p, sets, count, offsets, hp, ?_⟩
      · rw [← hr1, hs1]
      · rw [← hr2, hcmd]
  · rw [if_neg hw] at h
    simp only [Option.some.injEq, Prod.mk.injEq] at h
    refine ⟨⟨s.curVkDescriptorSets, s.curDynamicOffsets, s.firstDirtyDescriptorSet, ?_⟩,
      fun hn => absurd hn hw, fun _ => ⟨h.1.symm, h.2.symm⟩⟩
    rw [← h.1]

/-- Every defined result of `draw`, in terms of the result of its guard. -/
theorem draw_shape {gpuDevice : CCVKGPUDevice} {s s2 : CCVKCommandBuffer}
    {ia : InputAssembler} {cmds : List VkCmd}
    (h : draw gpuDevice s ia = some (s2, cmds)) :
    ∃ s1 flushed, flushIfDirty .VK_PIPELINE_BIND_POINT_GRAPHICS gpuDevice s = some (s1, flushed) ∧
      (∀ ib, ia.gpuInputAssembler.gpuIndirectBuffer = some ib →
        s2 = s1 ∧ cmds = flushed ++ drawIndirectCmds gpuDevice ib) ∧
      (ia.gpuInputAssembler.gpuIndirectBuffer = none →
        s2 = drawStatistics s1 ia.drawInfo (max ia.drawInfo.instanceCount 1)
          (ia.gpuInputAssembler.gpuIndexBuffer.isSome && decide (ia.drawInfo.indexCount > 0)) ∧
        cmds = flushed ++ [directDrawCmd ia.drawInfo (max ia.drawInfo.instanceCount 1)
          (ia.gpuInputAssembler.gpuIndexBuffer.isSome
            && decide (ia.drawInfo.indexCount > 0))]) := by
  cases hf : flushIfDirty .VK_PIPELINE_BIND_POINT_GRAPHICS gpuDevice s with
  | none =>
    unfold draw at h
    rw [hf] at h
    exact absurd h (by simp)
  | some r =>
    obtain ⟨s1, flushed⟩ := r
    refine ⟨s1, flushed, rfl, ?_, ?_⟩
    · intro ib hib
      rw [draw_indirect hf hib] at h
      simp only [Option.some.injEq, Prod.mk.injEq] at h
      exact ⟨h.1.symm, h.2.symm⟩
    · intro hib
      rw [draw_direct hf hib] at h
      simp only [Option.some.injEq, Prod.mk.injEq] at h
      exact ⟨h.1.symm, h.2.symm⟩

/-- Every defined result of `dispatch`, in terms of the result of its guard. -/
theorem dispatch_shape {gpuDevice : CCVKGPUDevice} {s s2 : CCVKCommandBuffer}
    {info : DispatchInfo} {cmds : List VkCmd}
    (h : dispatch gpuDevice s info = some (s2, cmds)) :
    ∃ flushed, flushIfDirty .VK_PIPELINE_BIND_POINT_COMPUTE gpuDevice s = some (s2, flushed) ∧
      cmds = flushed ++ [dispatchCmd info] := by
  cases hf : flushIfDirty .VK_PIPELINE_BIND_POINT_COMPUTE gpuDevice s with
  | none =>
    unfold dispatch at h
    rw [hf] at h
    exact absurd h (by simp)
  | some r =>
    obtain ⟨s1, flushed⟩ := r
    rw [dispatch_eq hf] at h
    simp only [Option.some.injEq, Prod.mk.injEq] at h
    exact ⟨flushed, by rw [h.1], h.2.symm⟩

/-- Under their readiness condition `draw` and `dispatch` are defined. -/
theorem draw_dispatch_defined {gpuDevice : CCVKGPUDevice} {s : CCVKCommandBuffer}
    (hready : DrawReady gpuDevice s) (ia : InputAssembler) (info : DispatchInfo) :
    (draw gpuDevice s ia).isSome ∧ (dispatch gpuDevice s info).isSome := by
  constructor
  · obtain ⟨curVk, curDyn, first, flushed, hf, -, -⟩ :=
      flushIfDirty_ready hready .VK_PIPELINE_BIND_POINT_GRAPHICS
    obtain ⟨s2, rest, hd, -, -⟩ := draw_after_guard ia hf
    rw [hd]
    rfl
  · obtain ⟨curVk, curDyn, first, flushed, hf, -, -⟩ :=
      flushIfDirty_ready hready .VK_PIPELINE_BIND_POINT_COMPUTE
    rw [dispatch_eq hf]
    rfl

/-- The counters after every defined draw. -/
theorem draw_counters {gpuDevice : CCVKGPUDevice} {s s2 : CCVKCommandBuffer}
    {ia : InputAssembler} {cmds : List VkCmd}
    (h : draw gpuDevice s ia = some (s2, cmds)) :
    (ia.gpuInputAssembler.gpuIndirectBuffer ≠ none →
      s2.numDrawCalls = s.numDrawCalls ∧ s2.numInstances = s.numInstances ∧
      s2.numTriangles = s.numTriangles) ∧
    (ia.gpuInputAssembler.gpuIndirectBuffer = none →
      (∃ flushed, cmds = flushed ++ [directDrawCmd ia.drawInfo (drawInstances ia)
        (ia.gpuInputAssembler.gpuIndexBuffer.isSome
          && decide (ia.drawInfo.indexCount > 0))]) ∧
      s2.numDrawCalls = (s.numDrawCalls + 1) % 4294967296 ∧
      s2.numInstances = (s.numInstances + ia.drawInfo.instanceCount) % 4294967296 ∧
      (∀ p, s.curGPUPipelineState = some p →
        (p.primitive = .TRIANGLE_LIST →
          s2.numTriangles =
            (s.numTriangles + drawCount ia / 3 * drawInstances ia) % 4294967296) ∧
        ((p.primitive = .TRIANGLE_STRIP ∨ p.primitive = .TRIANGLE_FAN) →
          2 ≤ drawCount ia →
          s2.numTriangles =
            (s.numTriangles + (drawCount ia - 2) * drawInstances ia) % 4294967296) ∧
        (p.primitive ≠ .TRIANGLE_LIST → p.primitive ≠ .TRIANGLE_STRIP →
          p.primitive ≠ .TRIANGLE_FAN → s2.numTriangles = s.numTriangles)) ∧
      (s.curGPUPipelineState = none → s2.numTriangles = s.numTriangles)) := by
  obtain ⟨s1, flushed, hf, hind, hdir⟩ := draw_shape h
  obtain ⟨⟨curVk, curDyn, first, hs1⟩, -, -⟩ := flushIfDirty_shape hf
  constructor
  · intro hib
    cases hb : ia.gpuInputAssembler.gpuIndirectBuffer with
    | none => exact absurd hb hib
    | some ib =>
      obtain ⟨h2, -⟩ := hind ib hb
      rw [h2, hs1]
      exact ⟨rfl, rfl, rfl⟩
  · intro hib
    obtain ⟨h2, hc⟩ := hdir hib
    rw [drawInstances_eq] at h2 hc
    have ht := drawStatistics_triangles s1 ia.drawInfo (drawInstances ia)
      (ia.gpuInputAssembler.gpuIndexBuffer.isSome && decide (ia.drawInfo.indexCount > 0))
    rw [drawCount_eq] at ht
    have hfr := drawStatistics_frame s1 ia.drawInfo (drawInstances ia)
      (ia.gpuInputAssembler.gpuIndexBuffer.isSome && decide (ia.drawInfo.indexCount > 0))
    rw [← h2] at ht hfr
    rw [hs1] at ht hfr
    exact ⟨⟨flushed, hc⟩, hfr.2.1, hfr.2.2, ht.1, ht.2⟩

/-- C2 (as amended).  For every draw or dispatch performed with a pipeline bound: if the dirty
watermark `w` is below the configured set count, exactly one native bind-descriptor-sets call
is issued, before the native draw or dispatch calls, with first set `w` and set count (set
count of the bound pipeline's layout minus `w`, in 32-bit arithmetic; this is the configured
set count minus `w` only when the layout has exactly the configured number of sets), at the
graphics bind point for draw and the compute bind point for dispatch, and afterwards the
watermark is the sentinel; if the watermark is not below the configured set count, in
particular if it is the sentinel, no native bind-descriptor-sets call is issued and the
watermark is unchanged.  Both calls are defined whenever the flush stays inside its vectors. -/
theorem C2_flush_precedes_draw_and_dispatch (gpuDevice : CCVKGPUDevice)
    (s : CCVKCommandBuffer) (p : CCVKGPUPipelineState) (ia : InputAssembler)
    (info : DispatchInfo) (hp : s.curGPUPipelineState = some p) :
    (DrawReady gpuDevice s →
      (draw gpuDevice s ia).isSome ∧ (dispatch gpuDevice s info).isSome) ∧
    (∀ s1 cmds, draw gpuDevice s ia = some (s1, cmds) →
      (s.firstDirtyDescriptorSet < s.curGPUDescriptorSets.length →
        (∃ sets count offsets rest,
          cmds = VkCmd.BindDescriptorSets .VK_PIPELINE_BIND_POINT_GRAPHICS
            p.gpuPipelineLayout.vkPipelineLayout s.firstDirtyDescriptorSet
            (subU32 (u32 p.gpuPipelineLayout.setLayouts.length) s.firstDirtyDescriptorSet)
            sets count offsets :: rest ∧
          ∀ c ∈ rest, c.isBindDescriptorSets = false) ∧
        s1.firstDirtyDescriptorSet = UINT_MAX) ∧
      (¬ s.firstDirtyDescriptorSet < s.curGPUDescriptorSets.length →
        (∀ c ∈ cmds, c.isBindDescriptorSets = false) ∧
        s1.firstDirtyDescriptorSet = s.firstDirtyDescriptorSet)) ∧
    (∀ s1 cmds, dispatch gpuDevice s info = some (s1, cmds) →
      (s.firstDirtyDescriptorSet < s.curGPUDescriptorSets.length →
        (∃ sets count offsets,
          cmds = [VkCmd.BindDescriptorSets .VK_PIPELINE_BIND_POINT_COMPUTE
            p.gpuPipelineLayout.vkPipelineLayout s.firstDirtyDescriptorSet
            (subU32 (u32 p.gpuPipelineLayout.setLayouts.length) s.firstDirtyDescriptorSet)
            sets count offsets, dispatchCmd info]) ∧
        (dispatchCmd info).isBindDescriptorSets = false ∧
        s1.firstDirtyDescriptorSet = UINT_MAX) ∧
      (¬ s.firstDirtyDescriptorSet < s.curGPUDescriptorSets.length →
        cmds = [dispatchCmd info] ∧ (dispatchCmd info).isBindDescriptorSets = false ∧
        s1.firstDirtyDescriptorSet = s.firstDirtyDescriptorSet)) ∧
    (s.firstDirtyDescriptorSet ≤ p.gpuPipelineLayout.setLayouts.length →
      p.gpuPipelineLayout.setLayouts.length ≤ UINT_MAX →
      subU32 (u32 p.gpuPipelineLayout.setLayouts.length) s.firstDirtyDescriptorSet
        = p.gpuPipelineLayout.setLayouts.length - s.firstDirtyDescriptorSet) ∧
    (s.firstDirtyDescriptorSet = UINT_MAX → s.curGPUDescriptorSets.length ≤ UINT_MAX →
      ¬ s.firstDirtyDescriptorSet < s.curGPUDescriptorSets.length) := by
  refine ⟨fun hready => draw_dispatch_defined hready ia info, ?_, ?_, ?_, ?_⟩
  · intro s2 cmds h
    obtain ⟨s1, flushed, hf, hind, hdir⟩ := draw_shape h
    obtain ⟨-, hdirty, hclean⟩ := flushIfDirty_shape hf
    obtain ⟨s3, rest, hd, hrest, hfirst⟩ := draw_after_guard ia hf
    rw [h] at hd
    simp only [Option.some.injEq, Prod.mk.injEq] at hd
    obtain ⟨hs, hc⟩ := hd
    subst hs
    constructor
    · intro hw
      obtain ⟨h1, q, sets, count, offsets, hq, hfl⟩ := hdirty hw
      rw [hp] at hq
      cases hq
      refine ⟨⟨sets, count, offsets, rest, ?_, hrest⟩, ?_⟩
      · rw [hc, hfl]; rfl
      · rw [hfirst, h1]
    · intro hw
      obtain ⟨h1, hfl⟩ := hclean hw
      refine ⟨?_, ?_⟩
      · rw [hc, hfl]
        exact hrest
      · rw [hfirst, h1]
  · intro s2 cmds h
    obtain ⟨flushed, hf, hc⟩ := dispatch_shape h
    obtain ⟨-, hdirty, hclean⟩ := flushIfDirty_shape hf
    constructor
    · intro hw
      obtain ⟨h1, q, sets, count, offsets, hq, hfl⟩ := hdirty hw
      rw [hp] at hq
      cases hq
      refine ⟨⟨sets, count, offsets, ?_⟩, dispatchCmd_not_bind info, h1⟩
      rw [hc, hfl]; rfl
    · intro hw
      obtain ⟨h1, hfl⟩ := hclean hw
      refine ⟨?_, dispatchCmd_not_bind info, ?_⟩
      · rw [hc, hfl]; rfl
      · rw [h1]
  · intro hle h32
    rw [u32_of_le _ h32]
    exact subU32_of_le _ _ hle h32
  · intro h1 h2
    omega

theorem exDirty_flushReady (primitive : PrimitiveMode) :
    FlushReady exDevice (exDirty primitive exLayout3) (exPipeline primitive exLayout3) where
  bound := rfl
  first_le := by show 1 ≤ 3; decide
  setCount_le := by show 3 ≤ 3; decide
  slots_u32 := by show 3 ≤ UINT_MAX; decide
  vk_len := rfl
  ptrs_len := rfl
  counts_len := rfl
  table_len := rfl
  table_mono := by
    show ∀ i, i < 3 → [0, 0, 2, 2].getD i 0 ≤ [0, 0, 2, 2].getD (i + 1) 0
    decide
  table_last := by show [0, 0, 2, 2].getD 3 0 ≤ 2; decide
  count_u32 := by show 2 ≤ UINT_MAX; decide
  instances := by
    intro ds hds
    have : ds = exSetB := by
      simpa [exDirty] using hds
    rw [this]
    decide
  supplied := by
    show ∀ i, i < 3 → min ([0, 0, 2, 2].getD (i + 1) 0 - [0, 0, 2, 2].getD i 0)
      ([0, 2, 0].getD i 0) ≤ ([[], [16, 32], []].getD i []).length
    decide

theorem exDirty_drawReady (primitive : PrimitiveMode) :
    DrawReady exDevice (exDirty primitive exLayout3) :=
  fun _ => ⟨_, exDirty_flushReady primitive⟩

theorem exBound_drawReady (primitive : PrimitiveMode) (layout : CCVKGPUPipelineLayout) :
    DrawReady exDevice (exBound primitive layout) := by
  intro h
  have h3 : ¬ UINT_MAX < 3 := by decide
  exact absurd h h3

/-- Witness for C2: with a three-set layout bound and the watermark at 1, a draw issues the
flush for sets `[1, 3)` first and leaves the watermark at the sentinel. -/
theorem C2_flush_precedes_draw_and_dispatch_witness :
    (draw exDevice (exDirty .TRIANGLE_LIST exLayout3) (exIA 3 1)).map
        (fun r => r.1.firstDirtyDescriptorSet) = some UINT_MAX ∧
    (draw exDevice (exDirty .TRIANGLE_LIST exLayout3) (exIA 3 1)).map Prod.snd =
      some [VkCmd.BindDescriptorSets .VK_PIPELINE_BIND_POINT_GRAPHICS 50 1 2 [601, 902] 2 [16, 32],
          VkCmd.Draw 3 1 0 0] := by
  obtain ⟨hdef, hdraw, -, -, -⟩ := C2_flush_precedes_draw_and_dispatch exDevice
    (exDirty .TRIANGLE_LIST exLayout3) (exPipeline .TRIANGLE_LIST exLayout3) (exIA 3 1)
    exDispatch rfl
  obtain ⟨r, hr⟩ := Option.isSome_iff_exists.mp (hdef (exDirty_drawReady .TRIANGLE_LIST)).1
  obtain ⟨-, hfirst⟩ := (hdraw r.1 r.2 hr).1 (by decide)
  refine ⟨?_, by decide⟩
  rw [hr]
  exact congrArg some hfirst

/-- Counterexample to C2 as stated.  The recorder is configured with three sets, the bound
pipeline's layout has two, and the watermark is 0.  The draw issues one bind-descriptor-sets
call with first set 0 and set count 2, not (configured set count - watermark) = 3. -/
theorem C2_counterexample :
    exDirtyTwoSets.map
        (fun s => (s.curGPUDescriptorSets.length, s.firstDirtyDescriptorSet,
          s.curGPUPipelineState.map (fun p => p.gpuPipelineLayout.setLayouts.length)))
      = some (3, 0, some 2) ∧
    (exDirtyTwoSets.bind (fun s => draw exDevice s (exIA 3 1))).map Prod.snd =
      some [VkCmd.BindDescriptorSets .VK_PIPELINE_BIND_POINT_GRAPHICS 51 0 2 [501, 901] 0 [],
        VkCmd.Draw 3 1 0 0] := by
  decide

/-- C3 (as amended).  Every direct draw (input assembler without indirect buffer) advances
the 32-bit draw-call counter by 1; a draw on the indirect path leaves the draw-call counter
unchanged, whatever number of native indirect draws it issues. -/
theorem C3_draw_call_counter (gpuDevice : CCVKGPUDevice) (s : CCVKCommandBuffer)
    (ia : InputAssembler) :
    (DrawReady gpuDevice s → (draw gpuDevice s ia).isSome) ∧
    (∀ s1 cmds, draw gpuDevice s ia = some (s1, cmds) →
      (ia.gpuInputAssembler.gpuIndirectBuffer = none →
        s1.numDrawCalls = (s.numDrawCalls + 1) % 4294967296) ∧
      (ia.gpuInputAssembler.gpuIndirectBuffer ≠ none →
        s1.numDrawCalls = s.numDrawCalls)) := by
  refine ⟨fun hready => (draw_dispatch_defined hready ia exDispatch).1, ?_⟩
  intro s1 cmds h
  obtain ⟨hind, hdir⟩ := draw_counters h
  exact ⟨fun hib => (hdir hib).2.1, fun hib => (hind hib).1⟩

/-- Witness for C3: a direct draw on the fresh recorder takes the counter from 0 to 1, an
indirect draw leaves it at 0. -/
theorem C3_draw_call_counter_witness :
    (draw exDevice (exBound .TRIANGLE_LIST exLayout3) (exIA 3 1)).map
        (fun r => r.1.numDrawCalls) = some 1 ∧
    (draw exDevice (exBound .TRIANGLE_LIST exLayout3) exIAIndirect).map
        (fun r => r.1.numDrawCalls) = some 0 := by
  obtain ⟨hdef1, hdirect⟩ := C3_draw_call_counter exDevice
    (exBound .TRIANGLE_LIST exLayout3) (exIA 3 1)
  obtain ⟨hdef2, hindirect⟩ := C3_draw_call_counter exDevice
    (exBound .TRIANGLE_LIST exLayout3) exIAIndirect
  obtain ⟨r1, hr1⟩ := Option.isSome_iff_exists.mp (hdef1 (exBound_drawReady _ _))
  obtain ⟨r2, hr2⟩ := Option.isSome_iff_exists.mp (hdef2 (exBound_drawReady _ _))
  constructor
  · rw [hr1]
    exact congrArg some ((hdirect r1.1 r1.2 hr1).1 rfl)
  · rw [hr2]
    exact congrArg some ((hindirect r2.1 r2.2 hr2).2 (by decide))

/-- Counterexample to C3 as stated.  A draw whose input assembler has an indirect buffer with
two records issues two native indirect draws and leaves the draw-call counter at 0, not at
0 + 1. -/
theorem C3_counterexample :
    (exBound .TRIANGLE_LIST exLayout3).numDrawCalls = 0 ∧
    (draw exDevice (exBound .TRIANGLE_LIST exLayout3) exIAIndirect).map
        (fun r => (r.1.numDrawCalls, r.2)) =
      some (0, [VkCmd.DrawIndirect 32 64 1 16, VkCmd.DrawIndirect 32 80 1 16]) := by
  decide

/-- C4.  For every direct draw with a pipeline bound, with `N = drawCount ia` (the index count
when an index buffer is attached and the index count is positive, else the vertex count) and
`I = drawInstances ia` (the instance count with 0 replaced by 1), the 32-bit triangle counter
increases by `(N / 3) * I` for a triangle list, by `(N - 2) * I` for a triangle strip or fan
when `N ≥ 2`, and by 0 for every other topology; an indirect draw leaves it unchanged. -/
theorem C4_triangle_counter (gpuDevice : CCVKGPUDevice) (s : CCVKCommandBuffer)
    (p : CCVKGPUPipelineState) (ia : InputAssembler)
    (hp : s.curGPUPipelineState = some p) :
    (DrawReady gpuDevice s → (draw gpuDevice s ia).isSome) ∧
    (∀ s1 cmds, draw gpuDevice s ia = some (s1, cmds) →
      (ia.gpuInputAssembler.gpuIndirectBuffer = none →
        (p.primitive = .TRIANGLE_LIST →
          s1.numTriangles =
            (s.numTriangles + drawCount ia / 3 * drawInstances ia) % 4294967296) ∧
        ((p.primitive = .TRIANGLE_STRIP ∨ p.primitive = .TRIANGLE_FAN) →
          2 ≤ drawCount ia →
          s1.numTriangles =
            (s.numTriangles + (drawCount ia - 2) * drawInstances ia) % 4294967296) ∧
        (p.primitive ≠ .TRIANGLE_LIST → p.primitive ≠ .TRIANGLE_STRIP →
          p.primitive ≠ .TRIANGLE_FAN → s1.numTriangles = s.numTriangles)) ∧
      (ia.gpuInputAssembler.gpuIndirectBuffer ≠ none →
        s1.numTriangles = s.numTriangles)) := by
  refine ⟨fun hready => (draw_dispatch_defined hready ia exDispatch).1, ?_⟩
  intro s1 cmds h
  obtain ⟨hind, hdir⟩ := draw_counters h
  exact ⟨fun hib => (hdir hib).2.2.2.1 p hp, fun hib => (hind hib).2.2⟩

/-- Witness for C4, the three examples of the specification: a triangle list of 9 indices and
2 instances counts 6 triangles, a triangle strip of 5 indices and 1 instance counts 3, a line
list counts 0. -/
theorem C4_triangle_counter_witness :
    (draw exDevice (exBound .TRIANGLE_LIST exLayout3) (exIAIndexed 9 2)).map
        (fun r => r.1.numTriangles) = some 6 ∧
    (draw exDevice (exBound .TRIANGLE_STRIP exLayout3) (exIAIndexed 5 1)).map
        (fun r => r.1.numTriangles) = some 3 ∧
    (draw exDevice (exBound .LINE_LIST exLayout3) (exIAIndexed 100 7)).map
        (fun r => r.1.numTriangles) = some 0 := by
  obtain ⟨hdef1, h1⟩ := C4_triangle_counter exDevice
    (exBound .TRIANGLE_LIST exLayout3) (exPipeline .TRIANGLE_LIST exLayout3) (exIAIndexed 9 2)
    rfl
  obtain ⟨hdef2, h2⟩ := C4_triangle_counter exDevice
    (exBound .TRIANGLE_STRIP exLayout3) (exPipeline .TRIANGLE_STRIP exLayout3) (exIAIndexed 5 1)
    rfl
  obtain ⟨hdef3, h3⟩ := C4_triangle_counter exDevice
    (exBound .LINE_LIST exLayout3) (exPipeline .LINE_LIST exLayout3) (exIAIndexed 100 7)
    rfl
  obtain ⟨r1, hr1⟩ := Option.isSome_iff_exists.mp (hdef1 (exBound_drawReady _ _))
  obtain ⟨r2, hr2⟩ := Option.isSome_iff_exists.mp (hdef2 (exBound_drawReady _ _))
  obtain ⟨r3, hr3⟩ := Option.isSome_iff_exists.mp (hdef3 (exBound_drawReady _ _))
  refine ⟨?_, ?_, ?_⟩
  · rw [hr1]
    exact congrArg some (((h1 r1.1 r1.2 hr1).1 rfl).1 rfl)
  · rw [hr2]
    exact congrArg some (((h2 r2.1 r2.2 hr2).1 rfl).2.1 (Or.inl rfl) (by decide))
  · rw [hr3]
    exact congrArg some (((h3 r3.1 r3.2 hr3).1 rfl).2.2 (by decide) (by decide) (by decide))

theorem addAllU32_eq (xs : List Nat) : ∀ a : Nat,
    addAllU32 a xs = if xs = [] then a else (a + xs.sum) % 4294967296 := by
  induction xs with
  | nil => intro a; rfl
  | cons x xs ih =>
    intro a
    simp only [addAllU32, List.foldl_cons] at ih ⊢
    rw [ih]
    simp only [reduceCtorEq, if_false, List.sum_cons]
    split
    · rename_i h
      simp [h, u32]
    · unfold u32
      rw [Nat.mod_add_mod, Nat.add_assoc]

theorem set_take_succ (l : List Nat) (n x : Nat) (h : n < l.length) :
    (l.set n x).take (n + 1) = l.take n ++ [x] := by
  rw [List.set_eq_take_append_cons_drop, if_pos h]
  have hlen : (l.take n).length = n := by rw [List.length_take]; omega
  rw [List.take_append_eq_append_take, hlen, List.take_of_length_le (by omega)]
  simp

theorem withPending_update (buffers : Buffers) (c : Nat) (v : CCVKCommandBuffer)
    (cs : List Nat) (hc : c ∉ cs) :
    withPending (Function.update buffers c v) cs = withPending buffers cs := by
  unfold withPending
  apply List.filter_congr
  intro x hx
  have : x ≠ c := fun h => hc (h ▸ hx)
  rw [Function.update_noteq this]

theorem frontHandles_update (buffers : Buffers) (c : Nat) (v : CCVKCommandBuffer)
    (cs : List Nat) (hc : c ∉ cs) :
    frontHandles (Function.update buffers c v) cs = frontHandles buffers cs := by
  unfold frontHandles
  apply List.filterMap_congr
  intro x hx
  have : x ≠ c := fun h => hc (h ▸ hx)
  rw [Function.update_noteq this]

theorem map_update_of_not_mem (buffers : Buffers) (c : Nat) (v : CCVKCommandBuffer)
    (f : CCVKCommandBuffer → Nat) (l : List Nat) (hc : c ∉ l) :
    l.map (fun x => f (Function.update buffers c v x)) = l.map (fun x => f (buffers x)) := by
  apply List.map_congr_left
  intro x hx
  have : x ≠ c := fun h => hc (h ▸ hx)
  rw [Function.update_noteq this]

theorem not_mem_withPending (buffers : Buffers) (c : Nat) (cs : List Nat) (hc : c ∉ cs) :
    c ∉ withPending buffers cs := by
  intro h
  exact hc (List.mem_of_mem_filter h)

theorem frontHandles_length (buffers : Buffers) (cs : List Nat) :
    (frontHandles buffers cs).length = (withPending buffers cs).length := by
  induction cs with
  | nil => rfl
  | cons c cs ih =>
    unfold frontHandles withPending at ih ⊢
    cases hq : (buffers c).pendingQueue with
    | nil => simp [List.filterMap_cons, List.filter_cons, hq, ih]
    | cons front rest => simp [List.filterMap_cons, List.filter_cons, hq, ih]

/-- The loop of `execute` on pairwise distinct buffers. -/
theorem executeLoop_spec (cs : List Nat) :
    ∀ (buffers : Buffers) (s : CCVKCommandBuffer) (n : Nat), cs.Nodup →
      n + cs.length ≤ s.vkCommandBuffers.length →
      (executeLoop buffers s n cs).2.2 = n + (withPending buffers cs).length ∧
      (executeLoop buffers s n cs).2.1.vkCommandBuffers.length = s.vkCommandBuffers.length ∧
      (executeLoop buffers s n cs).2.1.vkCommandBuffers.take
          (n + (withPending buffers cs).length)
        = s.vkCommandBuffers.take n ++ frontHandles buffers cs ∧
      (executeLoop buffers s n cs).2.1.numDrawCalls = addAllU32 s.numDrawCalls
        ((withPending buffers cs).map (fun c => (buffers c).numDrawCalls)) ∧
      (executeLoop buffers s n cs).2.1.numInstances = addAllU32 s.numInstances
        ((withPending buffers cs).map (fun c => (buffers c).numInstances)) ∧
      (executeLoop buffers s n cs).2.1.numTriangles = addAllU32 s.numTriangles
        ((withPending buffers cs).map (fun c => (buffers c).numTriangles)) ∧
      (∀ x, (executeLoop buffers s n cs).1 x =
        if x ∈ withPending buffers cs then
          { buffers x with pendingQueue := (buffers x).pendingQueue.tail }
        else buffers x) := by
  induction cs with
  | nil =>
    intro buffers s n _ _
    simp [executeLoop, withPending, frontHandles, addAllU32]
  | cons c cs ih =>
    intro buffers s n hnd hlen
    have hc : c ∉ cs := (List.nodup_cons.mp hnd).1
    have hnd1 : cs.Nodup := (List.nodup_cons.mp hnd).2
    simp only [List.length_cons] at hlen
    cases hq : (buffers c).pendingQueue with
    | nil =>
      have hP : withPending buffers (c :: cs) = withPending buffers cs := by
        simp [withPending, List.filter_cons, hq]
      have hF : frontHandles buffers (c :: cs) = frontHandles buffers cs := by
        simp [frontHandles, List.filterMap_cons, hq]
      have hstep : executeLoop buffers s n (c :: cs) = executeLoop buffers s n cs := by
        simp only [executeLoop, hq]
      rw [hstep, hP, hF]
      exact ih buffers s n hnd1 (by omega)
    | cons front rest =>
      have hP : withPending buffers (c :: cs) = c :: withPending buffers cs := by
        simp [withPending, List.filter_cons, hq]
      have hF : frontHandles buffers (c :: cs) = front :: frontHandles buffers cs := by
        simp [frontHandles, List.filterMap_cons, hq]
      have hstep : executeLoop buffers s n (c :: cs) =
          executeLoop
            (Function.update buffers c { buffers c with pendingQueue := rest })
            { s with
              vkCommandBuffers := s.vkCommandBuffers.set n front
              numDrawCalls := u32 (s.numDrawCalls + (buffers c).numDrawCalls)
              numInstances := u32 (s.numInstances + (buffers c).numInstances)
              numTriangles := u32 (s.numTriangles + (buffers c).numTriangles) }
            (n + 1) cs := by
        simp only [executeLoop, hq]
      obtain ⟨h1, h2, h3, h4, h5, h6, h7⟩ :=
        ih (Function.update buffers c { buffers c with pendingQueue := rest })
          { s with
            vkCommandBuffers := s.vkCommandBuffers.set n front
            numDrawCalls := u32 (s.numDrawCalls + (buffers c).numDrawCalls)
            numInstances := u32 (s.numInstances + (buffers c).numInstances)
            numTriangles := u32 (s.numTriangles + (buffers c).numTriangles) }
          (n + 1) hnd1 (by simp only [List.length_set]; omega)
      rw [withPending_update _ _ _ _ hc] at h1 h3 h4 h5 h6 h7
      rw [frontHandles_update _ _ _ _ hc] at h3
      rw [map_update_of_not_mem buffers c _ (fun b => b.numDrawCalls) _
        (not_mem_withPending buffers c cs hc)] at h4
      rw [map_update_of_not_mem buffers c _ (fun b => b.numInstances) _
        (not_mem_withPending buffers c cs hc)] at h5
      rw [map_update_of_not_mem buffers c _ (fun b => b.numTriangles) _
        (not_mem_withPending buffers c cs hc)] at h6
      rw [hstep, hP, hF]
      refine ⟨?_, ?_, ?_, ?_, ?_, ?_, ?_⟩
      · rw [h1, List.length_cons]; omega
      · rw [h2]; simp only [List.length_set]
      · have e : n + (c :: withPending buffers cs).length
            = n + 1 + (withPending buffers cs).length := by
          rw [List.length_cons]; omega
        rw [e, h3]
        simp only
        rw [set_take_succ _ _ _ (by omega)]
        simp
      · rw [h4]; rfl
      · rw [h5]; rfl
      · rw [h6]; rfl
      · intro x
        rw [h7 x]
        by_cases hxc : x = c
        · subst hxc
          have hx1 : x ∉ withPending buffers cs := not_mem_withPending buffers x cs hc
          simp only [hx1, if_false, Function.update_same, List.mem_cons, true_or, if_true, hq,
            List.tail_cons]
        · simp only [Function.update_noteq hxc, List.mem_cons, hxc, false_or]

theorem frontHandles_withPending (buffers : Buffers) (cs : List Nat) :
    frontHandles buffers (withPending buffers cs) = frontHandles buffers cs := by
  induction cs with
  | nil => rfl
  | cons c cs ih =>
    unfold frontHandles withPending at ih ⊢
    cases hq : (buffers c).pendingQueue with
    | nil => simp [List.filterMap_cons, List.filter_cons, hq, ih]
    | cons front rest => simp [List.filterMap_cons, List.filter_cons, hq, ih]

/-- The member `execute` on pairwise distinct buffers, in terms of the buffers with a pending
recording. -/
theorem execute_spec (buffers : Buffers) (s : CCVKCommandBuffer) (cmdBuffs : List Nat)
    (hnd : cmdBuffs.Nodup) :
    (execute buffers s cmdBuffs).2.1.numDrawCalls = addAllU32 s.numDrawCalls
      ((withPending buffers cmdBuffs).map (fun c => (buffers c).numDrawCalls)) ∧
    (execute buffers s cmdBuffs).2.1.numInstances = addAllU32 s.numInstances
      ((withPending buffers cmdBuffs).map (fun c => (buffers c).numInstances)) ∧
    (execute buffers s cmdBuffs).2.1.numTriangles = addAllU32 s.numTriangles
      ((withPending buffers cmdBuffs).map (fun c => (buffers c).numTriangles)) ∧
    (execute buffers s cmdBuffs).2.2 =
      (if withPending buffers cmdBuffs = [] then []
        else [VkCmd.ExecuteCommands (withPending buffers cmdBuffs).length
          (frontHandles buffers cmdBuffs)]) ∧
    (∀ x, (execute buffers s cmdBuffs).1 x =
      if x ∈ withPending buffers cmdBuffs then
        { buffers x with pendingQueue := (buffers x).pendingQueue.tail }
      else buffers x) := by
  unfold execute
  by_cases h0 : cmdBuffs.length = 0
  · have hnil : cmdBuffs = [] := List.eq_nil_of_length_eq_zero h0
    subst hnil
    simp [withPending, addAllU32]
  · rw [if_neg h0]
    obtain ⟨h1, h2, h3, h4, h5, h6, h7⟩ := executeLoop_spec cmdBuffs buffers
      { s with vkCommandBuffers := resizeZero s.vkCommandBuffers cmdBuffs.length } 0 hnd
      (by simp only [resizeZero_length]; omega)
    simp only [Nat.zero_add, List.take_zero, List.nil_append] at h1 h3
    refine ⟨h4, h5, h6, ?_, h7⟩
    simp only [h1]
    by_cases hP : withPending buffers cmdBuffs = []
    · simp [hP]
    · have hlen : (withPending buffers cmdBuffs).length ≠ 0 := by
        intro h; exact hP (List.eq_nil_of_length_eq_zero h)
      simp only [ne_eq, hlen, not_false_eq_true, if_true, hP, if_false, h3]

/-- C6.  For every list of pairwise distinct secondary buffers passed to `execute`, with `P`
the buffers of the list whose pending queue is non-empty (in list order): each of the three
32-bit counters of the recorder increases by the sum of that counter over the buffers of `P`,
and exactly one native execute-commands call is issued, listing `|P|` handles, the front
pending handle of each buffer of `P` in list order, when `P` is non-empty; no native call is
issued (and no counter changes) when `P` is empty. -/
theorem C6_execute_merges_pending (buffers : Buffers) (s : CCVKCommandBuffer)
    (cmdBuffs : List Nat) (hnd : cmdBuffs.Nodup) :
    (withPending buffers cmdBuffs ≠ [] →
      (execute buffers s cmdBuffs).2.1.numDrawCalls =
        (s.numDrawCalls
          + ((withPending buffers cmdBuffs).map (fun c => (buffers c).numDrawCalls)).sum)
          % 4294967296 ∧
      (execute buffers s cmdBuffs).2.1.numInstances =
        (s.numInstances
          + ((withPending buffers cmdBuffs).map (fun c => (buffers c).numInstances)).sum)
          % 4294967296 ∧
      (execute buffers s cmdBuffs).2.1.numTriangles =
        (s.numTriangles
          + ((withPending buffers cmdBuffs).map (fun c => (buffers c).numTriangles)).sum)
          % 4294967296 ∧
      (execute buffers s cmdBuffs).2.2 =
        [VkCmd.ExecuteCommands (withPending buffers cmdBuffs).length
          (frontHandles buffers (withPending buffers cmdBuffs))] ∧
      (frontHandles buffers (withPending buffers cmdBuffs)).length
        = (withPending buffers cmdBuffs).length) ∧
    (withPending buffers cmdBuffs = [] →
      (execute buffers s cmdBuffs).2.1.numDrawCalls = s.numDrawCalls ∧
      (execute buffers s cmdBuffs).2.1.numInstances = s.numInstances ∧
      (execute buffers s cmdBuffs).2.1.numTriangles = s.numTriangles ∧
      (execute buffers s cmdBuffs).2.2 = []) := by
  obtain ⟨h1, h2, h3, h4, -⟩ := execute_spec buffers s cmdBuffs hnd
  rw [addAllU32_eq] at h1 h2 h3
  constructor
  · intro hP
    have hmap : ∀ f : Nat → Nat, (withPending buffers cmdBuffs).map f ≠ [] := by
      intro f h
      exact hP (List.map_eq_nil_iff.mp h)
    rw [if_neg (hmap _)] at h1 h2 h3
    rw [if_neg hP] at h4
    refine ⟨h1, h2, h3, ?_, ?_⟩
    · rw [h4, frontHandles_withPending]
    · rw [frontHandles_withPending, frontHandles_length]
  · intro hP
    rw [hP] at h1 h2 h3
    rw [if_pos hP] at h4
    exact ⟨h1, h2, h3, h4⟩

/-- Witness for C6, the example of the specification: of three buffers two have a pending
recording; their statistics are merged and one call lists their two front handles. -/
theorem C6_execute_merges_pending_witness :
    withPending exBuffers [1, 2, 3] = [1, 3] ∧
    (execute exBuffers exFresh [1, 2, 3]).2.1.numDrawCalls = 6 ∧
    (execute exBuffers exFresh [1, 2, 3]).2.1.numInstances = 3 ∧
    (execute exBuffers exFresh [1, 2, 3]).2.1.numTriangles = 110 ∧
    (execute exBuffers exFresh [1, 2, 3]).2.2 = [VkCmd.ExecuteCommands 2 [201, 203]] := by
  have h := (C6_execute_merges_pending exBuffers exFresh [1, 2, 3] (by decide)).1 (by decide)
  obtain ⟨h1, h2, h3, h4, -⟩ := h
  refine ⟨by decide, ?_, ?_, ?_, ?_⟩
  · rw [h1]; decide
  · rw [h2]; decide
  · rw [h3]; decide
  · rw [h4]; decide

/-- The loop of `execute` never lengthens a pending queue, and empties the queue of every
listed buffer that had at most one pending handle. -/
theorem executeLoop_queues (cs : List Nat) :
    ∀ (buffers : Buffers) (s : CCVKCommandBuffer) (n : Nat),
      (∀ x, ((executeLoop buffers s n cs).1 x).pendingQueue.length
        ≤ (buffers x).pendingQueue.length) ∧
      (∀ x ∈ cs, (buffers x).pendingQueue.length ≤ 1 →
        ((executeLoop buffers s n cs).1 x).pendingQueue = []) := by
  induction cs with
  | nil =>
    intro buffers s n
    exact ⟨fun x => le_refl _, fun x hx => absurd hx (List.not_mem_nil x)⟩
  | cons c cs ih =>
    intro buffers s n
    cases hq : (buffers c).pendingQueue with
    | nil =>
      have hstep : executeLoop buffers s n (c :: cs) = executeLoop buffers s n cs := by
        simp only [executeLoop, hq]
      rw [hstep]
      obtain ⟨ih1, ih2⟩ := ih buffers s n
      refine ⟨ih1, ?_⟩
      intro x hx hle
      rcases List.mem_cons.mp hx with h | h
      · subst h
        have := ih1 x
        rw [hq] at this
        exact List.eq_nil_of_length_eq_zero (by simpa using this)
      · exact ih2 x h hle
    | cons front rest =>
      have hstep : executeLoop buffers s n (c :: cs) =
          executeLoop
            (Function.update buffers c { buffers c with pendingQueue := rest })
            { s with
              vkCommandBuffers := s.vkCommandBuffers.set n front
              numDrawCalls := u32 (s.numDrawCalls + (buffers c).numDrawCalls)
              numInstances := u32 (s.numInstances + (buffers c).numInstances)
              numTriangles := u32 (s.numTriangles + (buffers c).numTriangles) }
            (n + 1) cs := by
        simp only [executeLoop, hq]
      rw [hstep]
      obtain ⟨ih1, ih2⟩ := ih (Function.update buffers c { buffers c with pendingQueue := rest })
        { s with
          vkCommandBuffers := s.vkCommandBuffers.set n front
          numDrawCalls := u32 (s.numDrawCalls + (buffers c).numDrawCalls)
          numInstances := u32 (s.numInstances + (buffers c).numInstances)
          numTriangles := u32 (s.numTriangles + (buffers c).numTriangles) } (n + 1)
      have hupd : ∀ x, (Function.update buffers c
          { buffers c with pendingQueue := rest } x).pendingQueue.length
          ≤ (buffers x).pendingQueue.length := by
        intro x
        by_cases hxc : x = c
        · subst hxc
          rw [Function.update_same, hq]
          simp
        · rw [Function.update_noteq hxc]
      refine ⟨fun x => le_trans (ih1 x) (hupd x), ?_⟩
      intro x hx hle
      by_cases hxc : x = c
      · subst hxc
        have h1 := ih1 x
        rw [Function.update_same] at h1
        rw [hq] at hle
        simp only [List.length_cons] at hle
        have : rest.length = 0 := by omega
        simp only [this, Nat.le_zero_eq] at h1
        exact List.eq_nil_of_length_eq_zero h1
      · rcases List.mem_cons.mp hx with h | h
        · exact absurd h hxc
        · apply ih2 x h
          rw [Function.update_noteq hxc]
          exact hle

/-- The loop of `execute` does nothing on buffers without a pending handle. -/
theorem executeLoop_idle (cs : List Nat) :
    ∀ (buffers : Buffers) (s : CCVKCommandBuffer) (n : Nat),
      (∀ x ∈ cs, (buffers x).pendingQueue = []) →
      executeLoop buffers s n cs = (buffers, s, n) := by
  induction cs with
  | nil => intro _ _ _ _; rfl
  | cons c cs ih =>
    intro buffers s n h
    have hq := h c (List.mem_cons_self _ _)
    simp only [executeLoop, hq]
    exact ih buffers s n (fun x hx => h x (List.mem_cons_of_mem _ hx))

/-- C7.  A completed recording is executed at most once.  On pairwise distinct buffers,
`execute` removes from the pending queue of each listed buffer exactly its front handle (the
handle it passes to the native call) and leaves every other buffer alone.  If every listed
buffer has exactly one pending recording, a second `execute` on the same list issues no
native call and leaves the draw-call, instance and triangle counters unchanged. -/
theorem C7_pending_handle_consumed_once (buffers : Buffers) (s : CCVKCommandBuffer)
    (cmdBuffs : List Nat) :
    (cmdBuffs.Nodup →
      (∀ x, (execute buffers s cmdBuffs).1 x =
        if x ∈ cmdBuffs then { buffers x with pendingQueue := (buffers x).pendingQueue.tail }
        else buffers x) ∧
      (execute buffers s cmdBuffs).2.2 =
        (if withPending buffers cmdBuffs = [] then []
          else [VkCmd.ExecuteCommands (withPending buffers cmdBuffs).length
            (frontHandles buffers cmdBuffs)])) ∧
    ((∀ c ∈ cmdBuffs, (buffers c).pendingQueue.length = 1) →
      (execute (execute buffers s cmdBuffs).1 (execute buffers s cmdBuffs).2.1 cmdBuffs).2.2
        = [] ∧
      (execute (execute buffers s cmdBuffs).1
          (execute buffers s cmdBuffs).2.1 cmdBuffs).2.1.numDrawCalls
        = (execute buffers s cmdBuffs).2.1.numDrawCalls ∧
      (execute (execute buffers s cmdBuffs).1
          (execute buffers s cmdBuffs).2.1 cmdBuffs).2.1.numInstances
        = (execute buffers s cmdBuffs).2.1.numInstances ∧
      (execute (execute buffers s cmdBuffs).1
          (execute buffers s cmdBuffs).2.1 cmdBuffs).2.1.numTriangles
        = (execute buffers s cmdBuffs).2.1.numTriangles) := by
  constructor
  · intro hnd
    obtain ⟨-, -, -, h4, h5⟩ := execute_spec buffers s cmdBuffs hnd
    refine ⟨?_, h4⟩
    intro x
    rw [h5 x]
    by_cases hx : x ∈ cmdBuffs
    · rw [if_pos hx]
      by_cases hP : x ∈ withPending buffers cmdBuffs
      · rw [if_pos hP]
      · rw [if_neg hP]
        have hq : (buffers x).pendingQueue = [] := by
          by_contra hne
          apply hP
          unfold withPending
          rw [List.mem_filter]
          refine ⟨hx, ?_⟩
          cases hqq : (buffers x).pendingQueue with
          | nil => exact absurd hqq hne
          | cons a l => rfl
        rw [hq]
        simp only [List.tail_nil]
        conv_lhs => rw [show buffers x = { buffers x with pendingQueue := (buffers x).pendingQueue }
          from rfl]
        rw [hq]
    · rw [if_neg hx, if_neg (not_mem_withPending buffers x cmdBuffs hx)]
  · intro hone
    by_cases h0 : cmdBuffs.length = 0
    · have hnil : cmdBuffs = [] := List.eq_nil_of_length_eq_zero h0
      subst hnil
      simp [execute]
    · have hempty : ∀ x ∈ cmdBuffs, ((execute buffers s cmdBuffs).1 x).pendingQueue = [] := by
        intro x hx
        unfold execute
        rw [if_neg h0]
        exact (executeLoop_queues cmdBuffs buffers _ 0).2 x hx (le_of_eq (hone x hx))
      generalize execute buffers s cmdBuffs = r at hempty ⊢
      unfold execute
      rw [if_neg h0]
      simp only [executeLoop_idle cmdBuffs r.1 _ 0 hempty, ne_eq, not_true_eq_false, if_false,
        and_self]

/-- Witness for C7: two buffers with one pending recording each are executed; the second
`execute` on the same list issues nothing and adds nothing. -/
theorem C7_pending_handle_consumed_once_witness :
    (execute exBuffersOnce exFresh [1, 2]).2.2 = [VkCmd.ExecuteCommands 2 [201, 202]] ∧
    (execute exBuffersOnce exFresh [1, 2]).2.1.numDrawCalls = 6 ∧
    (execute (execute exBuffersOnce exFresh [1, 2]).1
      (execute exBuffersOnce exFresh [1, 2]).2.1 [1, 2]).2.2 = [] ∧
    (execute (execute exBuffersOnce exFresh [1, 2]).1
      (execute exBuffersOnce exFresh [1, 2]).2.1 [1, 2]).2.1.numDrawCalls = 6 := by
  have h := C7_pending_handle_consumed_once exBuffersOnce exFresh [1, 2]
  have h1 := (h.1 (by decide)).2
  obtain ⟨h2, h3, -, -⟩ := h.2 (by decide)
  have h4 : (execute exBuffersOnce exFresh [1, 2]).2.1.numDrawCalls = 6 := by decide
  refine ⟨?_, h4, h2, ?_⟩
  · rw [h1]; decide
  · rw [h3, h4]

theorem assign_get {st st1 : AccessState} {r : Resource} {v : List ThsvsAccessType}
    (h : st.assign r v = some st1) (r1 : Resource) :
    st1.get r1 = if r1 = r then some v else st.get r1 := by
  cases r with
  | texture a =>
    simp only [AccessState.assign, Option.some.injEq] at h
    subst h
    cases r1 with
    | texture b =>
      by_cases hab : b = a
      · subst hab; simp [AccessState.get]
      · simp [AccessState.get, Function.update_noteq hab, hab]
    | swapchainImage sc i => simp [AccessState.get]
    | depthStencilImage sc i => simp [AccessState.get]
  | swapchainImage sc i =>
    unfold AccessState.assign at h
    simp only at h
    split at h
    · rename_i hlt
      simp only [Option.some.injEq] at h
      subst h
      cases r1 with
      | texture b => simp [AccessState.get]
      | swapchainImage sc1 j =>
        by_cases hsc : sc1 = sc
        · subst hsc
          by_cases hij : j = i
          · subst hij
            simp [AccessState.get, List.getElem?_set_self hlt]
          · have hne : i ≠ j := fun h => hij h.symm
            simp [AccessState.get, List.getElem?_set_ne hne, hij]
        · simp [AccessState.get, Function.update_noteq hsc, hsc]
      | depthStencilImage sc1 j => simp [AccessState.get]
    · exact absurd h (by simp)
  | depthStencilImage sc i =>
    unfold AccessState.assign at h
    simp only at h
    split at h
    · rename_i hlt
      simp only [Option.some.injEq] at h
      subst h
      cases r1 with
      | texture b => simp [AccessState.get]
      | swapchainImage sc1 j => simp [AccessState.get]
      | depthStencilImage sc1 j =>
        by_cases hsc : sc1 = sc
        · subst hsc
          by_cases hij : j = i
          · subst hij
            simp [AccessState.get, List.getElem?_set_self hlt]
          · have hne : i ≠ j := fun h => hij h.symm
            simp [AccessState.get, List.getElem?_set_ne hne, hij]
        · simp [AccessState.get, Function.update_noteq hsc, hsc]
    · exact absurd h (by simp)

theorem assign_some (st : AccessState) (r : Resource) (v : List ThsvsAccessType)
    (h : (st.get r).isSome) : ∃ st1, st.assign r v = some st1 := by
  cases r with
  | texture a => exact ⟨_, rfl⟩
  | swapchainImage sc i =>
    simp only [AccessState.get] at h
    have hlt : i < (st.swapchainImageAccessTypes sc).length := by
      by_contra hge
      rw [List.getElem?_eq_none (by omega)] at h
      exact absurd h (by simp)
    unfold AccessState.assign
    simp only [hlt, if_true]
    exact ⟨_, rfl⟩
  | depthStencilImage sc i =>
    simp only [AccessState.get] at h
    have hlt : i < (st.depthStencilImageAccessTypes sc).length := by
      by_contra hge
      rw [List.getElem?_eq_none (by omega)] at h
      exact absurd h (by simp)
    unfold AccessState.assign
    simp only [hlt, if_true]
    exact ⟨_, rfl⟩

/-- A list of assignments leaves every resource with the access types of the last assignment
naming it, and every other resource as it was. -/
theorem assignAll_get (ws : List (Resource × List ThsvsAccessType)) :
    ∀ (st st1 : AccessState), ws.foldlM assignWrite st = some st1 →
      ∀ r, st1.get r = accessAfter st ws r := by
  induction ws with
  | nil =>
    intro st st1 h r
    simp only [List.foldlM_nil, Option.pure_def, Option.some.injEq] at h
    subst h
    rfl
  | cons w rest ih =>
    intro st st1 h r
    simp only [List.foldlM_cons, Option.bind_eq_bind] at h
    cases hstep : assignWrite st w with
    | none => rw [hstep] at h; exact absurd h (by simp)
    | some st0 =>
      rw [hstep, Option.some_bind] at h
      have h1 := ih st0 st1 h r
      have h2 := assign_get (show st.assign w.1 w.2 = some st0 from hstep) r
      rw [h1]
      unfold accessAfter
      simp only [lastWrite]
      cases hl : lastWrite rest r with
      | some v => rfl
      | none =>
        simp only [h2]
        by_cases hr : r = w.1
        · subst hr; simp
        · have hr1 : ¬ w.1 = r := fun h => hr h.symm
          simp [hr, hr1]

/-- A list of assignments to tracked resources is defined. -/
theorem assignAll_some (ws : List (Resource × List ThsvsAccessType)) :
    ∀ st : AccessState, (∀ w ∈ ws, (st.get w.1).isSome) →
      ∃ st1, ws.foldlM assignWrite st = some st1 := by
  induction ws with
  | nil => intro st _; exact ⟨st, rfl⟩
  | cons w rest ih =>
    intro st h
    obtain ⟨st0, hstep⟩ := assign_some st w.1 w.2 (h w (List.mem_cons_self _ _))
    have hrest : ∀ x ∈ rest, (st0.get x.1).isSome := by
      intro x hx
      rw [assign_get hstep x.1]
      split
      · rfl
      · exact h x (List.mem_cons_of_mem _ hx)
    obtain ⟨st1, h1⟩ := ih st0 hrest
    refine ⟨st1, ?_⟩
    simp only [List.foldlM_cons, Option.bind_eq_bind]
    rw [show assignWrite st w = some st0 from hstep, Option.some_bind, h1]

theorem foldlM_writes (f : Nat → Option (Resource × List ThsvsAccessType)) (l : List Nat) :
    ∀ st : AccessState, (∀ i ∈ l, (f i).isSome) →
      l.foldlM (fun st i => (f i).bind (assignWrite st)) st
        = (l.filterMap f).foldlM assignWrite st := by
  induction l with
  | nil => intro st _; rfl
  | cons i l ih =>
    intro st h
    obtain ⟨w, hw⟩ := Option.isSome_iff_exists.mp (h i (List.mem_cons_self _ _))
    simp only [List.foldlM_cons, Option.bind_eq_bind, hw, Option.some_bind, List.filterMap_cons]
    cases hstep : assignWrite st w with
    | none => simp
    | some st0 =>
      simp only [Option.some_bind]
      exact ih st0 (fun j hj => h j (List.mem_cons_of_mem _ hj))

theorem lastWrite_some_mem (ws : List (Resource × List ThsvsAccessType)) (r : Resource) :
    ∀ v, lastWrite ws r = some v → r ∈ ws.map Prod.fst := by
  induction ws with
  | nil => intro v h; simp [lastWrite] at h
  | cons y rest ih =>
    intro v h
    simp only [lastWrite] at h
    cases hl : lastWrite rest r with
    | some v2 => exact List.mem_cons_of_mem _ (ih v2 hl)
    | none =>
      rw [hl] at h
      simp only at h
      split at h
      · rename_i heq
        rw [← heq]
        exact List.mem_cons_self _ _
      · exact absurd h (by simp)

theorem lastWrite_of_nodup (ws : List (Resource × List ThsvsAccessType)) :
    (ws.map Prod.fst).Nodup → ∀ w ∈ ws, lastWrite ws w.1 = some w.2 := by
  induction ws with
  | nil => intro _ w hw; exact absurd hw (List.not_mem_nil w)
  | cons x rest ih =>
    intro hnd w hw
    simp only [List.map_cons, List.nodup_cons] at hnd
    simp only [lastWrite]
    rcases List.mem_cons.mp hw with h | h
    · subst h
      have hnone : lastWrite rest w.1 = none := by
        cases hl : lastWrite rest w.1 with
        | none => rfl
        | some v => exact absurd (lastWrite_some_mem rest w.1 v hl) hnd.1
      rw [hnone]
      simp
    · rw [ih hnd.2 w h]

theorem clearColors_some (colors : List Color) (l : List Nat) :
    ∀ cv : List VkClearValue, (∀ i ∈ l, i < colors.length) →
      ∃ cv1, l.foldlM
        (fun (cv : List VkClearValue) i => do
          let c ← colors[i]?
          pure (cv.set i (VkClearValue.color c.x c.y c.z c.w))) cv = some cv1 := by
  induction l with
  | nil => intro cv _; exact ⟨cv, rfl⟩
  | cons i l ih =>
    intro cv h
    have hi := h i (List.mem_cons_self _ _)
    obtain ⟨cv1, h1⟩ := ih (cv.set i (VkClearValue.color colors[i].x colors[i].y colors[i].z
      colors[i].w)) (fun j hj => h j (List.mem_cons_of_mem _ hj))
    refine ⟨cv1, ?_⟩
    simp only [List.foldlM_cons, Option.bind_eq_bind, List.getElem?_eq_getElem hi,
      Option.some_bind, Option.pure_def]
    exact h1

theorem setClearValues_some (clearValues : List VkClearValue) (colors : List Color)
    (depth : F32) (stencil : Int) (h : clearValues.length - 1 ≤ colors.length) :
    ∃ cv, setClearValues clearValues colors depth stencil = some cv := by
  unfold setClearValues
  by_cases h0 : clearValues.length ≠ 0
  · obtain ⟨cv1, h1⟩ := clearColors_some colors (List.range (clearValues.length - 1))
      clearValues (fun i hi => by rw [List.mem_range] at hi; omega)
    simp only [ne_eq, h0, not_false_eq_true, if_true, h1]
    exact ⟨_, rfl⟩
  · simp only [h0, if_false]
    exact ⟨_, rfl⟩

/-- Under its readiness conditions `beginRenderPass` is defined and records the framebuffer
as the active one. -/
theorem beginRenderPass_ready {thsvs : Thsvs} {st : AccessState} {renderPass : RenderPass}
    {fbo : Framebuffer} {colors : List Color}
    (hready : RenderPassReady thsvs st renderPass fbo colors) (barrierDeductionLevel : Nat)
    (s : CCVKCommandBuffer) (renderArea : Rect) (depth : F32) (stencil : Int)
    (secondaryCBCount : Nat) :
    ∃ rp cmds, beginRenderPass barrierDeductionLevel s renderPass fbo renderArea colors depth
        stencil secondaryCBCount
      = some ({ s with curGPUFBO := some fbo.gpuFBO }, rp, cmds) := by
  obtain ⟨fb, hfb⟩ := Option.isSome_iff_exists.mp hready.framebuffer
  obtain ⟨cv, hcv⟩ := setClearValues_some renderPass.gpuRenderPass.clearValues colors depth
    stencil hready.colors_len
  unfold beginRenderPass
  simp only [hfb, hcv, Option.bind_eq_bind, Option.some_bind, Option.pure_def]
  exact ⟨_, _, rfl⟩

/-- With a framebuffer active whose attachments are tracked, `endRenderPass` is defined,
clears the active framebuffer, and makes the assignments of `endWrites` in order. -/
theorem endRenderPass_ready (barrierDeductionLevel : Nat) (thsvs : Thsvs) (st : AccessState)
    (s : CCVKCommandBuffer) (gpuFBO : CCVKGPUFramebuffer)
    (hfbo : s.curGPUFBO = some gpuFBO)
    (hcolor : ∀ i, i < gpuFBO.gpuRenderPass.colorAttachments.length →
      ∃ w, colorAttachmentWrite thsvs gpuFBO i = some w ∧ (st.get w.1).isSome)
    (hdepth : gpuFBO.gpuRenderPass.depthStencilAttachment.format ≠ Format.UNKNOWN →
      ∃ w, depthStencilWrite thsvs gpuFBO = some w ∧ (st.get w.1).isSome) :
    ∃ st2, endRenderPass barrierDeductionLevel thsvs st s
        = some (st2, { s with curGPUFBO := none }, endRenderPassCmds barrierDeductionLevel) ∧
      (endWrites thsvs gpuFBO).foldlM assignWrite st = some st2 := by
  have hall : ∀ w ∈ endWrites thsvs gpuFBO, (st.get w.1).isSome := by
    intro w hw
    unfold endWrites at hw
    rcases List.mem_append.mp hw with h | h
    · rw [List.mem_filterMap] at h
      obtain ⟨i, hi, hwi⟩ := h
      rw [List.mem_range] at hi
      obtain ⟨w1, hw1, hsome⟩ := hcolor i hi
      rw [hw1] at hwi
      cases hwi
      exact hsome
    · by_cases hf : gpuFBO.gpuRenderPass.depthStencilAttachment.format ≠ Format.UNKNOWN
      · rw [if_pos hf] at h
        obtain ⟨w1, hw1, hsome⟩ := hdepth hf
        rw [hw1] at h
        simp only [Option.toList_some, List.mem_singleton] at h
        rw [h]
        exact hsome
      · rw [if_neg hf] at h
        exact absurd h (List.not_mem_nil w)
  obtain ⟨st2, hst2⟩ := assignAll_some (endWrites thsvs gpuFBO) st hall
  have hsplit := hst2
  unfold endWrites at hsplit
  rw [List.foldlM_append] at hsplit
  have hcolors : (List.range gpuFBO.gpuRenderPass.colorAttachments.length).foldlM
      (fun st i => (colorAttachmentWrite thsvs gpuFBO i).bind (assignWrite st)) st
      = ((List.range gpuFBO.gpuRenderPass.colorAttachments.length).filterMap
        (colorAttachmentWrite thsvs gpuFBO)).foldlM assignWrite st := by
    apply foldlM_writes
    intro i hi
    rw [List.mem_range] at hi
    obtain ⟨w1, hw1, -⟩ := hcolor i hi
    rw [hw1]
    rfl
  cases hmid : ((List.range gpuFBO.gpuRenderPass.colorAttachments.length).filterMap
      (colorAttachmentWrite thsvs gpuFBO)).foldlM assignWrite st with
  | none =>
    rw [hmid] at hsplit
    exact absurd hsplit (by simp)
  | some st1 =>
    rw [hmid] at hsplit hcolors
    simp only [Option.bind_eq_bind, Option.some_bind] at hsplit
    refine ⟨st2, ?_, hst2⟩
    unfold endRenderPass endDepthStencil
    simp only [hfbo, Option.bind_eq_bind, Option.some_bind, hcolors, Option.pure_def]
    by_cases hf : gpuFBO.gpuRenderPass.depthStencilAttachment.format ≠ Format.UNKNOWN
    · rw [if_pos hf] at hsplit
      obtain ⟨w1, hw1, -⟩ := hdepth hf
      rw [hw1] at hsplit
      simp only [Option.toList_some, List.foldlM_cons, List.foldlM_nil, Option.bind_eq_bind,
        Option.pure_def, Option.bind_some] at hsplit
      simp only [hf, if_true, hw1, Option.some_bind, hsplit, ne_eq, not_false_eq_true]
    · rw [if_neg hf] at hsplit
      simp only [List.foldlM_nil, Option.pure_def, Option.some.injEq] at hsplit
      simp only [hf, if_false, Option.some_bind, hsplit]

theorem colorAttachmentWrite_eq (thsvs : Thsvs) (gpuFBO : CCVKGPUFramebuffer) (i : Nat)
    (a : ColorAttachment) (r : Resource)
    (ha : gpuFBO.gpuRenderPass.colorAttachments[i]? = some a)
    (hr : colorResource gpuFBO i = some r) :
    colorAttachmentWrite thsvs gpuFBO i = some (r, [thsvs.THSVS_ACCESS_TYPES a.endAccess]) := by
  unfold colorResource at hr
  unfold colorAttachmentWrite
  cases hv : gpuFBO.gpuColorViews[i]? with
  | none => rw [hv] at hr; exact absurd hr (by simp)
  | some view =>
    rw [hv, Option.some_bind] at hr
    simp only [ha, Option.bind_eq_bind, Option.some_bind, hr, Option.pure_def]

theorem depthStencilWrite_eq (thsvs : Thsvs) (gpuFBO : CCVKGPUFramebuffer) (r : Resource)
    (hr : depthStencilResource gpuFBO = some r) :
    depthStencilWrite thsvs gpuFBO = some (r,
      [thsvs.THSVS_ACCESS_TYPES gpuFBO.gpuRenderPass.depthStencilAttachment.endAccess]) := by
  unfold depthStencilResource at hr
  unfold depthStencilWrite
  simp only [Option.bind_eq_bind, hr, Option.some_bind, Option.pure_def]

theorem foldlM_writes_defined (f : Nat → Option (Resource × List ThsvsAccessType))
    (l : List Nat) :
    ∀ st st1 : AccessState,
      l.foldlM (fun st i => (f i).bind (assignWrite st)) st = some st1 →
      (l.filterMap f).foldlM assignWrite st = some st1 := by
  induction l with
  | nil => intro st st1 h; exact h
  | cons i l ih =>
    intro st st1 h
    simp only [List.foldlM_cons, Option.bind_eq_bind, Option.bind_eq_some] at h
    obtain ⟨st0, ⟨w, hw, hst0⟩, hrest⟩ := h
    simp only [List.filterMap_cons, hw, List.foldlM_cons, Option.bind_eq_bind, hst0,
      Option.some_bind]
    exact ih st0 st1 hrest

/-- Every defined `beginRenderPass` records the framebuffer as the active one. -/
theorem beginRenderPass_shape {barrierDeductionLevel : Nat} {s s1 : CCVKCommandBuffer}
    {renderPass : RenderPass} {fbo : Framebuffer} {renderArea : Rect} {colors : List Color}
    {depth : F32} {stencil : Int} {secondaryCBCount : Nat} {rp : CCVKGPURenderPass}
    {cmds : List VkCmd}
    (h : beginRenderPass barrierDeductionLevel s renderPass fbo renderArea colors depth stencil
      secondaryCBCount = some (s1, rp, cmds)) :
    s1 = { s with curGPUFBO := some fbo.gpuFBO } := by
  unfold beginRenderPass at h
  simp only [Option.bind_eq_bind, Option.bind_eq_some, Option.pure_def, Option.some.injEq,
    Prod.mk.injEq] at h
  obtain ⟨fb, -, cv, -, hs, -⟩ := h
  exact hs.symm

/-- Every defined `endRenderPass` clears the active framebuffer and makes the assignments of
`endWrites` for the framebuffer that was active, in order. -/
theorem endRenderPass_shape {barrierDeductionLevel : Nat} {thsvs : Thsvs} {st st2 : AccessState}
    {s s2 : CCVKCommandBuffer} {cmds : List VkCmd} {gpuFBO : CCVKGPUFramebuffer}
    (hfbo : s.curGPUFBO = some gpuFBO)
    (h : endRenderPass barrierDeductionLevel thsvs st s = some (st2, s2, cmds)) :
    s2 = { s with curGPUFBO := none } ∧
    (endWrites thsvs gpuFBO).foldlM assignWrite st = some st2 := by
  unfold endRenderPass at h
  simp only [hfbo, Option.bind_eq_bind, Option.some_bind, Option.bind_eq_some, Option.pure_def,
    Option.some.injEq, Prod.mk.injEq] at h
  obtain ⟨st1, hcolors, st3, hdepth, hst, hs, -⟩ := h
  subst hst
  refine ⟨hs.symm, ?_⟩
  have hc := foldlM_writes_defined _ _ st st1 hcolors
  unfold endDepthStencil at hdepth
  unfold endWrites
  rw [List.foldlM_append, hc]
  simp only [Option.bind_eq_bind, Option.some_bind]
  by_cases hf : gpuFBO.gpuRenderPass.depthStencilAttachment.format ≠ Format.UNKNOWN
  · rw [if_pos hf] at hdepth ⊢
    simp only [Option.bind_eq_some] at hdepth
    obtain ⟨w, hw, hst3⟩ := hdepth
    simp only [hw, Option.toList_some, List.foldlM_cons, List.foldlM_nil, Option.bind_eq_bind,
      hst3, Option.some_bind, Option.pure_def]
  · rw [if_neg hf] at hdepth ⊢
    simp only [List.foldlM_nil, Option.pure_def]
    exact hdepth

/-- C8 (as amended).  For every render pass and framebuffer passed to `beginRenderPass` and
every prior content of the Resource Access State, after the matching `endRenderPass` the
active-render-pass reference is cleared and the access state of every resource is the one
assigned by the last attachment that refers to it (colour attachments in index order, then
depth/stencil), every other resource keeping its state.  When the attachments refer to
pairwise distinct resources, the access state of every colour attachment's resource (the
attached texture, or the current swapchain image when the attachment has no view) is exactly
the singleton of the access type that the framebuffer's own render pass declares as that
attachment's end access, and likewise for the depth/stencil resource when that render pass
has a depth/stencil attachment.  Both calls are defined under `RenderPassReady`. -/
theorem C8_render_pass_round_trip (barrierDeductionLevel : Nat) (thsvs : Thsvs)
    (st : AccessState) (s : CCVKCommandBuffer) (renderPass : RenderPass) (fbo : Framebuffer)
    (renderArea : Rect) (colors : List Color) (depth : F32) (stencil : Int)
    (secondaryCBCount : Nat) :
    (RenderPassReady thsvs st renderPass fbo colors →
      ∃ s1 rp cmds1, beginRenderPass barrierDeductionLevel s renderPass fbo renderArea colors
          depth stencil secondaryCBCount = some (s1, rp, cmds1) ∧
        (endRenderPass barrierDeductionLevel thsvs st s1).isSome) ∧
    (∀ s1 rp cmds1 st2 s2 cmds2,
      beginRenderPass barrierDeductionLevel s renderPass fbo renderArea colors depth stencil
        secondaryCBCount = some (s1, rp, cmds1) →
      endRenderPass barrierDeductionLevel thsvs st s1 = some (st2, s2, cmds2) →
      s2.curGPUFBO = none ∧
      (∀ r, st2.get r = accessAfter st (endWrites thsvs fbo.gpuFBO) r) ∧
      (((endWrites thsvs fbo.gpuFBO).map Prod.fst).Nodup →
        (∀ i a r, fbo.gpuFBO.gpuRenderPass.colorAttachments[i]? = some a →
          colorResource fbo.gpuFBO i = some r →
          st2.get r = some [thsvs.THSVS_ACCESS_TYPES a.endAccess]) ∧
        (fbo.gpuFBO.gpuRenderPass.depthStencilAttachment.format ≠ Format.UNKNOWN →
          ∀ r, depthStencilResource fbo.gpuFBO = some r →
          st2.get r = some [thsvs.THSVS_ACCESS_TYPES
            fbo.gpuFBO.gpuRenderPass.depthStencilAttachment.endAccess]))) := by
  constructor
  · intro hready
    obtain ⟨rp, cmds1, hbegin⟩ := beginRenderPass_ready hready barrierDeductionLevel s
      renderArea depth stencil secondaryCBCount
    obtain ⟨st2, hend, -⟩ := endRenderPass_ready barrierDeductionLevel thsvs st
      { s with curGPUFBO := some fbo.gpuFBO } fbo.gpuFBO rfl hready.color_writes
      hready.depth_write
    refine ⟨_, rp, cmds1, hbegin, ?_⟩
    rw [hend]
    rfl
  · intro s1 rp cmds1 st2 s2 cmds2 hbegin hend
    have hs1 := beginRenderPass_shape hbegin
    have hfbo : s1.curGPUFBO = some fbo.gpuFBO := by rw [hs1]
    obtain ⟨hs2, hwrites⟩ := endRenderPass_shape hfbo hend
    have hget := assignAll_get (endWrites thsvs fbo.gpuFBO) st st2 hwrites
    refine ⟨by rw [hs2], hget, ?_⟩
    intro hnd
    constructor
    · intro i a r ha hr
      have hw := colorAttachmentWrite_eq thsvs fbo.gpuFBO i a r ha hr
      have hi : i < fbo.gpuFBO.gpuRenderPass.colorAttachments.length := by
        by_contra hge
        rw [List.getElem?_eq_none (by omega)] at ha
        exact absurd ha (by simp)
      have hmem : (r, [thsvs.THSVS_ACCESS_TYPES a.endAccess])
          ∈ endWrites thsvs fbo.gpuFBO := by
        unfold endWrites
        apply List.mem_append_left
        rw [List.mem_filterMap]
        exact ⟨i, List.mem_range.mpr hi, hw⟩
      rw [hget r]
      unfold accessAfter
      rw [lastWrite_of_nodup _ hnd _ hmem]
    · intro hf r hr
      have hw := depthStencilWrite_eq thsvs fbo.gpuFBO r hr
      have hmem : (r, [thsvs.THSVS_ACCESS_TYPES
          fbo.gpuFBO.gpuRenderPass.depthStencilAttachment.endAccess])
          ∈ endWrites thsvs fbo.gpuFBO := by
        unfold endWrites
        apply List.mem_append_right
        rw [if_pos hf, hw]
        simp
      rw [hget r]
      unfold accessAfter
      rw [lastWrite_of_nodup _ hnd _ hmem]

theorem exOffscreen_ready :
    RenderPassReady exThsvs exAccess ⟨exPass 5 6⟩ (exOffscreen (exPass 5 6)) exColors where
  framebuffer := rfl
  colors_len := by decide
  color_writes := by
    intro i hi
    have h0 : i = 0 := by
      have : i < 1 := hi
      omega
    subst h0
    exact ⟨(Resource.texture 40, [105]), rfl, rfl⟩
  depth_write := fun _ => ⟨(Resource.texture 41, [106]), rfl, rfl⟩

/-- Witness for C8: a framebuffer over textures 40 and 41, begun with the render pass it was
created with (end accesses 5 and 6); whatever they were before, afterwards texture 40 has
exactly the native access type of 5 and texture 41 that of 6. -/
theorem C8_render_pass_round_trip_witness :
    (exRoundTrip ⟨exPass 5 6⟩ (exOffscreen (exPass 5 6))).bind
        (fun st => st.get (Resource.texture 40)) = some [105] ∧
    (exRoundTrip ⟨exPass 5 6⟩ (exOffscreen (exPass 5 6))).bind
        (fun st => st.get (Resource.texture 41)) = some [106] := by
  obtain ⟨hdef, hlaw⟩ :=
    C8_render_pass_round_trip BARRIER_DEDUCTION_LEVEL_BASIC exThsvs exAccess exFresh
      ⟨exPass 5 6⟩ (exOffscreen (exPass 5 6)) exArea exColors (.ofInt 1) 0 0
  obtain ⟨s1, rp, cmds1, hb, hsome⟩ := hdef exOffscreen_ready
  obtain ⟨q, he⟩ := Option.isSome_iff_exists.mp hsome
  obtain ⟨-, -, hdist⟩ := hlaw s1 rp cmds1 q.1 q.2.1 q.2.2 hb he
  obtain ⟨hcolor, hdepth⟩ := hdist (by decide)
  have h40 := hcolor 0 ⟨.known 1, .CLEAR, 5⟩ (Resource.texture 40) rfl rfl
  have h41 := hdepth (by decide) (Resource.texture 41) rfl
  unfold exRoundTrip
  rw [hb]
  simp only [Option.some_bind, he, Option.map_some']
  exact ⟨h40, h41⟩

/-- Counterexample to C8 as stated, two inputs.  (1) A framebuffer created with a render pass
declaring end access 9 for its colour attachment is begun with a render pass declaring end
access 5: after `endRenderPass` the texture holds the native access type of 9, not that of the
begun render pass.  (2) A swapchain framebuffer whose two colour attachments have no view, so
both are the current swapchain image, with end accesses 5 and 9: the image ends with the native
access type of 9 alone, not with that of attachment 0. -/
theorem C8_counterexample :
    (exPass 5 6).colorAttachments.map (fun a => exThsvs.THSVS_ACCESS_TYPES a.endAccess)
      = [105] ∧
    (exRoundTrip ⟨exPass 5 6⟩ (exOffscreen (exPass 9 10))).bind
        (fun st => st.get (Resource.texture 40)) = some [109] ∧
    exPassTwoColors.colorAttachments.map (fun a => exThsvs.THSVS_ACCESS_TYPES a.endAccess)
      = [105, 109] ∧
    colorResource exOnscreenTwoColors.gpuFBO 0 = some (Resource.swapchainImage 60 1) ∧
    (exRoundTrip ⟨exPassTwoColors⟩ exOnscreenTwoColors).bind
        (fun st => st.get (Resource.swapchainImage 60 1)) = some [109] := by
  decide

theorem assign_keeps_tracked {st st1 : AccessState} {r : Resource}
    {v : List ThsvsAccessType} (h : st.assign r v = some st1) (r1 : Resource)
    (h1 : (st.get r1).isSome) : (st1.get r1).isSome := by
  rw [assign_get h r1]
  split
  · rfl
  · exact h1

theorem barrierResource_some {gpuSwapchain : Option CCVKGPUSwapchain} {tb : TextureBarrier}
    {r : Resource} (h : barrierResource gpuSwapchain tb = some r) (thsvs : Thsvs) :
    ∃ b, imageBarrierOf thsvs gpuSwapchain tb = some b ∧
      textureBarrierWrite thsvs gpuSwapchain tb
        = some (r, tb.nextAccesses.map thsvs.THSVS_ACCESS_TYPES) := by
  unfold barrierResource at h
  unfold imageBarrierOf textureBarrierWrite
  cases ht : textureBarrierTarget gpuSwapchain tb with
  | none => rw [ht] at h; exact absurd h (by simp)
  | some target =>
    rw [ht] at h
    simp only [Option.map_some', Option.some.injEq] at h
    subst h
    exact ⟨_, rfl, rfl⟩

/-- The texture-barrier loop of `pipelineBarrier`: the stage masks accumulate the derived
stages, one native image barrier is appended per texture barrier, and the Resource Access State
receives the assignments of `barrierWrites` in order. -/
theorem barrierLoop_ready (thsvs : Thsvs) (gpuSwapchain : Option CCVKGPUSwapchain)
    (tbs : List TextureBarrier) :
    ∀ acc : BarrierLoop, PipelineBarrierReady gpuSwapchain acc.st tbs →
      ∃ acc1, tbs.foldlM (textureBarrierStep thsvs gpuSwapchain) acc = some acc1 ∧
        acc1.srcStageMask = unionStages acc.srcStageMask
          ((imageBarriersOf thsvs gpuSwapchain tbs).map
            (fun b => (thsvs.thsvsGetVulkanImageMemoryBarrier b).1)) ∧
        acc1.dstStageMask = unionStages acc.dstStageMask
          ((imageBarriersOf thsvs gpuSwapchain tbs).map
            (fun b => (thsvs.thsvsGetVulkanImageMemoryBarrier b).2.1)) ∧
        acc1.imageMemoryBarriers = acc.imageMemoryBarriers ++
          (imageBarriersOf thsvs gpuSwapchain tbs).map
            (fun b => (thsvs.thsvsGetVulkanImageMemoryBarrier b).2.2) ∧
        (imageBarriersOf thsvs gpuSwapchain tbs).length = tbs.length ∧
        (barrierWrites thsvs gpuSwapchain tbs).foldlM assignWrite acc.st = some acc1.st := by
  induction tbs with
  | nil =>
    intro acc _
    exact ⟨acc, rfl, rfl, rfl, by simp [imageBarriersOf], rfl, rfl⟩
  | cons tb rest ih =>
    intro acc hready
    obtain ⟨r, hr, htracked⟩ := hready tb (List.mem_cons_self _ _)
    obtain ⟨b, hb, hw⟩ := barrierResource_some hr thsvs
    obtain ⟨st0, hst0⟩ := assign_some acc.st r (tb.nextAccesses.map thsvs.THSVS_ACCESS_TYPES)
      htracked
    have hstep : textureBarrierStep thsvs gpuSwapchain acc tb = some
        { st := st0
          srcStageMask := acc.srcStageMask ||| (thsvs.thsvsGetVulkanImageMemoryBarrier b).1
          dstStageMask := acc.dstStageMask ||| (thsvs.thsvsGetVulkanImageMemoryBarrier b).2.1
          imageMemoryBarriers := acc.imageMemoryBarriers
            ++ [(thsvs.thsvsGetVulkanImageMemoryBarrier b).2.2] } := by
      unfold textureBarrierStep
      simp only [hb, hw, Option.bind_eq_bind, Option.some_bind, assignWrite, hst0,
        Option.pure_def]
    have hready1 : PipelineBarrierReady gpuSwapchain st0 rest := by
      intro x hx
      obtain ⟨rx, hrx, htx⟩ := hready x (List.mem_cons_of_mem _ hx)
      exact ⟨rx, hrx, assign_keeps_tracked hst0 rx htx⟩
    obtain ⟨acc1, hfold, h1, h2, h3, h4, h5⟩ := ih
      { st := st0
        srcStageMask := acc.srcStageMask ||| (thsvs.thsvsGetVulkanImageMemoryBarrier b).1
        dstStageMask := acc.dstStageMask ||| (thsvs.thsvsGetVulkanImageMemoryBarrier b).2.1
        imageMemoryBarriers := acc.imageMemoryBarriers
          ++ [(thsvs.thsvsGetVulkanImageMemoryBarrier b).2.2] } hready1
    have hIB : imageBarriersOf thsvs gpuSwapchain (tb :: rest)
        = b :: imageBarriersOf thsvs gpuSwapchain rest := by
      simp only [imageBarriersOf, List.filterMap_cons, hb]
    have hBW : barrierWrites thsvs gpuSwapchain (tb :: rest)
        = (r, tb.nextAccesses.map thsvs.THSVS_ACCESS_TYPES)
          :: barrierWrites thsvs gpuSwapchain rest := by
      simp only [barrierWrites, List.filterMap_cons, hw]
    refine ⟨acc1, ?_, ?_, ?_, ?_, ?_, ?_⟩
    · simp only [List.foldlM_cons, Option.bind_eq_bind, hstep, Option.some_bind, hfold]
    · rw [h1, hIB]; rfl
    · rw [h2, hIB]; rfl
    · rw [h3, hIB]; simp
    · rw [hIB, List.length_cons, h4, List.length_cons]
    · rw [hBW]
      simp only [List.foldlM_cons, Option.bind_eq_bind]
      rw [show assignWrite acc.st (r, tb.nextAccesses.map thsvs.THSVS_ACCESS_TYPES) = some st0
        from hst0, Option.some_bind]
      exact h5

/-- Everything `pipelineBarrier` does, under its readiness conditions. -/
theorem pipelineBarrier_ready (thsvs : Thsvs) (gpuSwapchain : Option CCVKGPUSwapchain)
    (st : AccessState) (s : CCVKCommandBuffer) (barrier : Option GlobalBarrier)
    (textureBarriers : List TextureBarrier)
    (hready : PipelineBarrierReady gpuSwapchain st textureBarriers) :
    ∃ st1 s1 memoryBarriers imageMemoryBarriers,
      pipelineBarrier thsvs gpuSwapchain st s barrier textureBarriers = some (st1, s1,
        [VkCmd.PipelineBarrier
          (unionStages (VK_PIPELINE_STAGE_TOP_OF_PIPE_BIT ||| globalSrcStages thsvs barrier)
            ((imageBarriersOf thsvs gpuSwapchain textureBarriers).map
              (fun b => (thsvs.thsvsGetVulkanImageMemoryBarrier b).1)))
          (unionStages (VK_PIPELINE_STAGE_BOTTOM_OF_PIPE_BIT ||| globalDstStages thsvs barrier)
            ((imageBarriersOf thsvs gpuSwapchain textureBarriers).map
              (fun b => (thsvs.thsvsGetVulkanImageMemoryBarrier b).2.1)))
          memoryBarriers imageMemoryBarriers]) ∧
      memoryBarriers.length = (if barrier.isSome then 1 else 0) ∧
      imageMemoryBarriers.length = textureBarriers.length ∧
      (imageBarriersOf thsvs gpuSwapchain textureBarriers).length = textureBarriers.length ∧
      (barrierWrites thsvs gpuSwapchain textureBarriers).foldlM assignWrite st = some st1 := by
  cases barrier with
  | none =>
    obtain ⟨acc1, hfold, h1, h2, h3, h4, h5⟩ := barrierLoop_ready thsvs gpuSwapchain
      textureBarriers
      { st := st, srcStageMask := VK_PIPELINE_STAGE_TOP_OF_PIPE_BIT,
        dstStageMask := VK_PIPELINE_STAGE_BOTTOM_OF_PIPE_BIT, imageMemoryBarriers := [] } hready
    refine ⟨acc1.st,
      { s with
        accessTypes := flattenedAccessTypes thsvs none textureBarriers
        imageMemoryBarriers :=
          if textureBarriers.length > 0 then acc1.imageMemoryBarriers
          else s.imageMemoryBarriers },
      [], acc1.imageMemoryBarriers, ?_, rfl, ?_, h4, h5⟩
    · unfold pipelineBarrier
      simp only [hfold, Option.bind_eq_bind, Option.some_bind, Option.pure_def, globalSrcStages,
        globalDstStages, Nat.or_zero, ← h1, ← h2]
    · rw [h3, List.nil_append, List.length_map, h4]
  | some b =>
    obtain ⟨acc1, hfold, h1, h2, h3, h4, h5⟩ := barrierLoop_ready thsvs gpuSwapchain
      textureBarriers
      { st := st
        srcStageMask := VK_PIPELINE_STAGE_TOP_OF_PIPE_BIT
          ||| (thsvs.thsvsGetVulkanMemoryBarrier (globalBarrierOf thsvs b)).1
        dstStageMask := VK_PIPELINE_STAGE_BOTTOM_OF_PIPE_BIT
          ||| (thsvs.thsvsGetVulkanMemoryBarrier (globalBarrierOf thsvs b)).2.1
        imageMemoryBarriers := [] } hready
    refine ⟨acc1.st,
      { s with
        accessTypes := flattenedAccessTypes thsvs (some b) textureBarriers
        imageMemoryBarriers :=
          if textureBarriers.length > 0 then acc1.imageMemoryBarriers
          else s.imageMemoryBarriers },
      [(thsvs.thsvsGetVulkanMemoryBarrier (globalBarrierOf thsvs b)).2.2],
      acc1.imageMemoryBarriers, ?_, rfl, ?_, h4, h5⟩
    · unfold pipelineBarrier
      simp only [hfold, Option.bind_eq_bind, Option.some_bind, Option.pure_def, globalSrcStages,
        globalDstStages, ← h1, ← h2]
    · rw [h3, List.nil_append, List.length_map, h4]

theorem exTextureBarriers_ready (l : List TextureBarrier)
    (hl : ∀ tb ∈ l, tb ∈ exTextureBarriers) :
    PipelineBarrierReady (some exSwapchain) exAccess l := by
  intro tb htb
  have h := hl tb htb
  simp only [exTextureBarriers, List.mem_cons, List.mem_singleton, List.not_mem_nil,
    or_false] at h
  rcases h with h | h | h
  · subst h; exact ⟨Resource.texture 40, rfl, rfl⟩
  · subst h; exact ⟨Resource.swapchainImage 60 1, rfl, rfl⟩
  · subst h; exact ⟨Resource.texture 40, rfl, rfl⟩

theorem textureBarrierWrite_resource {thsvs : Thsvs} {gpuSwapchain : Option CCVKGPUSwapchain}
    {tb : TextureBarrier} {w : Resource × List ThsvsAccessType}
    (h : textureBarrierWrite thsvs gpuSwapchain tb = some w) :
    barrierResource gpuSwapchain tb = some w.1 := by
  unfold textureBarrierWrite at h
  unfold barrierResource
  cases ht : textureBarrierTarget gpuSwapchain tb with
  | none => rw [ht] at h; exact absurd h (by simp)
  | some target =>
    rw [ht] at h
    simp only [Option.map_some', Option.some.injEq] at h
    rw [← h]
    rfl

theorem barrierWrites_not_named (thsvs : Thsvs) (gpuSwapchain : Option CCVKGPUSwapchain)
    (l : List TextureBarrier) (r : Resource)
    (h : ∀ tb ∈ l, barrierResource gpuSwapchain tb ≠ some r) :
    r ∉ (barrierWrites thsvs gpuSwapchain l).map Prod.fst := by
  intro hmem
  rw [List.mem_map] at hmem
  obtain ⟨w, hw, hwr⟩ := hmem
  unfold barrierWrites at hw
  rw [List.mem_filterMap] at hw
  obtain ⟨tb, htb, htw⟩ := hw
  apply h tb htb
  rw [textureBarrierWrite_resource htw, hwr]

theorem lastWrite_none (ws : List (Resource × List ThsvsAccessType)) (r : Resource)
    (h : r ∉ ws.map Prod.fst) : lastWrite ws r = none := by
  cases hl : lastWrite ws r with
  | none => rfl
  | some v => exact absurd (lastWrite_some_mem ws r v hl) h

theorem lastWrite_append_last (l1 l2 : List (Resource × List ThsvsAccessType)) (r : Resource)
    (v : List ThsvsAccessType) (h : r ∉ l2.map Prod.fst) :
    lastWrite (l1 ++ (r, v) :: l2) r = some v := by
  induction l1 with
  | nil =>
    simp only [List.nil_append, lastWrite, lastWrite_none l2 r h, if_true]
  | cons x l1 ih =>
    show (match lastWrite (l1 ++ (r, v) :: l2) r with
      | some v => some v
      | none => if x.1 = r then some x.2 else none) = some v
    rw [ih]

theorem assign_defined_tracked {st st1 : AccessState} {r : Resource}
    {v : List ThsvsAccessType} (h : st.assign r v = some st1) : (st.get r).isSome := by
  cases r with
  | texture a => rfl
  | swapchainImage sc i =>
    unfold AccessState.assign at h
    simp only at h
    split at h
    · rename_i hlt
      simp only [AccessState.get, List.getElem?_eq_getElem hlt, Option.isSome_some]
    · exact absurd h (by simp)
  | depthStencilImage sc i =>
    unfold AccessState.assign at h
    simp only at h
    split at h
    · rename_i hlt
      simp only [AccessState.get, List.getElem?_eq_getElem hlt, Option.isSome_some]
    · exact absurd h (by simp)

theorem assign_tracked_before {st st1 : AccessState} {r : Resource}
    {v : List ThsvsAccessType} (h : st.assign r v = some st1) (r1 : Resource)
    (h1 : (st1.get r1).isSome) : (st.get r1).isSome := by
  rw [assign_get h r1] at h1
  by_cases hr : r1 = r
  · rw [hr]; exact assign_defined_tracked h
  · rw [if_neg hr] at h1; exact h1

/-- The texture-barrier loop is defined only when every texture barrier names a tracked
resource. -/
theorem barrierLoop_defined (thsvs : Thsvs) (gpuSwapchain : Option CCVKGPUSwapchain)
    (tbs : List TextureBarrier) :
    ∀ acc acc1 : BarrierLoop,
      tbs.foldlM (textureBarrierStep thsvs gpuSwapchain) acc = some acc1 →
      PipelineBarrierReady gpuSwapchain acc.st tbs := by
  induction tbs with
  | nil => intro acc acc1 _ tb htb; exact absurd htb (List.not_mem_nil tb)
  | cons tb rest ih =>
    intro acc acc1 h
    simp only [List.foldlM_cons, Option.bind_eq_bind, Option.bind_eq_some] at h
    obtain ⟨acc0, hstep, hrest⟩ := h
    unfold textureBarrierStep at hstep
    simp only [Option.bind_eq_bind, Option.bind_eq_some, Option.pure_def, Option.some.injEq]
      at hstep
    obtain ⟨b, hb, w, hw, st0, hst0, hacc0⟩ := hstep
    have hres := textureBarrierWrite_resource hw
    have hready1 := ih acc0 acc1 hrest
    rw [← hacc0] at hready1
    simp only at hready1
    intro x hx
    rcases List.mem_cons.mp hx with hx | hx
    · subst hx
      exact ⟨w.1, hres, assign_defined_tracked hst0⟩
    · obtain ⟨rx, hrx, htx⟩ := hready1 x hx
      exact ⟨rx, hrx, assign_tracked_before hst0 rx htx⟩

/-- The member `pipelineBarrier` is defined only under its readiness condition. -/
theorem pipelineBarrier_defined {thsvs : Thsvs} {gpuSwapchain : Option CCVKGPUSwapchain}
    {st : AccessState} {s : CCVKCommandBuffer} {barrier : Option GlobalBarrier}
    {textureBarriers : List TextureBarrier} {r : AccessState × CCVKCommandBuffer × List VkCmd}
    (h : pipelineBarrier thsvs gpuSwapchain st s barrier textureBarriers = some r) :
    PipelineBarrierReady gpuSwapchain st textureBarriers := by
  unfold pipelineBarrier at h
  simp only [Option.bind_eq_bind, Option.bind_eq_some, Option.pure_def] at h
  obtain ⟨loop, hloop, -⟩ := h
  exact barrierLoop_defined thsvs gpuSwapchain textureBarriers _ loop hloop

/-- C10.  After every `pipelineBarrier` call the access state of every resource is the one
assigned by the last texture barrier of the list that names it: for each texture barrier, the
named texture (or the current swapchain image when no texture is named) holds, in order, the
table-mapped next accesses of the last texture barrier naming that resource, whatever the
state was before.  A resource that no texture barrier names keeps its access state, and a
global barrier alone changes no access state. -/
theorem C10_pipeline_barrier_access_state (thsvs : Thsvs)
    (gpuSwapchain : Option CCVKGPUSwapchain) (st : AccessState) (s : CCVKCommandBuffer)
    (barrier : Option GlobalBarrier) (textureBarriers : List TextureBarrier) :
    (PipelineBarrierReady gpuSwapchain st textureBarriers →
      (pipelineBarrier thsvs gpuSwapchain st s barrier textureBarriers).isSome) ∧
    (∀ st1 s1 cmds,
      pipelineBarrier thsvs gpuSwapchain st s barrier textureBarriers = some (st1, s1, cmds) →
      (∀ before tb after r, textureBarriers = before ++ tb :: after →
        barrierResource gpuSwapchain tb = some r →
        (∀ later ∈ after, barrierResource gpuSwapchain later ≠ some r) →
        st1.get r = some (tb.nextAccesses.map thsvs.THSVS_ACCESS_TYPES)) ∧
      (∀ r, (∀ tb ∈ textureBarriers, barrierResource gpuSwapchain tb ≠ some r) →
        st1.get r = st.get r) ∧
      (textureBarriers = [] → ∀ r, st1.get r = st.get r) ∧
      (∀ r, st1.get r = accessAfter st (barrierWrites thsvs gpuSwapchain textureBarriers) r))
    := by
  constructor
  · intro hready
    obtain ⟨st1, s1, mb, ib, h, -⟩ :=
      pipelineBarrier_ready thsvs gpuSwapchain st s barrier textureBarriers hready
    rw [h]
    rfl
  · intro st1 s1 cmds hcall
    obtain ⟨st2, s2, mb, ib, h, -, -, -, hwrites⟩ :=
      pipelineBarrier_ready thsvs gpuSwapchain st s barrier textureBarriers
        (pipelineBarrier_defined hcall)
    rw [hcall] at h
    simp only [Option.some.injEq, Prod.mk.injEq] at h
    rw [← h.1] at hwrites
    have hget := assignAll_get _ st st1 hwrites
    have hunnamed : ∀ r, (∀ tb ∈ textureBarriers, barrierResource gpuSwapchain tb ≠ some r) →
        st1.get r = st.get r := by
      intro r hr
      rw [hget r]
      unfold accessAfter
      rw [lastWrite_none _ r (barrierWrites_not_named thsvs gpuSwapchain _ r hr)]
    refine ⟨?_, hunnamed, ?_, hget⟩
    · intro before tb after r hsplit hr hlater
      obtain ⟨b, -, hw⟩ := barrierResource_some hr thsvs
      have hBW : barrierWrites thsvs gpuSwapchain textureBarriers
          = barrierWrites thsvs gpuSwapchain before
            ++ (r, tb.nextAccesses.map thsvs.THSVS_ACCESS_TYPES)
              :: barrierWrites thsvs gpuSwapchain after := by
        rw [hsplit]
        simp only [barrierWrites, List.filterMap_append, List.filterMap_cons, hw]
      rw [hget r]
      unfold accessAfter
      rw [hBW, lastWrite_append_last _ _ r _
        (barrierWrites_not_named thsvs gpuSwapchain after r hlater)]
    · intro hnil r
      apply hunnamed
      intro tb htb
      rw [hnil] at htb
      exact absurd htb (List.not_mem_nil tb)

/-- Witness for C10: barriers on texture 40, on the current swapchain image and on texture 40
again leave texture 40 with the mapped next accesses of the third barrier, the swapchain image
with those of the second, and texture 41 as it was. -/
theorem C10_pipeline_barrier_access_state_witness :
    (pipelineBarrier exThsvs (some exSwapchain) exAccess exFresh (some ⟨[1], [2]⟩)
        exTextureBarriers).bind (fun r => r.1.get (Resource.texture 40)) = some [106, 107] ∧
    (pipelineBarrier exThsvs (some exSwapchain) exAccess exFresh (some ⟨[1], [2]⟩)
        exTextureBarriers).bind (fun r => r.1.get (Resource.swapchainImage 60 1))
      = some [109] ∧
    (pipelineBarrier exThsvs (some exSwapchain) exAccess exFresh (some ⟨[1], [2]⟩)
        exTextureBarriers).bind (fun r => r.1.get (Resource.texture 41)) = some [7] := by
  obtain ⟨hdef, hcall⟩ := C10_pipeline_barrier_access_state exThsvs
    (some exSwapchain) exAccess exFresh (some ⟨[1], [2]⟩) exTextureBarriers
  obtain ⟨r, hr⟩ := Option.isSome_iff_exists.mp
    (hdef (exTextureBarriers_ready _ (fun _ h => h)))
  obtain ⟨hlast, hunnamed, -, -⟩ := hcall r.1 r.2.1 r.2.2 hr
  have h40 := hlast [exTextureBarrier (some 40) [3] [5], exTextureBarrier none [2] [9]]
    (exTextureBarrier (some 40) [5] [6, 7]) [] (Resource.texture 40) rfl rfl
    (fun x hx => absurd hx (List.not_mem_nil x))
  have hsc := hlast [exTextureBarrier (some 40) [3] [5]] (exTextureBarrier none [2] [9])
    [exTextureBarrier (some 40) [5] [6, 7]] (Resource.swapchainImage 60 1) rfl rfl (by decide)
  have h41 := hunnamed (Resource.texture 41) (by decide)
  rw [hr]
  simp only [Option.some_bind]
  exact ⟨h40, hsc, h41⟩

/-! ## `begin` and `end` -/

theorem begin_recording {pool : CCVKGPUCommandBufferPool} {s : CCVKCommandBuffer}
    (h : s.gpuCommandBuffer.began = true) (renderPass : Option RenderPass) (subpass : Nat)
    (frameBuffer : Option Framebuffer) :
    begin pool s renderPass subpass frameBuffer = some (s, []) := by
  unfold begin
  simp only [h, if_true]

theorem end_idle {pool : CCVKGPUCommandBufferPool} {s : CCVKCommandBuffer}
    (h : s.gpuCommandBuffer.began = false) : end_ pool s = (s, []) := by
  unfold end_
  simp [h]

theorem end_recording {pool : CCVKGPUCommandBufferPool} {s : CCVKCommandBuffer}
    (h : s.gpuCommandBuffer.began = true) :
    end_ pool s =
      ({ s with
          curGPUFBO := none
          curGPUInputAssember := none
          curViewport := { s.curViewport with width := 0, height := 0 }
          curScissor := { s.curScissor with width := 0, height := 0 }
          pendingQueue := s.pendingQueue ++ [s.gpuCommandBuffer.vkCommandBuffer]
          gpuCommandBuffer :=
            { began := false
              vkCommandBuffer := pool.yield { s.gpuCommandBuffer with began := false } } },
        [LifecycleCall.EndCommandBuffer s.gpuCommandBuffer.vkCommandBuffer,
          LifecycleCall.PoolYield]) := by
  unfold end_
  simp [h]

/-- A `begin` that gets past its two checks returns the reset recorder with the recording flag
set, after the pool request and the native begin call. -/
theorem begin_success {pool : CCVKGPUCommandBufferPool} {s s1 : CCVKCommandBuffer}
    {renderPass : Option RenderPass} {subpass : Nat} {frameBuffer : Option Framebuffer}
    {calls : List LifecycleCall}
    (hidle : s.gpuCommandBuffer.began = false)
    (hpass : s.type = CommandBufferType.PRIMARY ∨ renderPass ≠ none)
    (h : begin pool s renderPass subpass frameBuffer = some (s1, calls)) :
    ∃ beginInfo,
      (s1, calls) = beginNative (beginReset pool s) [LifecycleCall.PoolRequest] beginInfo := by
  unfold begin at h
  simp only [hidle, Bool.false_eq_true, if_false] at h
  by_cases hsec : (beginReset pool s).type = CommandBufferType.SECONDARY
  · simp only [hsec, if_true] at h
    have hs : s.type = CommandBufferType.SECONDARY := hsec
    rcases hpass with hp | hp
    · rw [hp] at hs; exact absurd hs (by decide)
    · cases renderPass with
      | none => exact absurd rfl hp
      | some rp =>
        simp only [Option.map_eq_some'] at h
        obtain ⟨fb, -, hfb⟩ := h
        exact ⟨_, hfb.symm⟩
  · simp only [hsec, if_false, Option.some.injEq] at h
    exact ⟨_, h.symm⟩

theorem begin_defined {pool : CCVKGPUCommandBufferPool} {s : CCVKCommandBuffer}
    {renderPass : Option RenderPass} {frameBuffer : Option Framebuffer}
    (hpass : s.type = CommandBufferType.PRIMARY ∨ (inheritedFramebuffer frameBuffer).isSome)
    (subpass : Nat) :
    (begin pool s renderPass subpass frameBuffer).isSome = true := by
  unfold begin
  cases hb : s.gpuCommandBuffer.began with
  | true => simp only [if_true, Option.isSome_some]
  | false =>
    simp only [Bool.false_eq_true, if_false]
    by_cases hsec : (beginReset pool s).type = CommandBufferType.SECONDARY
    · simp only [hsec, if_true]
      have hs : s.type = CommandBufferType.SECONDARY := hsec
      rcases hpass with hp | hp
      · rw [hp] at hs; exact absurd hs (by decide)
      · cases renderPass with
        | none => rfl
        | some rp =>
          obtain ⟨fb, hfb⟩ := Option.isSome_iff_exists.mp hp
          simp only [hfb, Option.map_some', Option.isSome_some]
    · simp only [hsec, if_false, Option.isSome_some]

/-- For a secondary buffer that is not recording, `begin` without a render pass requests a
command buffer from the pool, resets the recorder and then returns. -/
theorem begin_without_render_pass {pool : CCVKGPUCommandBufferPool} {s : CCVKCommandBuffer}
    (hidle : s.gpuCommandBuffer.began = false)
    (hsec : s.type = CommandBufferType.SECONDARY) (subpass : Nat)
    (frameBuffer : Option Framebuffer) :
    begin pool s none subpass frameBuffer
      = some (beginReset pool s, [LifecycleCall.PoolRequest]) := by
  unfold begin
  have hsec1 : (beginReset pool s).type = CommandBufferType.SECONDARY := hsec
  simp only [hidle, Bool.false_eq_true, if_false, hsec1, if_true]

/-- C12, evaluated on a secondary buffer that is not recording and holds the statistics (5
draw calls, 2 instances, 100 triangles), the pipeline, the input assembler, the descriptor set
and the dynamic-offset count of its last recording, with the watermark at 0: `begin` without a
render pass issues a request to the command-buffer pool and returns a recorder whose three
counters are 0, whose cached pipeline and input assembler are empty, whose slots are unbound,
whose dynamic-offset counts are 0 and whose watermark is the sentinel; the recording flag stays
clear and no native begin call is issued. -/
theorem C12_begin_without_render_pass_resets :
    exIdleSecondary.type = CommandBufferType.SECONDARY ∧
    exIdleSecondary.gpuCommandBuffer.began = false ∧
    (exIdleSecondary.numDrawCalls, exIdleSecondary.numInstances, exIdleSecondary.numTriangles)
      = (5, 2, 100) ∧
    (begin exPool exIdleSecondary none 0 none).map
        (fun r => (r.1.gpuCommandBuffer.began, r.1.numDrawCalls, r.1.numInstances,
          r.1.numTriangles, r.1.curGPUPipelineState, r.1.curGPUInputAssember,
          r.1.curGPUDescriptorSets, r.1.curDynamicOffsetCounts, r.1.firstDirtyDescriptorSet,
          r.2))
      = some (false, 0, 0, 0, none, none, [none, none, none], [0, 0, 0], UINT_MAX,
          [LifecycleCall.PoolRequest]) ∧
    (begin exPool exIdleSecondary none 0 none).map (fun r => r.1) ≠ some exIdleSecondary := by
  refine ⟨rfl, rfl, rfl, ?_, ?_⟩
  · rw [begin_without_render_pass rfl rfl]
    rfl
  · rw [begin_without_render_pass rfl rfl]
    decide

/-- C13: `begin` on a buffer that is already recording, and `end` on a buffer that is not
recording, each return the recorder they were given, every field as it was, and issue neither
a native call nor a request to the command-buffer pool. -/
theorem C13_begin_end_guards (pool : CCVKGPUCommandBufferPool) (s : CCVKCommandBuffer)
    (renderPass : Option RenderPass) (subpass : Nat) (frameBuffer : Option Framebuffer) :
    (s.gpuCommandBuffer.began = true →
      begin pool s renderPass subpass frameBuffer = some (s, [])) ∧
    (s.gpuCommandBuffer.began = false → end_ pool s = (s, [])) :=
  ⟨fun h => begin_recording h renderPass subpass frameBuffer, fun h => end_idle h⟩

/-- C14: a `begin` on a buffer that is not recording, of primary type or given a render pass,
is defined (for a secondary buffer: when the framebuffer it is given has a native handle), and
every result of it has the recording flag set, the three counters at 0, the watermark at the
sentinel, every descriptor-set slot unbound, every dynamic-offset count 0 (both vectors keep
their sizes), and the cached pipeline and input assembler empty; it comes after one pool
request and one native begin call. -/
theorem C14_begin_resets (pool : CCVKGPUCommandBufferPool) (s : CCVKCommandBuffer)
    (renderPass : Option RenderPass) (subpass : Nat) (frameBuffer : Option Framebuffer) :
    (s.type = CommandBufferType.PRIMARY ∨ (inheritedFramebuffer frameBuffer).isSome →
      (begin pool s renderPass subpass frameBuffer).isSome) ∧
    (∀ s1 calls, s.gpuCommandBuffer.began = false →
      (s.type = CommandBufferType.PRIMARY ∨ renderPass ≠ none) →
      begin pool s renderPass subpass frameBuffer = some (s1, calls) →
      s1.gpuCommandBuffer.began = true ∧
      s1.numDrawCalls = 0 ∧ s1.numInstances = 0 ∧ s1.numTriangles = 0 ∧
      s1.firstDirtyDescriptorSet = UINT_MAX ∧
      s1.curGPUDescriptorSets.length = s.curGPUDescriptorSets.length ∧
      (∀ slot ∈ s1.curGPUDescriptorSets, slot = none) ∧
      s1.curDynamicOffsetCounts.length = s.curDynamicOffsetCounts.length ∧
      (∀ count ∈ s1.curDynamicOffsetCounts, count = 0) ∧
      s1.curGPUPipelineState = none ∧ s1.curGPUInputAssember = none ∧
      ∃ beginInfo, calls =
        [LifecycleCall.PoolRequest,
          LifecycleCall.BeginCommandBuffer s1.gpuCommandBuffer.vkCommandBuffer beginInfo]) := by
  refine ⟨fun h => begin_defined h subpass, ?_⟩
  intro s1 calls hidle hpass h
  obtain ⟨beginInfo, hb⟩ := begin_success hidle hpass h
  simp only [beginNative, Prod.mk.injEq] at hb
  obtain ⟨hs1, hcalls⟩ := hb
  subst hs1
  refine ⟨rfl, rfl, rfl, rfl, rfl, ?_, ?_, ?_, ?_, rfl, rfl, beginInfo, hcalls⟩
  · simp [beginReset]
  · intro slot hslot
    exact List.eq_of_mem_replicate hslot
  · simp [beginReset]
  · intro count hcount
    exact List.eq_of_mem_replicate hcount

/-- Instance of C14: `begin` with a render pass on the idle secondary buffer of the examples. -/
theorem C14_begin_resets_witness :
    (begin exPool exIdleSecondary (some ⟨exPass 5 6⟩) 0 none).map
        (fun r => (r.1.gpuCommandBuffer.began, r.1.numDrawCalls, r.1.numInstances,
          r.1.numTriangles, r.1.curGPUDescriptorSets, r.1.firstDirtyDescriptorSet))
      = some (true, 0, 0, 0, [none, none, none], UINT_MAX) ∧
    (begin exPool exIdleSecondary (some ⟨exPass 5 6⟩) 0 none).isSome := by
  refine ⟨rfl, ?_⟩
  exact (C14_begin_resets exPool exIdleSecondary (some ⟨exPass 5 6⟩) 0 none).1 (Or.inr rfl)

/-- C15: `end` on a recording buffer issues exactly one native end call (for the handle the
buffer holds), clears the recording flag, and appends that handle at the back of the pending
queue: the queue is one element longer, its earlier elements are where they were; the three
counters are not changed. -/
theorem C15_end_enqueues (pool : CCVKGPUCommandBufferPool) (s : CCVKCommandBuffer)
    (hrec : s.gpuCommandBuffer.began = true) :
    (end_ pool s).2.filter LifecycleCall.isEndCommandBuffer
      = [LifecycleCall.EndCommandBuffer s.gpuCommandBuffer.vkCommandBuffer] ∧
    (end_ pool s).1.gpuCommandBuffer.began = false ∧
    (end_ pool s).1.pendingQueue = s.pendingQueue ++ [s.gpuCommandBuffer.vkCommandBuffer] ∧
    (end_ pool s).1.pendingQueue.length = s.pendingQueue.length + 1 ∧
    (∀ i, i < s.pendingQueue.length → (end_ pool s).1.pendingQueue[i]? = s.pendingQueue[i]?) ∧
    (end_ pool s).1.numDrawCalls = s.numDrawCalls ∧
    (end_ pool s).1.numInstances = s.numInstances ∧
    (end_ pool s).1.numTriangles = s.numTriangles := by
  rw [end_recording hrec]
  refine ⟨rfl, rfl, rfl, ?_, ?_, rfl, rfl, rfl⟩
  · simp
  · intro i hi
    exact List.getElem?_append_left hi

/-- Instance of C15: the recording buffer of the examples, with one earlier recording pending,
has two pending handles after `end`, the earlier one in front. -/
theorem C15_end_enqueues_witness :
    exRecording.gpuCommandBuffer.began = true ∧
    (end_ exPool exRecording).1.pendingQueue = [201, 100] ∧
    (end_ exPool exRecording).2
      = [LifecycleCall.EndCommandBuffer 100, LifecycleCall.PoolYield] := by
  have h := C15_end_enqueues exPool exRecording rfl
  exact ⟨rfl, h.2.2.1, rfl⟩

theorem bindInputAssembler_other {s : CCVKCommandBuffer} {ia : InputAssembler}
    (h : s.curGPUInputAssember.map (fun cur => cur.addr) ≠ some ia.gpuInputAssembler.addr) :
    bindInputAssembler s ia =
      (rebindInputAssembler ia.gpuInputAssembler).map (fun r =>
        ({ s with curGPUInputAssember := some r.1 }, { ia with gpuInputAssembler := r.1 },
          r.2)) := by
  unfold bindInputAssembler
  simp only [ne_eq, h, not_false_eq_true, if_true]

theorem bindInputAssembler_same {s : CCVKCommandBuffer} {ia : InputAssembler}
    (h : s.curGPUInputAssember.map (fun cur => cur.addr) = some ia.gpuInputAssembler.addr) :
    bindInputAssembler s ia = some (s, ia, []) := by
  unfold bindInputAssembler
  simp only [ne_eq, h, not_true_eq_false, if_false]

theorem bindPipelineState_cmds (s : CCVKCommandBuffer) (pso : PipelineState) :
    (bindPipelineState s pso).2 =
      if s.curGPUPipelineState = some pso.gpuPipelineState then []
      else [VkCmd.BindPipeline (VK_PIPELINE_BIND_POINTS pso.gpuPipelineState.bindPoint)
        pso.gpuPipelineState.vkPipeline] := by
  unfold bindPipelineState
  by_cases h : s.curGPUPipelineState = some pso.gpuPipelineState
  · simp [h]
  · simp [h]

/-- Every `begin` on a buffer that is not recording leaves the cached pipeline empty. -/
theorem begin_idle_pipeline {pool : CCVKGPUCommandBufferPool} {s s1 : CCVKCommandBuffer}
    {renderPass : Option RenderPass} {subpass : Nat} {frameBuffer : Option Framebuffer}
    {calls : List LifecycleCall} (hidle : s.gpuCommandBuffer.began = false)
    (h : begin pool s renderPass subpass frameBuffer = some (s1, calls)) :
    s1.curGPUPipelineState = none := by
  unfold begin at h
  simp only [hidle, Bool.false_eq_true, if_false] at h
  split at h
  · split at h
    · simp only [Option.some.injEq, Prod.mk.injEq] at h
      rw [← h.1]; rfl
    · simp only [Option.map_eq_some'] at h
      obtain ⟨fb, -, hfb⟩ := h
      simp only [beginNative, Prod.mk.injEq] at hfb
      rw [← hfb.1]; rfl
  · simp only [beginNative, Option.some.injEq, Prod.mk.injEq] at h
    rw [← h.1]; rfl

/-- C16, as the code has it: after `end` on a recording buffer the active framebuffer and the
cached input assembler are empty, so that `bindInputAssembler` with any input assembler is not
suppressed (it issues the native calls of a rebind); the cached pipeline is what it was before
`end`, so that `bindPipelineState` is suppressed exactly for the pipeline cached before `end`;
the cached pipeline is empty after the next `begin`, where `bindPipelineState` issues its
native call for every pipeline. -/
theorem C16_end_clears_caches (pool : CCVKGPUCommandBufferPool) (s : CCVKCommandBuffer)
    (hrec : s.gpuCommandBuffer.began = true) :
    (end_ pool s).1.curGPUFBO = none ∧
    (end_ pool s).1.curGPUInputAssember = none ∧
    (end_ pool s).1.curGPUPipelineState = s.curGPUPipelineState ∧
    (∀ ia : InputAssembler,
      (bindInputAssembler (end_ pool s).1 ia).map (fun r => r.2.2)
        = (rebindInputAssembler ia.gpuInputAssembler).map (fun r => r.2)) ∧
    (∀ pso : PipelineState,
      (bindPipelineState (end_ pool s).1 pso).2 = [] ↔
        s.curGPUPipelineState = some pso.gpuPipelineState) ∧
    (∀ pool1 renderPass subpass frameBuffer s1 calls (pso : PipelineState),
      begin pool1 (end_ pool s).1 renderPass subpass frameBuffer = some (s1, calls) →
      s1.curGPUPipelineState = none ∧
      (bindPipelineState s1 pso).2 =
        [VkCmd.BindPipeline (VK_PIPELINE_BIND_POINTS pso.gpuPipelineState.bindPoint)
          pso.gpuPipelineState.vkPipeline]) := by
  have hfbo : (end_ pool s).1.curGPUFBO = none := by rw [end_recording hrec]
  have hia : (end_ pool s).1.curGPUInputAssember = none := by rw [end_recording hrec]
  have hpso : (end_ pool s).1.curGPUPipelineState = s.curGPUPipelineState := by
    rw [end_recording hrec]
  have hidle : (end_ pool s).1.gpuCommandBuffer.began = false := by rw [end_recording hrec]
  refine ⟨hfbo, hia, hpso, ?_, ?_, ?_⟩
  · intro ia
    rw [bindInputAssembler_other (by rw [hia]; exact fun h => Option.noConfusion h),
      Option.map_map]
    rfl
  · intro pso
    rw [bindPipelineState_cmds, hpso]
    by_cases h : s.curGPUPipelineState = some pso.gpuPipelineState
    · simp [h]
    · simp [h]
  · intro pool1 renderPass subpass frameBuffer s1 calls pso h
    have hnone : s1.curGPUPipelineState = none := begin_idle_pipeline hidle h
    refine ⟨hnone, ?_⟩
    rw [bindPipelineState_cmds, hnone]
    simp

/-- Instance of C16 on the recording buffer of the examples. -/
theorem C16_end_clears_caches_witness :
    exRecording.gpuCommandBuffer.began = true ∧
    (end_ exPool exRecording).1.curGPUFBO = none ∧
    (end_ exPool exRecording).1.curGPUInputAssember = none ∧
    (end_ exPool exRecording).1.curGPUPipelineState
      = some (exPipeline .TRIANGLE_LIST exLayout3) := by
  have h := C16_end_clears_caches exPool exRecording rfl
  exact ⟨rfl, h.1, h.2.1, h.2.2.1⟩

/-- Refutation of C16 as stated: after `end` on the recording buffer of the examples the
cached pipeline is not empty, and `bindPipelineState` with the pipeline bound before `end`
issues no native call. -/
theorem C16_counterexample :
    exRecording.gpuCommandBuffer.began = true ∧
    (end_ exPool exRecording).1.curGPUPipelineState ≠ none ∧
    (bindPipelineState (end_ exPool exRecording).1
      ⟨exPipeline .TRIANGLE_LIST exLayout3⟩).2 = [] := by
  decide

/-! ## Load barriers and clear values of `beginRenderPass` -/

theorem loadOpBarriers_basic {barrierDeductionLevel : Nat}
    (hlevel : BARRIER_DEDUCTION_LEVEL_BASIC ≤ barrierDeductionLevel)
    (gpuRenderPass : CCVKGPURenderPass) :
    loadOpBarriers barrierDeductionLevel gpuRenderPass =
      (if gpuRenderPass.colorAttachments.head?.map (fun a => a.loadOp) = some LoadOp.LOAD then
          [colorLoadBarrier] else [])
        ++ (if gpuRenderPass.depthStencilAttachment.depthLoadOp = LoadOp.LOAD then
          [depthStencilLoadBarrier] else []) := by
  unfold loadOpBarriers colorLoadBarrier depthStencilLoadBarrier
  simp only [ge_iff_le, hlevel, if_true]
  congr 1
  cases h : gpuRenderPass.colorAttachments with
  | nil => simp
  | cons a l => simp

/-- The native calls of a defined `beginRenderPass`: the load barriers, the native
begin-render-pass call, then the dynamic state, which holds no barrier. -/
theorem beginRenderPass_cmds {barrierDeductionLevel : Nat} {s s1 : CCVKCommandBuffer}
    {renderPass : RenderPass} {fbo : Framebuffer} {renderArea : Rect} {colors : List Color}
    {depth : F32} {stencil : Int} {secondaryCBCount : Nat} {rp : CCVKGPURenderPass}
    {cmds : List VkCmd}
    (h : beginRenderPass barrierDeductionLevel s renderPass fbo renderArea colors depth stencil
      secondaryCBCount = some (s1, rp, cmds)) :
    ∃ passBegin dynamicState,
      cmds = loadOpBarriers barrierDeductionLevel renderPass.gpuRenderPass
        ++ [passBegin] ++ dynamicState ∧
      isBeginRenderPass passBegin = true ∧
      (∀ c ∈ dynamicState, isPipelineBarrier c = false) ∧
      setClearValues renderPass.gpuRenderPass.clearValues colors depth stencil
        = some rp.clearValues := by
  unfold beginRenderPass at h
  simp only [Option.bind_eq_bind, Option.bind_eq_some, Option.pure_def, Option.some.injEq,
    Prod.mk.injEq] at h
  obtain ⟨fb, -, cv, hcv, -, hrp, hcmds⟩ := h
  refine ⟨_, _, hcmds.symm, rfl, ?_, ?_⟩
  · intro c hc
    by_cases h0 : secondaryCBCount = 0
    · simp only [h0, if_true, List.mem_cons, List.mem_singleton, List.not_mem_nil,
        or_false] at hc
      rcases hc with hc | hc <;> rw [hc] <;> rfl
    · simp only [h0, if_false, List.not_mem_nil] at hc
  · rw [hcv, ← hrp]

/-- The native calls of `beginRenderPass` with barrier deduction at level basic or above.  The
call is defined when the framebuffer has a native handle and the caller supplies the clear
colours, and its native calls are: the barrier from colour-attachment write to
colour-attachment read exactly when the first colour attachment of the render pass has load-op
load, then the barrier from depth/stencil-attachment write to depth/stencil-attachment read
exactly when the depth/stencil attachment has load-op load, then the native begin-render-pass
call, then calls that are no barriers. -/
theorem beginRenderPass_load_barriers (barrierDeductionLevel : Nat) (s : CCVKCommandBuffer)
    (renderPass : RenderPass) (fbo : Framebuffer) (renderArea : Rect) (colors : List Color)
    (depth : F32) (stencil : Int) (secondaryCBCount : Nat)
    (hlevel : BARRIER_DEDUCTION_LEVEL_BASIC ≤ barrierDeductionLevel) :
    ((nativeFramebuffer fbo.gpuFBO).isSome →
      renderPass.gpuRenderPass.clearValues.length - 1 ≤ colors.length →
      (beginRenderPass barrierDeductionLevel s renderPass fbo renderArea colors depth stencil
        secondaryCBCount).isSome) ∧
    (∀ s1 rp cmds,
      beginRenderPass barrierDeductionLevel s renderPass fbo renderArea colors depth stencil
        secondaryCBCount = some (s1, rp, cmds) →
      ∃ passBegin rest,
        cmds =
          (if renderPass.gpuRenderPass.colorAttachments.head?.map (fun a => a.loadOp)
              = some LoadOp.LOAD then [colorLoadBarrier] else [])
          ++ (if renderPass.gpuRenderPass.depthStencilAttachment.depthLoadOp = LoadOp.LOAD then
              [depthStencilLoadBarrier] else [])
          ++ [passBegin] ++ rest ∧
        isBeginRenderPass passBegin = true ∧
        (∀ c ∈ rest, isPipelineBarrier c = false)) := by
  constructor
  · intro hfb hlen
    obtain ⟨fb, hfb⟩ := Option.isSome_iff_exists.mp hfb
    obtain ⟨cv, hcv⟩ := setClearValues_some renderPass.gpuRenderPass.clearValues colors depth
      stencil hlen
    unfold beginRenderPass
    simp only [hfb, hcv, Option.bind_eq_bind, Option.some_bind, Option.pure_def,
      Option.isSome_some]
  · intro s1 rp cmds h
    obtain ⟨passBegin, rest, hcmds, hpb, hrest, -⟩ := beginRenderPass_cmds h
    rw [loadOpBarriers_basic hlevel] at hcmds
    exact ⟨passBegin, rest, hcmds, hpb, hrest⟩

/-- C17, evaluated at level basic on a render pass with two colour attachments and no
depth/stencil attachment, the first cleared and the second with load-op load: `beginRenderPass`
issues no barrier at all, the native begin-render-pass call being its first native call and
the two calls after it setting the viewport and the scissor.  On a render pass whose first
colour attachment and whose depth/stencil attachment are loaded, the same call issues the two
barriers first. -/
theorem C17_load_barrier_for_first_attachment_only :
    exPassSecondLoad.colorAttachments.map (fun a => a.loadOp) = [LoadOp.CLEAR, LoadOp.LOAD] ∧
    (∃ a ∈ exPassSecondLoad.colorAttachments, a.loadOp = LoadOp.LOAD) ∧
    (beginRenderPass BARRIER_DEDUCTION_LEVEL_BASIC exFresh ⟨exPassSecondLoad⟩
        (exOffscreenTwoColors exPassSecondLoad) exArea exClearColors (.ofInt 1) 0 0).map
      (fun r => (decide (colorLoadBarrier ∈ r.2.2), r.2.2.map isPipelineBarrier,
        r.2.2.map isBeginRenderPass))
      = some (false, [false, false, false], [true, false, false]) ∧
    (beginRenderPass BARRIER_DEDUCTION_LEVEL_BASIC exFresh ⟨exPassLoad⟩
        (exOffscreen exPassLoad) exArea exColors (.ofInt 1) 0 0).map
      (fun r => (r.2.2.take 2, r.2.2.map isBeginRenderPass))
      = some ([colorLoadBarrier, depthStencilLoadBarrier], [false, false, true, false, false]) := by
  decide


/-- C18, evaluated on a render pass with two colour attachments, no depth/stencil attachment
and two clear-value slots, begun with the clear colours red and green, depth 0 and stencil 7:
after `beginRenderPass` slot 0 holds red, and slot 1, the slot of the second colour
attachment, holds the depth/stencil value (0, 7), not green. -/
theorem C18_last_slot_is_depth_stencil :
    exPassTwoColors.colorAttachments.length = 2 ∧
    exPassTwoColors.depthStencilAttachment.format = Format.UNKNOWN ∧
    exPassTwoColors.clearValues.length = 2 ∧
    (beginRenderPass BARRIER_DEDUCTION_LEVEL_BASIC exFresh ⟨exPassTwoColors⟩
        (exOffscreenTwoColors exPassTwoColors) exArea exClearColors (.ofInt 0) 7 0).map
      (fun r => r.2.1.clearValues)
      = some [VkClearValue.color (.ofInt 1) (.ofInt 0) (.ofInt 0) (.ofInt 1),
          VkClearValue.depthStencil (.ofInt 0) 7] := by
  decide

/-! ## Repeated state changes -/

theorem writeVertexBuffers_some (gpuVertexBuffers : List CCVKGPUBuffer) (l : List Nat) :
    ∀ acc : List Nat × List Nat,
      (∀ i ∈ l, i < gpuVertexBuffers.length ∧ i < acc.1.length ∧ i < acc.2.length) →
      ∃ r, l.foldlM (writeVertexBuffer gpuVertexBuffers) acc = some r := by
  induction l with
  | nil => intro acc _; exact ⟨acc, rfl⟩
  | cons i l ih =>
    intro acc h
    obtain ⟨h1, h2, h3⟩ := h i (List.mem_cons_self _ _)
    have hstep : writeVertexBuffer gpuVertexBuffers acc i
        = some (acc.1.set i gpuVertexBuffers[i].vkBuffer,
            acc.2.set i gpuVertexBuffers[i].startOffset) := by
      unfold writeVertexBuffer
      have hno : ¬ (acc.1.length ≤ i ∨ acc.2.length ≤ i) := by omega
      simp [List.getElem?_eq_getElem h1, hno]
    obtain ⟨r, hr⟩ := ih (acc.1.set i gpuVertexBuffers[i].vkBuffer,
      acc.2.set i gpuVertexBuffers[i].startOffset)
      (fun j hj => by
        have := h j (List.mem_cons_of_mem _ hj)
        simpa using this)
    refine ⟨r, ?_⟩
    simp only [List.foldlM_cons, Option.bind_eq_bind, hstep, Option.some_bind]
    exact hr

theorem rebindInputAssembler_ready {gpuInputAssembler : CCVKGPUInputAssembler}
    (h : InputAssemblerReady gpuInputAssembler) :
    (rebindInputAssembler gpuInputAssembler).isSome = true := by
  unfold InputAssemblerReady at h
  have hlen : ∀ i ∈ List.range gpuInputAssembler.gpuVertexBuffers.length,
      i < gpuInputAssembler.gpuVertexBuffers.length
        ∧ i < (resizeVertexArrays gpuInputAssembler).1.length
        ∧ i < (resizeVertexArrays gpuInputAssembler).2.length := by
    intro i hi
    rw [List.mem_range] at hi
    unfold resizeVertexArrays
    by_cases hlt : gpuInputAssembler.vertexBuffers.length
        < gpuInputAssembler.gpuVertexBuffers.length
    · simp only [hlt, if_true, resizeZero_length]
      exact ⟨hi, hi, hi⟩
    · simp only [hlt, if_false]
      omega
  obtain ⟨r, hr⟩ := writeVertexBuffers_some gpuInputAssembler.gpuVertexBuffers
    (List.range gpuInputAssembler.gpuVertexBuffers.length) (resizeVertexArrays gpuInputAssembler)
    hlen
  unfold rebindInputAssembler
  simp only [hr, Option.bind_eq_bind, Option.some_bind, Option.pure_def, Option.isSome_some]

theorem rebindInputAssembler_addr {gpuInputAssembler r : CCVKGPUInputAssembler}
    {cmds : List VkCmd} (h : rebindInputAssembler gpuInputAssembler = some (r, cmds)) :
    r.addr = gpuInputAssembler.addr ∧
    r.gpuVertexBuffers = gpuInputAssembler.gpuVertexBuffers ∧
    r.gpuIndexBuffer = gpuInputAssembler.gpuIndexBuffer ∧
    cmds =
      [VkCmd.BindVertexBuffers 0 gpuInputAssembler.gpuVertexBuffers.length
        (r.vertexBuffers.take gpuInputAssembler.gpuVertexBuffers.length)
        (r.vertexBufferOffsets.take gpuInputAssembler.gpuVertexBuffers.length)]
      ++ bindIndexBufferCmds gpuInputAssembler.gpuIndexBuffer := by
  unfold rebindInputAssembler at h
  simp only [Option.bind_eq_bind, Option.bind_eq_some, Option.pure_def, Option.some.injEq,
    Prod.mk.injEq] at h
  obtain ⟨arrays, -, hr, hcmds⟩ := h
  subst hr
  exact ⟨rfl, rfl, rfl, hcmds.symm⟩

theorem setViewport_spec (viewportNe : Viewport → Viewport → Bool) (s : CCVKCommandBuffer)
    (vp : Viewport) :
    setViewport viewportNe s vp =
      if viewportNe s.curViewport vp = true then
        ({ s with curViewport := vp },
          [VkCmd.SetViewport
            ⟨F32.ofInt vp.left, F32.ofInt vp.top, F32.ofInt vp.width, F32.ofInt vp.height,
              vp.minDepth, vp.maxDepth⟩])
      else (s, []) := rfl

theorem setScissor_spec (rectNe : Rect → Rect → Bool) (s : CCVKCommandBuffer) (rect : Rect) :
    setScissor rectNe s rect =
      if rectNe s.curScissor rect = true then
        ({ s with curScissor := rect },
          [VkCmd.SetScissor ⟨rect.x, rect.y, rect.width, rect.height⟩])
      else (s, []) := rfl

theorem setViewport_twice {viewportNe : Viewport → Viewport → Bool} {vp : Viewport}
    (hvp : viewportNe vp vp = false) (s : CCVKCommandBuffer) :
    setViewport viewportNe (setViewport viewportNe s vp).1 vp
      = ((setViewport viewportNe s vp).1, []) := by
  by_cases h : viewportNe s.curViewport vp = true
  · simp only [setViewport_spec, h, if_true, hvp, Bool.false_eq_true, if_false]
  · have h0 : viewportNe s.curViewport vp = false := Bool.eq_false_iff.mpr h
    simp only [setViewport_spec, h0, Bool.false_eq_true, if_false]

theorem setScissor_twice {rectNe : Rect → Rect → Bool} {rect : Rect}
    (hrect : rectNe rect rect = false) (s : CCVKCommandBuffer) :
    setScissor rectNe (setScissor rectNe s rect).1 rect
      = ((setScissor rectNe s rect).1, []) := by
  by_cases h : rectNe s.curScissor rect = true
  · simp only [setScissor_spec, h, if_true, hrect, Bool.false_eq_true, if_false]
  · have h0 : rectNe s.curScissor rect = false := Bool.eq_false_iff.mpr h
    simp only [setScissor_spec, h0, Bool.false_eq_true, if_false]

theorem bindPipelineState_twice (s : CCVKCommandBuffer) (pso : PipelineState) :
    bindPipelineState (bindPipelineState s pso).1 pso = ((bindPipelineState s pso).1, []) := by
  by_cases h : s.curGPUPipelineState = some pso.gpuPipelineState
  · have h1 : bindPipelineState s pso = (s, []) := by
      unfold bindPipelineState; simp [h]
    rw [h1, h1]
  · have h1 : bindPipelineState s pso
        = ({ s with curGPUPipelineState := some pso.gpuPipelineState },
          [VkCmd.BindPipeline (VK_PIPELINE_BIND_POINTS pso.gpuPipelineState.bindPoint)
            pso.gpuPipelineState.vkPipeline]) := by
      unfold bindPipelineState; simp [h]
    rw [h1]
    unfold bindPipelineState
    simp

theorem bindInputAssembler_twice {s s1 : CCVKCommandBuffer} {ia ia1 : InputAssembler}
    {cmds : List VkCmd} (h : bindInputAssembler s ia = some (s1, ia1, cmds)) :
    bindInputAssembler s1 ia1 = some (s1, ia1, []) := by
  by_cases hc : s.curGPUInputAssember.map (fun cur => cur.addr) = some ia.gpuInputAssembler.addr
  · rw [bindInputAssembler_same hc] at h
    simp only [Option.some.injEq, Prod.mk.injEq] at h
    obtain ⟨hs, hia, -⟩ := h
    subst hs; subst hia
    exact bindInputAssembler_same hc
  · rw [bindInputAssembler_other hc] at h
    simp only [Option.map_eq_some', Prod.mk.injEq] at h
    obtain ⟨r, -, hs, hia, -⟩ := h
    subst hs; subst hia
    exact bindInputAssembler_same rfl

/-- C19: each of `bindPipelineState`, `bindInputAssembler`, `setViewport` and `setScissor`,
called with a value `v`, issues its native state change once when the cached value differs
from `v` (for the input assembler: one vertex-buffer bind, and one index-buffer bind when there
is an index buffer) and nothing otherwise; the same call made again right after returns the same
recorder and issues nothing.  The comparison of `setViewport` and of `setScissor` is the
operator `!=` of the value type, of which the statement uses that it finds `v` equal to
itself.  `bindInputAssembler` is defined whenever the offset array of the input assembler is
as long as its buffer array. -/
theorem C19_repeated_state_change (viewportNe : Viewport → Viewport → Bool)
    (rectNe : Rect → Rect → Bool) (s : CCVKCommandBuffer) (pso : PipelineState)
    (ia : InputAssembler) (vp : Viewport) (rect : Rect)
    (hvp : viewportNe vp vp = false) (hrect : rectNe rect rect = false) :
    ((bindPipelineState s pso).2 =
        (if s.curGPUPipelineState = some pso.gpuPipelineState then []
        else [VkCmd.BindPipeline (VK_PIPELINE_BIND_POINTS pso.gpuPipelineState.bindPoint)
          pso.gpuPipelineState.vkPipeline]) ∧
      bindPipelineState (bindPipelineState s pso).1 pso = ((bindPipelineState s pso).1, [])) ∧
    ((InputAssemblerReady ia.gpuInputAssembler → (bindInputAssembler s ia).isSome) ∧
      ∀ s1 ia1 cmds, bindInputAssembler s ia = some (s1, ia1, cmds) →
        cmds =
          (if s.curGPUInputAssember.map (fun cur => cur.addr) = some ia.gpuInputAssembler.addr
            then []
          else
            [VkCmd.BindVertexBuffers 0 ia.gpuInputAssembler.gpuVertexBuffers.length
              (ia1.gpuInputAssembler.vertexBuffers.take
                ia.gpuInputAssembler.gpuVertexBuffers.length)
              (ia1.gpuInputAssembler.vertexBufferOffsets.take
                ia.gpuInputAssembler.gpuVertexBuffers.length)]
            ++ bindIndexBufferCmds ia.gpuInputAssembler.gpuIndexBuffer) ∧
        bindInputAssembler s1 ia1 = some (s1, ia1, [])) ∧
    ((setViewport viewportNe s vp).2 =
        (if viewportNe s.curViewport vp = true then
          [VkCmd.SetViewport
            ⟨F32.ofInt vp.left, F32.ofInt vp.top, F32.ofInt vp.width, F32.ofInt vp.height,
              vp.minDepth, vp.maxDepth⟩]
        else []) ∧
      setViewport viewportNe (setViewport viewportNe s vp).1 vp
        = ((setViewport viewportNe s vp).1, [])) ∧
    ((setScissor rectNe s rect).2 =
        (if rectNe s.curScissor rect = true then
          [VkCmd.SetScissor ⟨rect.x, rect.y, rect.width, rect.height⟩]
        else []) ∧
      setScissor rectNe (setScissor rectNe s rect).1 rect
        = ((setScissor rectNe s rect).1, [])) := by
  refine ⟨⟨bindPipelineState_cmds s pso, bindPipelineState_twice s pso⟩, ⟨?_, ?_⟩,
    ⟨?_, setViewport_twice hvp s⟩, ⟨?_, setScissor_twice hrect s⟩⟩
  · intro hready
    by_cases hc : s.curGPUInputAssember.map (fun cur => cur.addr)
        = some ia.gpuInputAssembler.addr
    · rw [bindInputAssembler_same hc]; rfl
    · rw [bindInputAssembler_other hc]
      obtain ⟨r, hr⟩ := Option.isSome_iff_exists.mp (rebindInputAssembler_ready hready)
      rw [hr]; rfl
  · intro s1 ia1 cmds h
    refine ⟨?_, bindInputAssembler_twice h⟩
    by_cases hc : s.curGPUInputAssember.map (fun cur => cur.addr)
        = some ia.gpuInputAssembler.addr
    · rw [bindInputAssembler_same hc] at h
      simp only [Option.some.injEq, Prod.mk.injEq] at h
      rw [if_pos hc, h.2.2]
    · rw [bindInputAssembler_other hc] at h
      simp only [Option.map_eq_some', Prod.mk.injEq] at h
      obtain ⟨r, hr, -, hia, hcmds⟩ := h
      obtain ⟨-, -, -, hshape⟩ := rebindInputAssembler_addr hr
      rw [if_neg hc, ← hcmds, ← hia]
      exact hshape
  · rw [setViewport_spec]
    by_cases h : viewportNe s.curViewport vp = true
    · simp only [h, if_true]
    · rw [if_neg h, if_neg h]
  · rw [setScissor_spec]
    by_cases h : rectNe s.curScissor rect = true
    · simp only [h, if_true]
    · rw [if_neg h, if_neg h]

/-- Instance of C19 on the fresh recorder, with memberwise inequality as the comparison: the
first `bindInputAssembler` binds the two vertex buffers and the 16-bit index buffer, the
first `setViewport` sets the viewport, and the repeated calls issue nothing. -/
theorem C19_repeated_state_change_witness :
    exViewportNe exViewport exViewport = false ∧ exRectNe exArea exArea = false ∧
    (bindInputAssembler exFresh exIAVertexBuffers).map (fun r => r.2.2)
      = some [VkCmd.BindVertexBuffers 0 2 [33, 34] [0, 128],
          VkCmd.BindIndexBuffer 31 0 VkIndexType.VK_INDEX_TYPE_UINT16] ∧
    (setViewport exViewportNe exFresh exViewport).2
      = [VkCmd.SetViewport ⟨.ofInt 0, .ofInt 0, .ofInt 640, .ofInt 480, .ofInt 0, .ofInt 1⟩] ∧
    setViewport exViewportNe (setViewport exViewportNe exFresh exViewport).1 exViewport
      = ((setViewport exViewportNe exFresh exViewport).1, []) := by
  have h := C19_repeated_state_change exViewportNe exRectNe exFresh
    ⟨exPipeline .TRIANGLE_LIST exLayout3⟩ exIAVertexBuffers exViewport exArea
    (by decide) (by decide)
  exact ⟨by decide, by decide, by decide, by decide, h.2.2.1.2⟩

/-! ## The set index of `bindDescriptorSet` -/

theorem bindDescriptorSet_out_of_range {s : CCVKCommandBuffer} {set : Nat}
    (h : ¬ set < s.curGPUDescriptorSets.length) (descriptorSet : DescriptorSet)
    (dynamicOffsetCount : Nat) (dynamicOffsets : List Nat) :
    bindDescriptorSet s set descriptorSet dynamicOffsetCount dynamicOffsets = none := by
  unfold bindDescriptorSet
  rw [if_neg (by simpa using h)]

/-- The vectors after a `bindDescriptorSet` that returns: each is the vector before the call
with at most the entry at the set index replaced. -/
theorem bindDescriptorSet_vectors {s s1 : CCVKCommandBuffer} {set : Nat}
    {descriptorSet : DescriptorSet} {dynamicOffsetCount : Nat} {dynamicOffsets : List Nat}
    (h : bindDescriptorSet s set descriptorSet dynamicOffsetCount dynamicOffsets = some s1) :
    set < s.curGPUDescriptorSets.length ∧
    s1.curGPUDescriptorSets = s.curGPUDescriptorSets.set set descriptorSet.gpuDescriptorSet ∧
    s1.curDynamicOffsetPtrs =
      (if dynamicOffsetCount ≠ 0 then s.curDynamicOffsetPtrs.set set dynamicOffsets
        else s.curDynamicOffsetPtrs) ∧
    s1.curDynamicOffsetCounts =
      (if dynamicOffsetCount ≠ 0 then s.curDynamicOffsetCounts.set set dynamicOffsetCount
        else s.curDynamicOffsetCounts) := by
  by_cases hk : set < s.curGPUDescriptorSets.length
  · refine ⟨hk, ?_⟩
    unfold bindDescriptorSet at h
    rw [if_pos hk] at h
    simp only [Option.some.injEq] at h
    subst h
    by_cases h1 : s.curGPUDescriptorSets.getD set none = descriptorSet.gpuDescriptorSet
    · have hset := getD_none_eq_set_self _ set _ hk h1
      by_cases h2 : dynamicOffsetCount = 0
      · simp only [ne_eq, h1, h2, not_true_eq_false, if_false, hset, and_self]
      · simp only [ne_eq, h1, h2, not_true_eq_false, not_false_eq_true, if_true, if_false,
          hset, and_self]
    · by_cases h2 : dynamicOffsetCount = 0
      · simp only [ne_eq, h1, h2, not_true_eq_false, not_false_eq_true, if_true, if_false,
          and_self]
      · simp only [ne_eq, h1, h2, not_false_eq_true, if_true, and_self]
  · rw [bindDescriptorSet_out_of_range hk] at h
    exact Option.noConfusion h

/-- A `bindDescriptorSet` that returns has a set index below the configured set count, leaves
the sizes of the slot vector and of the two dynamic-offset vectors as they were, and leaves
every entry of the three vectors at any other index as it was; for a set index that is not
below the configured set count the call does not return. -/
theorem bindDescriptorSet_in_range (s : CCVKCommandBuffer) (set : Nat)
    (descriptorSet : DescriptorSet) (dynamicOffsetCount : Nat) (dynamicOffsets : List Nat) :
    (¬ set < s.curGPUDescriptorSets.length →
      bindDescriptorSet s set descriptorSet dynamicOffsetCount dynamicOffsets = none) ∧
    (∀ s1, bindDescriptorSet s set descriptorSet dynamicOffsetCount dynamicOffsets = some s1 →
      set < s.curGPUDescriptorSets.length ∧
      s1.curGPUDescriptorSets.length = s.curGPUDescriptorSets.length ∧
      s1.curDynamicOffsetPtrs.length = s.curDynamicOffsetPtrs.length ∧
      s1.curDynamicOffsetCounts.length = s.curDynamicOffsetCounts.length ∧
      ∀ j, j ≠ set →
        s1.curGPUDescriptorSets[j]? = s.curGPUDescriptorSets[j]? ∧
        s1.curDynamicOffsetPtrs[j]? = s.curDynamicOffsetPtrs[j]? ∧
        s1.curDynamicOffsetCounts[j]? = s.curDynamicOffsetCounts[j]?) := by
  refine ⟨fun h => bindDescriptorSet_out_of_range h _ _ _, ?_⟩
  intro s1 h
  obtain ⟨hk, hslots, hptrs, hcounts⟩ := bindDescriptorSet_vectors h
  rw [hslots, hptrs, hcounts]
  refine ⟨hk, List.length_set _ _ _, ?_, ?_, ?_⟩
  · split
    · exact List.length_set _ _ _
    · rfl
  · split
    · exact List.length_set _ _ _
    · rfl
  · intro j hj
    refine ⟨List.getElem?_set_ne (Ne.symm hj), ?_, ?_⟩
    · split
      · exact List.getElem?_set_ne (Ne.symm hj)
      · rfl
    · split
      · exact List.getElem?_set_ne (Ne.symm hj)
      · rfl

/-- The two models of `bindDescriptorSet` agree: the call returns with a recorder in the one
exactly when it does in the other, whether or not the assertion is checked. -/
theorem bindDescriptorSetOutcome_returned (assertChecked : Bool) (s s1 : CCVKCommandBuffer)
    (set : Nat) (descriptorSet : DescriptorSet) (dynamicOffsetCount : Nat)
    (dynamicOffsets : List Nat) :
    bindDescriptorSetOutcome assertChecked s set descriptorSet dynamicOffsetCount dynamicOffsets
        = BindOutcome.returned s1 ↔
      bindDescriptorSet s set descriptorSet dynamicOffsetCount dynamicOffsets = some s1 := by
  unfold bindDescriptorSetOutcome bindDescriptorSet
  by_cases hk : set < s.curGPUDescriptorSets.length
  · have hget : s.curGPUDescriptorSets[set]? = some (s.curGPUDescriptorSets.getD set none) := by
      rw [List.getElem?_eq_getElem hk, List.getD_eq_getElem _ _ hk]
    have hgt : s.curGPUDescriptorSets.length > set := hk
    rw [if_neg (fun h => h.2 hgt), if_pos hgt, hget]
    simp only [BindOutcome.returned.injEq, Option.some.injEq]
  · have hget : s.curGPUDescriptorSets[set]? = none := List.getElem?_eq_none (by omega)
    have hgt : ¬ s.curGPUDescriptorSets.length > set := hk
    rw [if_neg hgt]
    cases assertChecked with
    | true =>
      rw [if_pos ⟨rfl, hgt⟩]
      constructor <;> intro h <;> cases h
    | false =>
      rw [if_neg (fun h => Bool.noConfusion h.1), hget]
      constructor <;> intro h <;> cases h

/-- For a set index that is not below the configured set count `bindDescriptorSet` never
returns: with the assertion checked the program stops at the assertion, and with the assertion
expanding to nothing the function indexes the slot vector at the set index, outside the
vector. -/
theorem bindDescriptorSetOutcome_out_of_range (s : CCVKCommandBuffer) (set : Nat)
    (descriptorSet : DescriptorSet) (dynamicOffsetCount : Nat) (dynamicOffsets : List Nat)
    (hk : ¬ set < s.curGPUDescriptorSets.length) :
    bindDescriptorSetOutcome true s set descriptorSet dynamicOffsetCount dynamicOffsets
      = BindOutcome.assertionFailed ∧
    bindDescriptorSetOutcome false s set descriptorSet dynamicOffsetCount dynamicOffsets
      = BindOutcome.slotOutOfRange set s.curGPUDescriptorSets.length := by
  have hget : s.curGPUDescriptorSets[set]? = none := List.getElem?_eq_none (by omega)
  have hgt : ¬ s.curGPUDescriptorSets.length > set := hk
  unfold bindDescriptorSetOutcome
  constructor
  · rw [if_pos ⟨rfl, hgt⟩]
  · rw [if_neg (fun h => Bool.noConfusion h.1), hget]

/-- C20, evaluated on a recorder configured with three sets and the call
`bindDescriptorSet(3, A, 1, offsets)`: the set index is not below the set count.  Where the
assertion is checked the call stops the program at the assertion; where the assertion expands
to nothing the call goes on and indexes the slot vector at index 3, outside its three slots.
In neither build does the call return with the recorder unchanged, as the call with set index
2 returns with slot 2 written. -/
theorem C20_out_of_range_index_is_not_a_no_op :
    exFresh.curGPUDescriptorSets.length = 3 ∧
    bindDescriptorSetOutcome true exFresh 3 ⟨some exSetA⟩ 1 [16]
      = BindOutcome.assertionFailed ∧
    bindDescriptorSetOutcome false exFresh 3 ⟨some exSetA⟩ 1 [16]
      = BindOutcome.slotOutOfRange 3 3 ∧
    bindDescriptorSetOutcome true exFresh 3 ⟨some exSetA⟩ 1 [16]
      ≠ BindOutcome.returned exFresh ∧
    bindDescriptorSetOutcome false exFresh 3 ⟨some exSetA⟩ 1 [16]
      ≠ BindOutcome.returned exFresh ∧
    bindDescriptorSetOutcome false exFresh 2 ⟨some exSetA⟩ 1 [16]
      = BindOutcome.returned
          { exFresh with
            curGPUDescriptorSets := [none, none, some exSetA]
            curDynamicOffsetPtrs := [[], [], [16]]
            curDynamicOffsetCounts := [0, 0, 1]
            firstDirtyDescriptorSet := 2 } := by
  decide


/-! ## `blitTexture` to the swapchain image -/

theorem swapchainTransition_full {barrierDeductionLevel : Nat}
    (hlevel : BARRIER_DEDUCTION_LEVEL_FULL ≤ barrierDeductionLevel) {st : AccessState}
    {swapchain : CCVKGPUSwapchain} {pre : List ThsvsAccessType}
    (hpre : st.get (Resource.swapchainImage swapchain.addr swapchain.curImageIndex) = some pre)
    (image : Nat) (tested nextAccess : ThsvsAccessType) :
    ∃ st1, swapchainTransition barrierDeductionLevel st swapchain image tested nextAccess
        = some (st1,
            if tested ∈ pre then []
            else [VkCmd.ThsvsCmdPipelineBarrier none
              [swapchainImageBarrier image pre nextAccess]]) ∧
      st1.get (Resource.swapchainImage swapchain.addr swapchain.curImageIndex)
        = some (if tested ∈ pre then pre else [tested]) ∧
      (tested ∈ pre → st1 = st) := by
  by_cases hmem : tested ∈ pre
  · refine ⟨st, ?_, ?_, fun _ => rfl⟩
    · unfold swapchainTransition
      simp only [ge_iff_le, hlevel, if_true, hpre, Option.some_bind, hmem, not_true_eq_false,
        if_false]
    · rw [if_pos hmem]; exact hpre
  · obtain ⟨st1, h1⟩ := assign_some st
      (Resource.swapchainImage swapchain.addr swapchain.curImageIndex) [tested]
      (by rw [hpre]; rfl)
    refine ⟨st1, ?_, ?_, fun h => absurd h hmem⟩
    · unfold swapchainTransition
      simp only [ge_iff_le, hlevel, if_true, hpre, Option.some_bind, hmem, not_false_eq_true,
        if_false, h1, Option.map_some']
    · rw [assign_get h1, if_pos rfl, if_neg hmem]

theorem swapchainTransition_tracked {barrierDeductionLevel : Nat}
    (hlevel : BARRIER_DEDUCTION_LEVEL_FULL ≤ barrierDeductionLevel) {st st1 : AccessState}
    {swapchain : CCVKGPUSwapchain} {image : Nat} {tested nextAccess : ThsvsAccessType}
    {cmds : List VkCmd}
    (h : swapchainTransition barrierDeductionLevel st swapchain image tested nextAccess
      = some (st1, cmds)) :
    ∃ pre, st.get (Resource.swapchainImage swapchain.addr swapchain.curImageIndex)
      = some pre := by
  unfold swapchainTransition at h
  simp only [ge_iff_le, hlevel, if_true] at h
  cases hget : st.get (Resource.swapchainImage swapchain.addr swapchain.curImageIndex) with
  | none => rw [hget] at h; exact Option.noConfusion h
  | some pre => exact ⟨pre, rfl⟩

theorem blitReady_tracked {st : AccessState} {swapchain : CCVKGPUSwapchain}
    (h : BlitReady st swapchain) :
    (∃ image, swapchain.swapchainImages[swapchain.curImageIndex]? = some image) ∧
    ∃ pre, st.get (Resource.swapchainImage swapchain.addr swapchain.curImageIndex)
      = some pre := by
  constructor
  · exact ⟨_, List.getElem?_eq_getElem h.1⟩
  · show ∃ pre, (st.swapchainImageAccessTypes swapchain.addr)[swapchain.curImageIndex]?
      = some pre
    exact ⟨_, List.getElem?_eq_getElem h.2⟩

/-- The source block for an absent source, at level full, on a state in which the swapchain
image has the access types `pre`. -/
theorem blitSource_swapchain {barrierDeductionLevel : Nat}
    (hlevel : BARRIER_DEDUCTION_LEVEL_FULL ≤ barrierDeductionLevel) (thsvs : Thsvs)
    (tables : BlitTables) {st : AccessState} {swapchain : CCVKGPUSwapchain} {image : Nat}
    {pre : List ThsvsAccessType}
    (himage : swapchain.swapchainImages[swapchain.curImageIndex]? = some image)
    (hpre : st.get (Resource.swapchainImage swapchain.addr swapchain.curImageIndex) = some pre) :
    ∃ st1, blitSource barrierDeductionLevel thsvs tables (some swapchain) st none
        = some
          ({ aspectMask := VK_IMAGE_ASPECT_COLOR_BIT, image := image,
             imageLayout := VkImageLayout.VK_IMAGE_LAYOUT_TRANSFER_SRC_OPTIMAL },
            st1,
            if tables.THSVS_ACCESS_TRANSFER_READ ∈ pre then []
            else [VkCmd.ThsvsCmdPipelineBarrier none
              [swapchainImageBarrier image pre
                (thsvs.THSVS_ACCESS_TYPES tables.TRANSFER_READ)]]) ∧
      st1.get (Resource.swapchainImage swapchain.addr swapchain.curImageIndex)
        = some (if tables.THSVS_ACCESS_TRANSFER_READ ∈ pre then pre
            else [tables.THSVS_ACCESS_TRANSFER_READ]) ∧
      (tables.THSVS_ACCESS_TRANSFER_READ ∈ pre → st1 = st) := by
  obtain ⟨st1, h1, hget, hsame⟩ := swapchainTransition_full hlevel hpre image
    tables.THSVS_ACCESS_TRANSFER_READ (thsvs.THSVS_ACCESS_TYPES tables.TRANSFER_READ)
  refine ⟨st1, ?_, hget, hsame⟩
  unfold blitSource
  simp only [Option.some_bind, himage, h1, Option.map_some']

/-- The source block is defined when a blit from the swapchain image is ready, and keeps the
swapchain image tracked. -/
theorem blitSource_ready {barrierDeductionLevel : Nat}
    (hlevel : BARRIER_DEDUCTION_LEVEL_FULL ≤ barrierDeductionLevel) (thsvs : Thsvs)
    (tables : BlitTables) {st : AccessState} {swapchain : CCVKGPUSwapchain}
    (h : BlitReady st swapchain) (srcTexture : Option Texture) :
    ∃ src, blitSource barrierDeductionLevel thsvs tables (some swapchain) st srcTexture
        = some src ∧
      ∃ mid, src.2.1.get (Resource.swapchainImage swapchain.addr swapchain.curImageIndex)
        = some mid := by
  obtain ⟨⟨image, himage⟩, ⟨pre, hpre⟩⟩ := blitReady_tracked h
  cases srcTexture with
  | some texture => exact ⟨_, rfl, pre, hpre⟩
  | none =>
    obtain ⟨st1, h1, hget, -⟩ := blitSource_swapchain hlevel thsvs tables himage hpre
    exact ⟨_, h1, _, hget⟩

/-- The destination block for an absent destination, at level full, on a state in which the
swapchain image has the access types `pre`. -/
theorem blitDestination_swapchain {barrierDeductionLevel : Nat}
    (hlevel : BARRIER_DEDUCTION_LEVEL_FULL ≤ barrierDeductionLevel) (thsvs : Thsvs)
    (tables : BlitTables) {st : AccessState} {swapchain : CCVKGPUSwapchain} {image : Nat}
    {pre : List ThsvsAccessType}
    (himage : swapchain.swapchainImages[swapchain.curImageIndex]? = some image)
    (hpre : st.get (Resource.swapchainImage swapchain.addr swapchain.curImageIndex) = some pre) :
    ∃ st1, blitDestination barrierDeductionLevel thsvs tables (some swapchain) st none
        = some
          ({ aspectMask := VK_IMAGE_ASPECT_COLOR_BIT, image := image,
             imageLayout := VkImageLayout.VK_IMAGE_LAYOUT_TRANSFER_DST_OPTIMAL },
            st1,
            if tables.THSVS_ACCESS_TRANSFER_WRITE ∈ pre then []
            else [VkCmd.ThsvsCmdPipelineBarrier none
              [swapchainImageBarrier image pre
                (thsvs.THSVS_ACCESS_TYPES tables.TRANSFER_WRITE)]]) ∧
      st1.get (Resource.swapchainImage swapchain.addr swapchain.curImageIndex)
        = some (if tables.THSVS_ACCESS_TRANSFER_WRITE ∈ pre then pre
            else [tables.THSVS_ACCESS_TRANSFER_WRITE]) ∧
      (tables.THSVS_ACCESS_TRANSFER_WRITE ∈ pre → st1 = st) := by
  obtain ⟨st1, h1, hget, hsame⟩ := swapchainTransition_full hlevel hpre image
    tables.THSVS_ACCESS_TRANSFER_WRITE (thsvs.THSVS_ACCESS_TYPES tables.TRANSFER_WRITE)
  refine ⟨st1, ?_, hget, hsame⟩
  unfold blitDestination
  simp only [Option.some_bind, himage, h1, Option.map_some']

/-- A defined destination block for an absent destination found an image and recorded access
types at the current image index. -/
theorem blitDestination_tracked {barrierDeductionLevel : Nat}
    (hlevel : BARRIER_DEDUCTION_LEVEL_FULL ≤ barrierDeductionLevel) {thsvs : Thsvs}
    {tables : BlitTables} {st : AccessState} {swapchain : CCVKGPUSwapchain}
    {dst : BlitEndpoint × AccessState × List VkCmd}
    (h : blitDestination barrierDeductionLevel thsvs tables (some swapchain) st none
      = some dst) :
    (∃ image, swapchain.swapchainImages[swapchain.curImageIndex]? = some image) ∧
    ∃ pre, st.get (Resource.swapchainImage swapchain.addr swapchain.curImageIndex)
      = some pre := by
  unfold blitDestination at h
  simp only [Option.some_bind, Option.bind_eq_some, Option.map_eq_some'] at h
  obtain ⟨image, himage, r, hr, -⟩ := h
  exact ⟨⟨image, himage⟩, swapchainTransition_tracked hlevel hr⟩

theorem blitTexture_eq (barrierDeductionLevel : Nat) (thsvs : Thsvs) (tables : BlitTables)
    (gpuSwapchain : Option CCVKGPUSwapchain) (st : AccessState) (s : CCVKCommandBuffer)
    (srcTexture dstTexture : Option Texture) (regions : List TextureBlit) (filter : Nat)
    {src dst : BlitEndpoint × AccessState × List VkCmd}
    (hsrc : blitSource barrierDeductionLevel thsvs tables gpuSwapchain st srcTexture = some src)
    (hdst : blitDestination barrierDeductionLevel thsvs tables gpuSwapchain src.2.1 dstTexture
      = some dst) :
    blitTexture barrierDeductionLevel thsvs tables gpuSwapchain st s srcTexture dstTexture
        regions filter
      = some (dst.2.1,
          { s with blitRegions := regions.map (blitRegion src.1.aspectMask dst.1.aspectMask) },
          src.2.2 ++ dst.2.2 ++
            [VkCmd.BlitImage src.1.image src.1.imageLayout dst.1.image dst.1.imageLayout
              (regions.map (blitRegion src.1.aspectMask dst.1.aspectMask))
              (tables.VK_FILTERS filter)]) := by
  unfold blitTexture
  simp only [hsrc, Option.some_bind, hdst, Option.map_some']

theorem blitTexture_parts {barrierDeductionLevel : Nat} {thsvs : Thsvs} {tables : BlitTables}
    {gpuSwapchain : Option CCVKGPUSwapchain} {st st2 : AccessState} {s s2 : CCVKCommandBuffer}
    {srcTexture dstTexture : Option Texture} {regions : List TextureBlit} {filter : Nat}
    {cmds : List VkCmd}
    (h : blitTexture barrierDeductionLevel thsvs tables gpuSwapchain st s srcTexture dstTexture
      regions filter = some (st2, s2, cmds)) :
    ∃ src dst,
      blitSource barrierDeductionLevel thsvs tables gpuSwapchain st srcTexture = some src ∧
      blitDestination barrierDeductionLevel thsvs tables gpuSwapchain src.2.1 dstTexture
        = some dst ∧
      st2 = dst.2.1 ∧
      cmds = src.2.2 ++ dst.2.2 ++
        [VkCmd.BlitImage src.1.image src.1.imageLayout dst.1.image dst.1.imageLayout
          (regions.map (blitRegion src.1.aspectMask dst.1.aspectMask))
          (tables.VK_FILTERS filter)] := by
  unfold blitTexture at h
  simp only [Option.bind_eq_some, Option.map_eq_some', Prod.mk.injEq] at h
  obtain ⟨src, hsrc, dst, hdst, hst, -, hcmds⟩ := h
  exact ⟨src, dst, hsrc, hdst, hst.symm, hcmds.symm⟩

theorem transitionBarriers_blit (image : Nat) (pre : List ThsvsAccessType)
    (tested nextAccess : ThsvsAccessType) (blit : VkCmd)
    (hblit : transitionBarriers image [blit] = []) :
    transitionBarriers image
        ((if tested ∈ pre then []
          else [VkCmd.ThsvsCmdPipelineBarrier none
            [swapchainImageBarrier image pre nextAccess]]) ++ [blit])
      = if tested ∈ pre then [] else [swapchainImageBarrier image pre nextAccess] := by
  by_cases hmem : tested ∈ pre
  · simp only [hmem, if_true, List.nil_append]
    exact hblit
  · simp only [hmem, if_false]
    unfold transitionBarriers at hblit ⊢
    simp only [List.singleton_append, List.map_cons, List.flatten_cons] at hblit ⊢
    rw [hblit]
    simp [swapchainImageBarrier]

theorem transitionBarriers_blitImage (image srcImage : Nat) (srcImageLayout : VkImageLayout)
    (dstImage : Nat) (dstImageLayout : VkImageLayout) (regions : List VkImageBlit)
    (filter : Nat) :
    transitionBarriers image
      [VkCmd.BlitImage srcImage srcImageLayout dstImage dstImageLayout regions filter] = [] :=
  rfl

/-- C11, as the code has it.  With barrier deduction at level full, a `blitTexture` whose
destination is absent is defined whenever the device's swapchain has an image and recorded
access types at the current image index.  Every result of it comes about as follows: the source
block runs first (for a user-texture source it issues nothing and leaves the Resource Access
State as it was; for an absent source it handles the same image for transfer-read); then, with
`pre` the access types recorded for the image at that point, the transition barrier for the
image, from `pre` to transfer-write, is issued exactly when transfer-write is not a member of
`pre`; then comes the native blit.  Afterwards the recorded access types of the image contain
transfer-write.  Hence a blit with a user-texture source hands at most one barrier for the
image to the helper library, and a next blit with a user-texture source to the absent
destination, with the same swapchain and image index, is defined and issues the native blit
only. -/
theorem C11_blit_swapchain_transition (barrierDeductionLevel : Nat) (thsvs : Thsvs)
    (tables : BlitTables) (swapchain : CCVKGPUSwapchain) (st : AccessState)
    (s : CCVKCommandBuffer) (srcTexture : Option Texture) (regions : List TextureBlit)
    (filter : Nat) (hlevel : BARRIER_DEDUCTION_LEVEL_FULL ≤ barrierDeductionLevel) :
    (BlitReady st swapchain →
      (blitTexture barrierDeductionLevel thsvs tables (some swapchain) st s srcTexture none
        regions filter).isSome) ∧
    (∀ st2 s2 cmds,
      blitTexture barrierDeductionLevel thsvs tables (some swapchain) st s srcTexture none
        regions filter = some (st2, s2, cmds) →
      ∃ src image pre,
        blitSource barrierDeductionLevel thsvs tables (some swapchain) st srcTexture
          = some src ∧
        (srcTexture ≠ none → src.2.1 = st ∧ src.2.2 = []) ∧
        swapchain.swapchainImages[swapchain.curImageIndex]? = some image ∧
        src.2.1.get (Resource.swapchainImage swapchain.addr swapchain.curImageIndex)
          = some pre ∧
        cmds = src.2.2
          ++ (if tables.THSVS_ACCESS_TRANSFER_WRITE ∈ pre then []
            else [VkCmd.ThsvsCmdPipelineBarrier none
              [swapchainImageBarrier image pre
                (thsvs.THSVS_ACCESS_TYPES tables.TRANSFER_WRITE)]])
          ++ [VkCmd.BlitImage src.1.image src.1.imageLayout image
              VkImageLayout.VK_IMAGE_LAYOUT_TRANSFER_DST_OPTIMAL
              (regions.map (blitRegion src.1.aspectMask VK_IMAGE_ASPECT_COLOR_BIT))
              (tables.VK_FILTERS filter)] ∧
        (∃ post,
          st2.get (Resource.swapchainImage swapchain.addr swapchain.curImageIndex)
            = some post ∧
          tables.THSVS_ACCESS_TRANSFER_WRITE ∈ post) ∧
        (srcTexture ≠ none → (transitionBarriers image cmds).length ≤ 1) ∧
        (∀ (srcTexture2 : Texture) (regions2 : List TextureBlit) (filter2 : Nat),
          ∃ s3 blit,
            blitTexture barrierDeductionLevel thsvs tables (some swapchain) st2 s2
              (some srcTexture2) none regions2 filter2 = some (st2, s3, [blit]) ∧
            transitionBarriers image [blit] = [])) := by
  constructor
  · intro hready
    obtain ⟨src, hsrc, mid, hmid⟩ := blitSource_ready hlevel thsvs tables hready srcTexture
    obtain ⟨⟨image, himage⟩, -⟩ := blitReady_tracked hready
    obtain ⟨st1, hdst, -, -⟩ := blitDestination_swapchain hlevel thsvs tables himage hmid
    rw [blitTexture_eq barrierDeductionLevel thsvs tables (some swapchain) st s srcTexture
      none regions filter hsrc hdst]
    rfl
  · intro st2 s2 cmds h
    obtain ⟨src, dst, hsrc, hdst, hst2, hcmds⟩ := blitTexture_parts h
    obtain ⟨⟨image, himage⟩, ⟨pre, hpre⟩⟩ := blitDestination_tracked hlevel hdst
    obtain ⟨st1, hdst1, hget, -⟩ := blitDestination_swapchain hlevel thsvs tables himage hpre
    rw [hdst1, Option.some.injEq] at hdst
    subst hdst
    have huser : srcTexture ≠ none → src.2.1 = st ∧ src.2.2 = [] := by
      intro hne
      cases srcTexture with
      | none => exact absurd rfl hne
      | some texture =>
        simp only [blitSource, Option.some.injEq] at hsrc
        subst hsrc
        exact ⟨rfl, rfl⟩
    have hpost : tables.THSVS_ACCESS_TRANSFER_WRITE ∈
        (if tables.THSVS_ACCESS_TRANSFER_WRITE ∈ pre then pre
          else [tables.THSVS_ACCESS_TRANSFER_WRITE]) := by
      by_cases hmem : tables.THSVS_ACCESS_TRANSFER_WRITE ∈ pre
      · rw [if_pos hmem]; exact hmem
      · rw [if_neg hmem]; exact List.mem_singleton.mpr rfl
    refine ⟨src, image, pre, hsrc, huser, himage, hpre, hcmds, ⟨_, hst2 ▸ hget, hpost⟩, ?_, ?_⟩
    · intro hne
      rw [hcmds, (huser hne).2, List.nil_append, transitionBarriers_blit _ _ _ _ _
        (transitionBarriers_blitImage _ _ _ _ _ _ _)]
      split
      · exact Nat.zero_le _
      · exact Nat.le_refl _
    · intro srcTexture2 regions2 filter2
      have hget2 : st2.get (Resource.swapchainImage swapchain.addr swapchain.curImageIndex)
          = some (if tables.THSVS_ACCESS_TRANSFER_WRITE ∈ pre then pre
            else [tables.THSVS_ACCESS_TRANSFER_WRITE]) := hst2 ▸ hget
      obtain ⟨st3, hdst3, -, hsame⟩ :=
        blitDestination_swapchain hlevel thsvs tables himage hget2
      have hst3 : st3 = st2 := hsame hpost
      subst hst3
      rw [if_pos hpost] at hdst3
      have hb := blitTexture_eq barrierDeductionLevel thsvs tables (some swapchain) st3 s2
        (some srcTexture2) none regions2 filter2 rfl hdst3
      exact ⟨_, _, hb, rfl⟩

/-- Instance of C11: the first blit from a texture to the swapchain image, whose recorded
access types are other than transfer-write, issues one transition barrier for image 72 and
leaves transfer-write recorded; the next blit issues none. -/
theorem C11_blit_swapchain_transition_witness :
    BARRIER_DEDUCTION_LEVEL_FULL ≤ BARRIER_DEDUCTION_LEVEL_FULL ∧
    (exBlit exAccess (some ⟨exTexture 40⟩) none).isSome ∧
    (exBlit exAccess (some ⟨exTexture 40⟩) none).map
        (fun r => ((transitionBarriers 72 r.2.2).length, exSwapchainAccess r.1))
      = some (1, some [118]) ∧
    ((exBlit exAccess (some ⟨exTexture 40⟩) none).bind
        (fun r => exBlit r.1 (some ⟨exTexture 41⟩) none)).map
        (fun r => ((transitionBarriers 72 r.2.2).length, exSwapchainAccess r.1))
      = some (0, some [118]) := by
  refine ⟨Nat.le_refl _, ?_, by decide, by decide⟩
  exact (C11_blit_swapchain_transition BARRIER_DEDUCTION_LEVEL_FULL exThsvs exBlitTables
    exSwapchain exAccess exFresh (some ⟨exTexture 40⟩) [] 0 (Nat.le_refl _)).1
      ⟨by decide, by decide⟩

/-- Refutation of C11 as stated: transfer-write (118) is a member of the access types recorded
for the current swapchain image, yet a blit at level full whose destination is absent, its
source being absent too, issues the transition barrier for the image to transfer-write: the
source block first issues a barrier to transfer-read (117) and records transfer-read alone. -/
theorem C11_counterexample :
    exSwapchainAccess exAccessWritten = some [118] ∧
    exBlitTables.THSVS_ACCESS_TRANSFER_WRITE = 118 ∧
    (exBlit exAccessWritten none none).map
        (fun r => ((transitionBarriers 72 r.2.2).map (fun b => (b.prevAccesses, b.nextAccesses)),
          exSwapchainAccess r.1))
      = some ([([118], [117]), ([117], [118])], some [118]) := by
  decide

/-! ## Watermark of `bindDescriptorSet` -/

theorem bindDescriptorSet_unchanged {s : CCVKCommandBuffer} {set : Nat}
    {descriptorSet : DescriptorSet} (hk : set < s.curGPUDescriptorSets.length)
    (hslot : s.curGPUDescriptorSets.getD set none = descriptorSet.gpuDescriptorSet)
    (dynamicOffsets : List Nat) :
    bindDescriptorSet s set descriptorSet 0 dynamicOffsets = some s := by
  unfold bindDescriptorSet
  rw [if_pos hk]
  simp only [ne_eq, hslot, not_true_eq_false, if_false]

/-- C21, as the code has it: for an in-range set index `bindDescriptorSet` returns; a call
that supplies the descriptor set already bound at the slot and a zero dynamic-offset count
returns the recorder it was given, watermark included; a call that supplies another
descriptor set, or a non-zero dynamic-offset count (whatever pointer and count are recorded for
the slot), leaves the watermark at the minimum of the watermark and the set index; so does, in
particular, every call that changes the slot vector, the dynamic-offset pointers or the
dynamic-offset counts. -/
theorem C21_dirty_on_change (s : CCVKCommandBuffer) (set : Nat) (descriptorSet : DescriptorSet)
    (dynamicOffsetCount : Nat) (dynamicOffsets : List Nat)
    (hk : set < s.curGPUDescriptorSets.length) :
    ∃ s1, bindDescriptorSet s set descriptorSet dynamicOffsetCount dynamicOffsets = some s1 ∧
      (s.curGPUDescriptorSets.getD set none = descriptorSet.gpuDescriptorSet →
        dynamicOffsetCount = 0 → s1 = s) ∧
      (s.curGPUDescriptorSets.getD set none ≠ descriptorSet.gpuDescriptorSet
          ∨ dynamicOffsetCount ≠ 0 →
        s1.firstDirtyDescriptorSet = min s.firstDirtyDescriptorSet set) ∧
      (s1.curGPUDescriptorSets ≠ s.curGPUDescriptorSets
          ∨ s1.curDynamicOffsetPtrs ≠ s.curDynamicOffsetPtrs
          ∨ s1.curDynamicOffsetCounts ≠ s.curDynamicOffsetCounts →
        s1.firstDirtyDescriptorSet = min s.firstDirtyDescriptorSet set) := by
  obtain ⟨s1, h1, -, hw⟩ := bindDescriptorSet_spec s set descriptorSet dynamicOffsetCount
    dynamicOffsets hk
  have hsame : s.curGPUDescriptorSets.getD set none = descriptorSet.gpuDescriptorSet →
      dynamicOffsetCount = 0 → s1 = s := by
    intro hslot hc
    subst hc
    rw [bindDescriptorSet_unchanged hk hslot] at h1
    exact (Option.some.inj h1).symm
  have hmin : s.curGPUDescriptorSets.getD set none ≠ descriptorSet.gpuDescriptorSet
      ∨ dynamicOffsetCount ≠ 0 →
      s1.firstDirtyDescriptorSet = min s.firstDirtyDescriptorSet set := by
    intro hch
    rw [hw, if_pos hch, Nat.min_comm]
  refine ⟨s1, h1, hsame, hmin, ?_⟩
  intro hch
  apply hmin
  by_contra hno
  simp only [ne_eq, not_or, not_not] at hno
  have hs := hsame hno.1 hno.2
  subst hs
  rcases hch with h | h | h <;> exact h rfl

/-- Instance of C21: on the fresh recorder, binding set `A` at slot 2 lowers the watermark from
the sentinel to 2. -/
theorem C21_dirty_on_change_witness :
    2 < exFresh.curGPUDescriptorSets.length ∧
    (bindDescriptorSet exFresh 2 ⟨some exSetA⟩ 0 []).map (fun s => s.firstDirtyDescriptorSet)
      = some 2 := by
  obtain ⟨s1, h1, -, hmin, -⟩ := C21_dirty_on_change exFresh 2 ⟨some exSetA⟩ 0 [] (by decide)
  refine ⟨by decide, ?_⟩
  rw [h1, Option.map_some', hmin (Or.inl (by decide))]
  rfl

/-- Refutation of C21 as stated: after a flush, slot 1 holds set `B`, the offsets 16 and 32
and the count 2, and the watermark is the sentinel; `bindDescriptorSet(1, B, 2, [16, 32])`
supplies exactly these, changes none of them, and yet leaves the watermark at 1. -/
theorem C21_counterexample :
    exFlushed.map (fun s => (s.curGPUDescriptorSets[1]?, s.curDynamicOffsetPtrs[1]?,
        s.curDynamicOffsetCounts[1]?, s.firstDirtyDescriptorSet))
      = some (some (some exSetB), some [16, 32], some 2, UINT_MAX) ∧
    (exFlushed.bind (fun s => bindDescriptorSet s 1 ⟨some exSetB⟩ 2 [16, 32])).map
        (fun s => (s.curGPUDescriptorSets[1]?, s.curDynamicOffsetPtrs[1]?,
          s.curDynamicOffsetCounts[1]?, s.firstDirtyDescriptorSet))
      = some (some (some exSetB), some [16, 32], some 2, 1) :=
  ⟨rfl, rfl⟩

/-! ## Indirect draws -/

theorem drawIndirectCmds_eq (gpuDevice : CCVKGPUDevice) (ib : CCVKGPUBuffer) :
    drawIndirectCmds gpuDevice ib =
      if gpuDevice.useMultiDrawIndirect = true then
        [nativeIndirectDraw ib (ib.startOffset + gpuDevice.curBackBufferIndex * ib.instanceSize)
          ib.count]
      else
        (List.range ib.count).map (fun j =>
          nativeIndirectDraw ib
            (ib.startOffset + gpuDevice.curBackBufferIndex * ib.instanceSize
              + j * indirectRecordSize ib) 1) := by
  unfold drawIndirectCmds nativeIndirectDraw indirectRecordSize
  cases gpuDevice.useMultiDrawIndirect <;> cases ib.isDrawIndirectByIndex <;> simp

theorem flushIfDirty_binds {bindPoint : VkPipelineBindPoint} {gpuDevice : CCVKGPUDevice}
    {s s1 : CCVKCommandBuffer} {flushed : List VkCmd}
    (h : flushIfDirty bindPoint gpuDevice s = some (s1, flushed)) :
    ∀ c ∈ flushed, c.isBindDescriptorSets = true := by
  obtain ⟨-, hdirty, hclean⟩ := flushIfDirty_shape h
  intro c hc
  by_cases hw : s.firstDirtyDescriptorSet < s.curGPUDescriptorSets.length
  · obtain ⟨-, p, sets, count, offsets, -, hf⟩ := hdirty hw
    rw [hf, List.mem_singleton] at hc
    rw [hc]; rfl
  · rw [(hclean hw).2] at hc
    exact absurd hc (List.not_mem_nil _)

/-- C23: a draw whose input assembler has an indirect buffer is defined whenever the flush it
may trigger is ready, and the native calls of every result are those of the flush (no call, or
one bind of descriptor sets) followed by: with multi-draw-indirect, one native indirect draw at
offset base = start offset + back-buffer index * per-frame size, with the record count as
draw count; without it, one native indirect draw per record, the `j`-th at offset
base + `j` * record size with draw count 1.  The native call and the record size are the
indexed ones exactly when the buffer draws by index. -/
theorem C23_indirect_draws (gpuDevice : CCVKGPUDevice) (s : CCVKCommandBuffer)
    (ia : InputAssembler) (ib : CCVKGPUBuffer)
    (hib : ia.gpuInputAssembler.gpuIndirectBuffer = some ib) :
    (DrawReady gpuDevice s → (draw gpuDevice s ia).isSome) ∧
    (∀ s1 cmds, draw gpuDevice s ia = some (s1, cmds) →
      ∃ flushed,
        (∀ c ∈ flushed, c.isBindDescriptorSets = true) ∧
        cmds = flushed ++
          (if gpuDevice.useMultiDrawIndirect = true then
            [nativeIndirectDraw ib
              (ib.startOffset + gpuDevice.curBackBufferIndex * ib.instanceSize) ib.count]
          else
            (List.range ib.count).map (fun j =>
              nativeIndirectDraw ib
                (ib.startOffset + gpuDevice.curBackBufferIndex * ib.instanceSize
                  + j * indirectRecordSize ib) 1))) ∧
    (nativeIndirectDraw ib 0 1 = VkCmd.DrawIndexedIndirect ib.vkBuffer 0 1
        sizeofVkDrawIndexedIndirectCommand ↔ ib.isDrawIndirectByIndex = true) := by
  refine ⟨fun hready => (draw_dispatch_defined hready ia exDispatch).1, ?_, ?_⟩
  · intro s1 cmds h
    obtain ⟨s0, flushed, hf, hind, -⟩ := draw_shape h
    refine ⟨flushed, flushIfDirty_binds hf, ?_⟩
    rw [(hind ib hib).2, drawIndirectCmds_eq]
  · unfold nativeIndirectDraw indirectRecordSize
    cases ib.isDrawIndirectByIndex <;> simp

/-- Instance of C23: without multi-draw-indirect, the indirect buffer of two non-indexed
records at start offset 64 is drawn by two native calls, at offsets 64 and 80. -/
theorem C23_indirect_draws_witness :
    exIAIndirect.gpuInputAssembler.gpuIndirectBuffer.isSome ∧
    (draw exDevice (exBound .TRIANGLE_LIST exLayout3) exIAIndirect).map (fun r => r.2)
      = some [VkCmd.DrawIndirect 32 64 1 16, VkCmd.DrawIndirect 32 80 1 16] ∧
    (draw exDevice (exBound .TRIANGLE_LIST exLayout3) exIAIndirect).isSome := by
  refine ⟨rfl, by decide, ?_⟩
  exact (C23_indirect_draws exDevice (exBound .TRIANGLE_LIST exLayout3) exIAIndirect _ rfl).1
    (exBound_drawReady _ _)

/-! ## Evaluations of `blitTexture` and of the triangle statistics -/

/-- C28, evaluated on a blit between two user textures that both have the optimal layout
policy (textures 40 and 41): the native blit is handed the layout transfer-src-optimal for the
destination image as well as for the source image. -/
theorem C28_destination_layout_is_source_layout :
    (exTexture 41).layoutRule = ThsvsImageLayout.THSVS_IMAGE_LAYOUT_OPTIMAL ∧
    (exBlit exAccess (some ⟨exTexture 40⟩) (some ⟨exTexture 41⟩)).map (fun r => r.2.2)
      = some [VkCmd.BlitImage 1040 VkImageLayout.VK_IMAGE_LAYOUT_TRANSFER_SRC_OPTIMAL 1041
          VkImageLayout.VK_IMAGE_LAYOUT_TRANSFER_SRC_OPTIMAL [] 0] ∧
    (exBlit exAccess (some ⟨exTexture 40⟩) (some ⟨exTexture 41⟩)).map
        (fun r => blitLayouts r.2.2)
      ≠ some [(VkImageLayout.VK_IMAGE_LAYOUT_TRANSFER_SRC_OPTIMAL,
          VkImageLayout.VK_IMAGE_LAYOUT_TRANSFER_DST_OPTIMAL)] := by
  decide

/-- C29, evaluated on direct draws with one instance on recorders whose triangle counter
stands at 12: with a triangle-strip pipeline and no vertex the counter is 10 after the draw,
with a triangle-fan pipeline and one vertex it is 11. -/
theorem C29_triangle_counter_decreases :
    exStripCounted.numTriangles = 12 ∧
    (draw exDevice exStripCounted (exIA 0 1)).map (fun r => r.1.numTriangles) = some 10 ∧
    exFanCounted.numTriangles = 12 ∧
    (draw exDevice exFanCounted (exIA 1 1)).map (fun r => r.1.numTriangles) = some 11 := by
  decide

/-! ## The stencil caches across recordings -/

theorem setStencilWriteMask_cmds (s : CCVKCommandBuffer) (face : StencilFace) (mask : Nat) :
    (setStencilWriteMask s face mask).2 =
      if s.curStencilWriteMask = { face := face, write_mask := mask } then []
      else [VkCmd.SetStencilWriteMask (vkStencilFace face) mask] := by
  unfold setStencilWriteMask
  by_cases h : s.curStencilWriteMask = { face := face, write_mask := mask }
  · rw [if_pos h, h]
    simp
  · rw [if_neg h]
    have hne : s.curStencilWriteMask.face ≠ face ∨ s.curStencilWriteMask.write_mask ≠ mask := by
      by_contra hno
      simp only [ne_eq, not_or, not_not] at hno
      apply h
      cases hc : s.curStencilWriteMask with
      | mk f m =>
        rw [hc] at hno
        simp only at hno
        rw [hno.1, hno.2]
    rw [if_pos hne]

theorem setStencilCompareMask_cmds (s : CCVKCommandBuffer) (face : StencilFace)
    (reference : Int) (mask : Nat) :
    (setStencilCompareMask s face reference mask).2 =
      if s.curStencilCompareMask
          = { face := face, reference := reference, compareMask := mask } then []
      else [VkCmd.SetStencilReference (vkStencilFace face) (reference % 4294967296).toNat,
        VkCmd.SetStencilCompareMask (vkStencilFace face) mask] := by
  unfold setStencilCompareMask
  by_cases h : s.curStencilCompareMask
      = { face := face, reference := reference, compareMask := mask }
  · rw [if_pos h, h]
    simp
  · rw [if_neg h]
    have hne : s.curStencilCompareMask.face ≠ face
        ∨ s.curStencilCompareMask.reference ≠ reference
        ∨ s.curStencilCompareMask.compareMask ≠ mask := by
      by_contra hno
      simp only [ne_eq, not_or, not_not] at hno
      apply h
      cases hc : s.curStencilCompareMask with
      | mk f r m =>
        rw [hc] at hno
        simp only at hno
        rw [hno.1, hno.2.1, hno.2.2]
    rw [if_pos hne]

/-- The reference -1 reaches the native set-stencil-reference call as 4294967295, while the
cache keeps -1. -/
theorem setStencilCompareMask_negative_reference :
    setStencilCompareMask exRecording .FRONT (-1) 255 =
      ({ exRecording with curStencilCompareMask := ⟨.FRONT, -1, 255⟩ },
        [VkCmd.SetStencilReference .VK_STENCIL_FACE_FRONT_BIT 4294967295,
          VkCmd.SetStencilCompareMask .VK_STENCIL_FACE_FRONT_BIT 255]) := by
  decide

/-- No `begin` writes the two stencil caches. -/
theorem begin_stencil {pool : CCVKGPUCommandBufferPool} {s s1 : CCVKCommandBuffer}
    {renderPass : Option RenderPass} {subpass : Nat} {frameBuffer : Option Framebuffer}
    {calls : List LifecycleCall}
    (h : begin pool s renderPass subpass frameBuffer = some (s1, calls)) :
    s1.curStencilWriteMask = s.curStencilWriteMask ∧
    s1.curStencilCompareMask = s.curStencilCompareMask := by
  cases hb : s.gpuCommandBuffer.began with
  | true =>
    rw [begin_recording hb] at h
    simp only [Option.some.injEq, Prod.mk.injEq] at h
    rw [← h.1]
    exact ⟨rfl, rfl⟩
  | false =>
    have hnative : (s.type = CommandBufferType.PRIMARY ∨ renderPass ≠ none) →
        s1.curStencilWriteMask = s.curStencilWriteMask ∧
        s1.curStencilCompareMask = s.curStencilCompareMask := by
      intro hpass
      obtain ⟨beginInfo, hs1⟩ := begin_success hb hpass h
      simp only [beginNative, Prod.mk.injEq] at hs1
      rw [hs1.1]
      exact ⟨rfl, rfl⟩
    cases htype : s.type with
    | PRIMARY => exact hnative (Or.inl htype)
    | SECONDARY =>
      cases renderPass with
      | some rp => exact hnative (Or.inr (fun hn => Option.noConfusion hn))
      | none =>
        rw [begin_without_render_pass hb htype] at h
        simp only [Option.some.injEq, Prod.mk.injEq] at h
        rw [← h.1]
        exact ⟨rfl, rfl⟩

/-- No `end` writes the two stencil caches. -/
theorem end_stencil (pool : CCVKGPUCommandBufferPool) (s : CCVKCommandBuffer) :
    (end_ pool s).1.curStencilWriteMask = s.curStencilWriteMask ∧
    (end_ pool s).1.curStencilCompareMask = s.curStencilCompareMask := by
  cases hb : s.gpuCommandBuffer.began with
  | true => rw [end_recording hb]; exact ⟨rfl, rfl⟩
  | false => rw [end_idle hb]; exact ⟨rfl, rfl⟩

/-- Neither `end` nor `begin` writes the cached stencil values.  After `end` on a recording
buffer and a `begin` (which is defined for a primary buffer, and for a secondary one whenever
the framebuffer it is given has a native handle), the two stencil caches hold what they held
before `end`: the first `setStencilWriteMask(face, mask)` issues its native call exactly when
the pair differs from the cached pair, and the first
`setStencilCompareMask(face, reference, mask)` issues its two native calls exactly when the
triple differs from the cached triple. -/
theorem stencil_caches_persist (pool pool1 : CCVKGPUCommandBufferPool)
    (s : CCVKCommandBuffer) (renderPass : Option RenderPass) (subpass : Nat)
    (frameBuffer : Option Framebuffer) (face : StencilFace) (reference : Int)
    (writeMask compareMask : Nat) (hrec : s.gpuCommandBuffer.began = true) :
    (s.type = CommandBufferType.PRIMARY ∨ (inheritedFramebuffer frameBuffer).isSome →
      (begin pool1 (end_ pool s).1 renderPass subpass frameBuffer).isSome) ∧
    (∀ s2 calls,
      begin pool1 (end_ pool s).1 renderPass subpass frameBuffer = some (s2, calls) →
      s2.curStencilWriteMask = s.curStencilWriteMask ∧
      s2.curStencilCompareMask = s.curStencilCompareMask ∧
      (setStencilWriteMask s2 face writeMask).2 =
        (if s.curStencilWriteMask = { face := face, write_mask := writeMask } then []
        else [VkCmd.SetStencilWriteMask (vkStencilFace face) writeMask]) ∧
      (setStencilCompareMask s2 face reference compareMask).2 =
        (if s.curStencilCompareMask
            = { face := face, reference := reference, compareMask := compareMask } then []
        else [VkCmd.SetStencilReference (vkStencilFace face) (reference % 4294967296).toNat,
          VkCmd.SetStencilCompareMask (vkStencilFace face) compareMask])) := by
  constructor
  · intro hdef
    apply begin_defined _ subpass
    rw [end_recording hrec]
    exact hdef
  · intro s2 calls h
    obtain ⟨hw, hc⟩ := begin_stencil h
    obtain ⟨hw1, hc1⟩ := end_stencil pool s
    rw [hw1] at hw
    rw [hc1] at hc
    refine ⟨hw, hc, ?_, ?_⟩
    · rw [setStencilWriteMask_cmds, hw]
    · rw [setStencilCompareMask_cmds, hc]

/-- C24, evaluated on two recordings.  The first recording, on native command buffer 100 with
a pipeline bound, calls `setStencilWriteMask(FRONT, 255)` and
`setStencilCompareMask(FRONT, 1, 255)`, which issue their native calls, while binding the
pipeline again issues none.  After `end` and a successful `begin` the recorder records into
native command buffer 300 with the pipeline cache empty, so that binding the same pipeline
issues its native call again; the two stencil caches still hold (FRONT, 255) and
(FRONT, 1, 255), and the first `setStencilWriteMask(FRONT, 255)` and the first
`setStencilCompareMask(FRONT, 1, 255)` of the new recording issue no native call. -/
theorem C24_stencil_caches_survive_begin :
    exRecording.gpuCommandBuffer = { began := true, vkCommandBuffer := 100 } ∧
    (setStencilWriteMask exRecording .FRONT 255).2
      = [VkCmd.SetStencilWriteMask .VK_STENCIL_FACE_FRONT_BIT 255] ∧
    (setStencilCompareMask (setStencilWriteMask exRecording .FRONT 255).1 .FRONT 1 255).2
      = [VkCmd.SetStencilReference .VK_STENCIL_FACE_FRONT_BIT 1,
          VkCmd.SetStencilCompareMask .VK_STENCIL_FACE_FRONT_BIT 255] ∧
    (bindPipelineState exStencilSet ⟨exPipeline .TRIANGLE_LIST exLayout3⟩).2.length = 0 ∧
    exNextRecording.map (fun s => (s.gpuCommandBuffer, s.curGPUPipelineState))
      = some ({ began := true, vkCommandBuffer := 300 }, none) ∧
    exNextRecording.map
        (fun s => (bindPipelineState s ⟨exPipeline .TRIANGLE_LIST exLayout3⟩).2.length)
      = some 1 ∧
    exNextRecording.map (fun s => (s.curStencilWriteMask, s.curStencilCompareMask))
      = some (⟨.FRONT, 255⟩, ⟨.FRONT, 1, 255⟩) ∧
    exNextRecording.map (fun s => (setStencilWriteMask s .FRONT 255).2) = some [] ∧
    exNextRecording.map (fun s => (setStencilCompareMask s .FRONT 1 255).2) = some [] := by
  decide


/-! ## The viewport and scissor caches across `beginRenderPass` -/

/-- C25, evaluated on one recording: `setViewport` and `setScissor` with a 640 by 480
rectangle, `beginRenderPass` in inline mode over a 320 by 240 render area, then the same
`setViewport` and `setScissor` again.  The two repeated setters issue no native call, while the
most recent native set-viewport and set-scissor calls of the recording, those of
`beginRenderPass`, carry the 320 by 240 render area. -/
theorem C25_viewport_cache_bypassed :
    exViewportTrace.map (fun r => (r.2.1, r.2.2)) = some ([], []) ∧
    exViewportTrace.map (fun r => lastViewport r.1)
      = some (some ⟨.ofInt 0, .ofInt 0, .ofInt 320, .ofInt 240, .ofInt 0, .ofInt 1⟩) ∧
    exViewportTrace.map (fun r => lastScissor r.1) = some (some ⟨0, 0, 320, 240⟩) ∧
    (setViewport exViewportNe exFresh exViewport).2
      = [VkCmd.SetViewport ⟨.ofInt 0, .ofInt 0, .ofInt 640, .ofInt 480, .ofInt 0, .ofInt 1⟩] ∧
    (setScissor exRectNe exFresh exArea).2 = [VkCmd.SetScissor ⟨0, 0, 640, 480⟩] := by
  decide

/-! ## The statistics `execute` merges -/

theorem execute_single {buffers : Buffers} {c front : Nat} {rest : List Nat}
    (hq : (buffers c).pendingQueue = front :: rest) (s : CCVKCommandBuffer) :
    (execute buffers s [c]).2.1.numDrawCalls
      = (s.numDrawCalls + (buffers c).numDrawCalls) % 4294967296 ∧
    (execute buffers s [c]).2.1.numInstances
      = (s.numInstances + (buffers c).numInstances) % 4294967296 ∧
    (execute buffers s [c]).2.1.numTriangles
      = (s.numTriangles + (buffers c).numTriangles) % 4294967296 ∧
    (execute buffers s [c]).2.2 = [VkCmd.ExecuteCommands 1 [front]] ∧
    ((execute buffers s [c]).1 c).pendingQueue = rest := by
  have hwp : withPending buffers [c] = [c] := by
    simp [withPending, hq]
  have hfh : frontHandles buffers [c] = [front] := by
    simp [frontHandles, hq]
  obtain ⟨h1, h2, h3, h4, h5⟩ := execute_spec buffers s [c] (List.nodup_singleton c)
  rw [hwp] at h1 h2 h3 h4
  refine ⟨?_, ?_, ?_, ?_, ?_⟩
  · rw [h1]; rfl
  · rw [h2]; rfl
  · rw [h3]; rfl
  · rw [h4, hfh]; rfl
  · rw [h5 c, hwp, if_pos (List.mem_singleton.mpr rfl)]
    simp [hq]

/-- C26, as the code has it: for a secondary buffer with a non-empty pending queue, `execute`
takes the handle at the front of the queue and adds to the primary's three counters (modulo
2^32) the values the secondary's three counters have at that moment.  When the
secondary buffer is as `end` left it, and nothing was pending before that recording, the
handle taken is the one of that recording and the values added are the counters the recording
had reached at its `end`. -/
theorem C26_execute_merges_current_counters (buffers : Buffers) (primary : CCVKCommandBuffer)
    (c front : Nat) (rest : List Nat) (hq : (buffers c).pendingQueue = front :: rest) :
    ((execute buffers primary [c]).2.1.numDrawCalls
        = (primary.numDrawCalls + (buffers c).numDrawCalls) % 4294967296 ∧
      (execute buffers primary [c]).2.1.numInstances
        = (primary.numInstances + (buffers c).numInstances) % 4294967296 ∧
      (execute buffers primary [c]).2.1.numTriangles
        = (primary.numTriangles + (buffers c).numTriangles) % 4294967296 ∧
      (execute buffers primary [c]).2.2 = [VkCmd.ExecuteCommands 1 [front]]) ∧
    (∀ (pool : CCVKGPUCommandBufferPool) (s : CCVKCommandBuffer),
      s.gpuCommandBuffer.began = true → s.pendingQueue = [] → buffers c = (end_ pool s).1 →
      front = s.gpuCommandBuffer.vkCommandBuffer ∧
      (execute buffers primary [c]).2.1.numDrawCalls
        = (primary.numDrawCalls + s.numDrawCalls) % 4294967296 ∧
      (execute buffers primary [c]).2.1.numInstances
        = (primary.numInstances + s.numInstances) % 4294967296 ∧
      (execute buffers primary [c]).2.1.numTriangles
        = (primary.numTriangles + s.numTriangles) % 4294967296) := by
  obtain ⟨h1, h2, h3, h4, -⟩ := execute_single hq primary
  refine ⟨⟨h1, h2, h3, h4⟩, ?_⟩
  intro pool s hrec hempty hc
  have hend := @end_recording pool s hrec
  have hb : buffers c =
      { s with
          curGPUFBO := none
          curGPUInputAssember := none
          curViewport := { s.curViewport with width := 0, height := 0 }
          curScissor := { s.curScissor with width := 0, height := 0 }
          pendingQueue := s.pendingQueue ++ [s.gpuCommandBuffer.vkCommandBuffer]
          gpuCommandBuffer :=
            { began := false
              vkCommandBuffer := pool.yield { s.gpuCommandBuffer with began := false } } } := by
    rw [hc, hend]
  have hqueue : (buffers c).pendingQueue = [s.gpuCommandBuffer.vkCommandBuffer] := by
    rw [hb]
    show s.pendingQueue ++ [s.gpuCommandBuffer.vkCommandBuffer] = _
    rw [hempty, List.nil_append]
  rw [hq] at hqueue
  have hfront : front = s.gpuCommandBuffer.vkCommandBuffer := by
    simp only [List.cons.injEq] at hqueue
    exact hqueue.1
  have hd : (buffers c).numDrawCalls = s.numDrawCalls := by rw [hb]
  have hi : (buffers c).numInstances = s.numInstances := by rw [hb]
  have ht : (buffers c).numTriangles = s.numTriangles := by rw [hb]
  rw [h1, h2, h3, hd, hi, ht]
  exact ⟨hfront, rfl, rfl, rfl⟩

/-- Instance of C26: executing the secondary buffer that recorded once adds its one draw
call, one instance and one triangle, and takes handle 300. -/
theorem C26_execute_merges_current_counters_witness :
    exRecordedOnce.map pendingAndCounters = some ([300], 1, 1, 1) ∧
    (∀ s, exRecordedOnce = some s →
      pendingAndCounters (execute (fun _ => s) exFresh [1]).2.1 = ([], 1, 1, 1) ∧
      (execute (fun _ => s) exFresh [1]).2.2 = [VkCmd.ExecuteCommands 1 [300]]) := by
  refine ⟨by decide, ?_⟩
  intro s hs
  have hval : exRecordedOnce.map pendingAndCounters = some ([300], 1, 1, 1) := by decide
  rw [hs, Option.map_some', Option.some.injEq] at hval
  simp only [pendingAndCounters, Prod.mk.injEq] at hval
  obtain ⟨hq, hd, hi, ht⟩ := hval
  obtain ⟨⟨h1, h2, h3, h4⟩, -⟩ :=
    C26_execute_merges_current_counters (fun _ => s) exFresh 1 300 [] hq
  simp only [hd, hi, ht] at h1 h2 h3
  refine ⟨?_, h4⟩
  simp only [pendingAndCounters, h1, h2, h3, Prod.mk.injEq]
  refine ⟨?_, by decide, by decide, by decide⟩
  simp [execute, executeLoop, hq]
  rfl

/-- Refutation of C26 as stated: the secondary buffer recorded one draw (handle 300: one draw
call, one instance, one triangle), then was begun and ended again without a draw (handle 301).
`execute` takes handle 300 from the front of its queue and adds 0 to each of the primary's three
counters. -/
theorem C26_counterexample :
    exRecordedOnce.map pendingAndCounters = some ([300], 1, 1, 1) ∧
    exRecordedTwice.map pendingAndCounters = some ([300, 301], 0, 0, 0) ∧
    pendingAndCounters exFresh = ([], 0, 0, 0) ∧
    exRecordedTwice.map
        (fun s => ((execute (fun _ => s) exFresh [1]).2.2,
          pendingAndCounters (execute (fun _ => s) exFresh [1]).2.1))
      = some ([VkCmd.ExecuteCommands 1 [300]], [], 0, 0, 0) := by
  decide

/-! ## The dynamic offsets a flush copies -/

theorem memcpyAt_getElem? {dst src r : List Nat} {pos : Nat}
    (h : memcpyAt dst pos src = some r) :
    r.length = dst.length ∧
    ∀ q, r[q]? = if pos ≤ q ∧ q < pos + src.length then src[q - pos]? else dst[q]? := by
  unfold memcpyAt at h
  split at h
  · rename_i hle
    simp only [Option.some.injEq] at h
    subst h
    have htake : (dst.take pos).length = pos := by
      rw [List.length_take]; omega
    constructor
    · simp only [List.length_append, List.length_take, List.length_drop]
      omega
    · intro q
      by_cases h1 : q < pos
      · have hno : ¬ (pos ≤ q ∧ q < pos + src.length) := by omega
        rw [if_neg hno, List.append_assoc, List.getElem?_append_left (by rw [htake]; exact h1),
          List.getElem?_take_of_lt h1]
      · by_cases h2 : q < pos + src.length
        · rw [if_pos ⟨by omega, h2⟩,
            List.getElem?_append_left (by rw [List.length_append, htake]; exact h2),
            List.getElem?_append_right (by rw [htake]; omega), htake]
        · have hno : ¬ (pos ≤ q ∧ q < pos + src.length) := by omega
          rw [if_neg hno,
            List.getElem?_append_right (by rw [List.length_append, htake]; omega),
            List.length_append, htake, List.getElem?_drop]
          congr 1
          omega
  · exact Option.noConfusion h

/-- One iteration of the flush loop, position by position: the positions from the set's
offset position on, as many as are copied, take the caller's values; every other position of
the offset array is as before. -/
theorem flushSet_offsets {gpuDevice : CCVKGPUDevice} {s : CCVKCommandBuffer}
    {p : CCVKGPUPipelineState} (h : FlushReady gpuDevice s p) (acc : List Nat × List Nat)
    (i : Nat) (hi : i < p.gpuPipelineLayout.setLayouts.length)
    (h1 : acc.1.length = s.curGPUDescriptorSets.length)
    (h2 : acc.2.length = p.gpuPipelineLayout.dynamicOffsetCount) :
    ∃ acc1, flushSet gpuDevice p.gpuPipelineLayout s acc i = some acc1 ∧
      acc1.1.length = acc.1.length ∧ acc1.2.length = acc.2.length ∧
      ∀ q, acc1.2[q]? =
        if offsetPosition p.gpuPipelineLayout i ≤ q
            ∧ q < offsetPosition p.gpuPipelineLayout i
              + min (declaredOffsets p.gpuPipelineLayout i) (suppliedOffsets s i) then
          (suppliedArray s i)[q - offsetPosition p.gpuPipelineLayout i]?
        else acc.2[q]? := by
  unfold declaredOffsets suppliedOffsets suppliedArray offsetPosition
  have hn := h.setCount_le
  have hislots : i < s.curGPUDescriptorSets.length := by omega
  have hslot : s.curGPUDescriptorSets[i]? = some s.curGPUDescriptorSets[i] :=
    List.getElem?_eq_getElem hislots
  have hhi : p.gpuPipelineLayout.dynamicOffsetOffsets[i + 1]?
      = some (p.gpuPipelineLayout.dynamicOffsetOffsets.getD (i + 1) 0) := by
    have : i + 1 < p.gpuPipelineLayout.dynamicOffsetOffsets.length := by rw [h.table_len]; omega
    rw [List.getElem?_eq_getElem this, List.getD_eq_getElem _ _ this]
  have hlo : p.gpuPipelineLayout.dynamicOffsetOffsets[i]?
      = some (p.gpuPipelineLayout.dynamicOffsetOffsets.getD i 0) := by
    have : i < p.gpuPipelineLayout.dynamicOffsetOffsets.length := by rw [h.table_len]; omega
    rw [List.getElem?_eq_getElem this, List.getD_eq_getElem _ _ this]
  have hsup : s.curDynamicOffsetCounts[i]? = some (s.curDynamicOffsetCounts.getD i 0) := by
    have : i < s.curDynamicOffsetCounts.length := by rw [h.counts_len]; omega
    rw [List.getElem?_eq_getElem this, List.getD_eq_getElem _ _ this]
  have hsrc : s.curDynamicOffsetPtrs[i]? = some (s.curDynamicOffsetPtrs.getD i []) := by
    have : i < s.curDynamicOffsetPtrs.length := by rw [h.ptrs_len]; omega
    rw [List.getElem?_eq_getElem this, List.getD_eq_getElem _ _ this]
  have hmono := h.table_mono i hi
  have hcap := h.table_le_count (i + 1) (by omega)
  have hsub := subU32_of_le _ _ hmono (le_trans hcap h.count_u32)
  have hcopy := h.supplied i hi
  have hacc : ¬ acc.1.length ≤ i := by omega
  generalize hm : min (p.gpuPipelineLayout.dynamicOffsetOffsets.getD (i + 1) 0
      - p.gpuPipelineLayout.dynamicOffsetOffsets.getD i 0)
      (s.curDynamicOffsetCounts.getD i 0) = m at hcopy ⊢
  have hmle : m ≤ p.gpuPipelineLayout.dynamicOffsetOffsets.getD (i + 1) 0
      - p.gpuPipelineLayout.dynamicOffsetOffsets.getD i 0 := by
    rw [← hm]; exact min_le_left _ _
  have htake : ((s.curDynamicOffsetPtrs.getD i []).take m).length = m := by
    rw [List.length_take]; omega
  have hlen : ¬ (s.curDynamicOffsetPtrs.getD i []).length < m := by omega
  have hvk : ∃ vk, flushDescriptorSet gpuDevice p.gpuPipelineLayout s.curGPUDescriptorSets[i] i
      = some vk := by
    unfold flushDescriptorSet
    cases hds : s.curGPUDescriptorSets[i] with
    | none =>
      exact ⟨p.gpuPipelineLayout.setLayouts[i].defaultDescriptorSet,
        by simp [List.getElem?_eq_getElem hi]⟩
    | some ds =>
      have hmem : some ds ∈ s.curGPUDescriptorSets := by
        rw [← hds]; exact List.getElem_mem _
      exact ⟨_, List.getElem?_eq_getElem (h.instances ds hmem)⟩
  obtain ⟨vk, hvk⟩ := hvk
  by_cases hpos : m > 0
  · have hdst : p.gpuPipelineLayout.dynamicOffsetOffsets.getD i 0
        + ((s.curDynamicOffsetPtrs.getD i []).take m).length ≤ acc.2.length := by
      rw [htake, h2]; omega
    obtain ⟨r, hr⟩ : ∃ r, memcpyAt acc.2 (p.gpuPipelineLayout.dynamicOffsetOffsets.getD i 0)
        ((s.curDynamicOffsetPtrs.getD i []).take m) = some r := by
      unfold memcpyAt
      rw [if_pos hdst]
      exact ⟨_, rfl⟩
    have key : flushSet gpuDevice p.gpuPipelineLayout s acc i = some (acc.1.set i vk, r) := by
      unfold flushSet
      simp only [hslot, Option.bind_eq_bind, Option.some_bind, hvk, hacc, if_false, hhi, hlo,
        hsup, hsub, hm, hpos, if_true, hsrc, hlen, hr, Option.pure_def]
    obtain ⟨hrl, hrq⟩ := memcpyAt_getElem? hr
    refine ⟨_, key, by simp, hrl, ?_⟩
    intro q
    rw [hrq q, htake]
    by_cases hq : p.gpuPipelineLayout.dynamicOffsetOffsets.getD i 0 ≤ q
        ∧ q < p.gpuPipelineLayout.dynamicOffsetOffsets.getD i 0 + m
    · rw [if_pos hq, if_pos hq, List.getElem?_take_of_lt (by omega)]
    · rw [if_neg hq, if_neg hq]
  · have hzero : m = 0 := by omega
    have key : flushSet gpuDevice p.gpuPipelineLayout s acc i
        = some (acc.1.set i vk, acc.2) := by
      unfold flushSet
      simp only [hslot, Option.bind_eq_bind, Option.some_bind, hvk, hacc, if_false, hhi, hlo,
        hsup, hsub, hm, hpos, Option.pure_def]
    refine ⟨_, key, by simp, rfl, ?_⟩
    intro q
    have hq : ¬ (p.gpuPipelineLayout.dynamicOffsetOffsets.getD i 0 ≤ q
        ∧ q < p.gpuPipelineLayout.dynamicOffsetOffsets.getD i 0 + m) := by omega
    rw [if_neg hq]

/-- The position of a later set is not below the end of the positions declared for an
earlier one. -/
theorem FlushReady.position_le {gpuDevice : CCVKGPUDevice} {s : CCVKCommandBuffer}
    {p : CCVKGPUPipelineState} (h : FlushReady gpuDevice s p) {i j : Nat} (hij : i < j)
    (hj : j ≤ p.gpuPipelineLayout.setLayouts.length) :
    offsetPosition p.gpuPipelineLayout i + declaredOffsets p.gpuPipelineLayout i
      ≤ offsetPosition p.gpuPipelineLayout j := by
  unfold declaredOffsets offsetPosition
  have h1 := h.table_mono i (by omega)
  have h2 := h.table_le (j - (i + 1)) (i + 1) (by omega)
  have e : i + 1 + (j - (i + 1)) = j := by omega
  rw [e] at h2
  omega

/-- The flush loop over the sets `a`, ..., `a + len - 1`, position by position. -/
theorem flush_fold_offsets {gpuDevice : CCVKGPUDevice} {s : CCVKCommandBuffer}
    {p : CCVKGPUPipelineState} (h : FlushReady gpuDevice s p) (len : Nat) :
    ∀ (a : Nat) (acc : List Nat × List Nat),
      a + len ≤ p.gpuPipelineLayout.setLayouts.length →
      acc.1.length = s.curGPUDescriptorSets.length →
      acc.2.length = p.gpuPipelineLayout.dynamicOffsetCount →
      ∃ acc1, (List.range' a len).foldlM (flushSet gpuDevice p.gpuPipelineLayout s) acc
          = some acc1 ∧
        acc1.1.length = s.curGPUDescriptorSets.length ∧
        acc1.2.length = p.gpuPipelineLayout.dynamicOffsetCount ∧
        (∀ i, a ≤ i → i < a + len →
          ∀ k, k < min (declaredOffsets p.gpuPipelineLayout i) (suppliedOffsets s i) →
            acc1.2[offsetPosition p.gpuPipelineLayout i + k]? = (suppliedArray s i)[k]?) ∧
        (∀ q, (∀ i, a ≤ i → i < a + len →
            ¬ (offsetPosition p.gpuPipelineLayout i ≤ q
              ∧ q < offsetPosition p.gpuPipelineLayout i
                + min (declaredOffsets p.gpuPipelineLayout i) (suppliedOffsets s i))) →
          acc1.2[q]? = acc.2[q]?) := by
  induction len with
  | zero =>
    intro a acc _ h1 h2
    refine ⟨acc, rfl, h1, h2, ?_, ?_⟩
    · intro i hai hi; omega
    · intro q _; rfl
  | succ len ih =>
    intro a acc ha h1 h2
    obtain ⟨acc1, hstep, g1, g2, hq1⟩ := flushSet_offsets h acc a (by omega) h1 h2
    obtain ⟨acc2, hrest, k1, k2, hcopied, hkept⟩ :=
      ih (a + 1) acc1 (by omega) (by rw [g1, h1]) (by rw [g2, h2])
    refine ⟨acc2, ?_, k1, k2, ?_, ?_⟩
    · rw [List.range'_succ]
      simp only [List.foldlM_cons, hstep, Option.bind_eq_bind, Option.some_bind, hrest]
    · intro i hai hi k hk
      by_cases hia : i = a
      · subst hia
        have hlater : ∀ j, i + 1 ≤ j → j < i + 1 + len →
            ¬ (offsetPosition p.gpuPipelineLayout j ≤ offsetPosition p.gpuPipelineLayout i + k
              ∧ offsetPosition p.gpuPipelineLayout i + k
                < offsetPosition p.gpuPipelineLayout j
                  + min (declaredOffsets p.gpuPipelineLayout j) (suppliedOffsets s j)) := by
          intro j hj1 hj2
          have hpos := h.position_le (i := i) (j := j) (by omega) (by omega)
          have hmin : min (declaredOffsets p.gpuPipelineLayout i) (suppliedOffsets s i)
              ≤ declaredOffsets p.gpuPipelineLayout i := min_le_left _ _
          omega
        rw [hkept _ hlater, hq1, if_pos ⟨by omega, by omega⟩]
        congr 1
        omega
      · exact hcopied i (by omega) (by omega) k hk
    · intro q hq
      rw [hkept q (fun i hi1 hi2 => hq i (by omega) (by omega)), hq1,
        if_neg (hq a (le_refl a) (by omega))]

/-- The flush in terms of the result of its loop. -/
theorem bindDescriptorSets_of_fold {gpuDevice : CCVKGPUDevice} {s : CCVKCommandBuffer}
    {p : CCVKGPUPipelineState} (h : FlushReady gpuDevice s p)
    (hw : s.firstDirtyDescriptorSet < s.curGPUDescriptorSets.length)
    (bindPoint : VkPipelineBindPoint) {acc : List Nat × List Nat}
    (hfold : (List.range' s.firstDirtyDescriptorSet
        (p.gpuPipelineLayout.setLayouts.length - s.firstDirtyDescriptorSet)).foldlM
        (flushSet gpuDevice p.gpuPipelineLayout s)
        (s.curVkDescriptorSets,
          resizeZero s.curDynamicOffsets p.gpuPipelineLayout.dynamicOffsetCount) = some acc)
    (hl1 : acc.1.length = s.curGPUDescriptorSets.length) :
    bindDescriptorSets bindPoint gpuDevice s =
      some ({ s with
              curVkDescriptorSets := acc.1
              curDynamicOffsets := acc.2
              firstDirtyDescriptorSet := UINT_MAX },
        VkCmd.BindDescriptorSets bindPoint p.gpuPipelineLayout.vkPipelineLayout
          s.firstDirtyDescriptorSet
          (p.gpuPipelineLayout.setLayouts.length - s.firstDirtyDescriptorSet)
          ((acc.1.drop s.firstDirtyDescriptorSet).take
            (p.gpuPipelineLayout.setLayouts.length - s.firstDirtyDescriptorSet))
          (offsetPosition p.gpuPipelineLayout p.gpuPipelineLayout.setLayouts.length
            - offsetPosition p.gpuPipelineLayout s.firstDirtyDescriptorSet)
          ((acc.2.drop (offsetPosition p.gpuPipelineLayout s.firstDirtyDescriptorSet)).take
            (offsetPosition p.gpuPipelineLayout p.gpuPipelineLayout.setLayouts.length
              - offsetPosition p.gpuPipelineLayout s.firstDirtyDescriptorSet))) := by
  unfold offsetPosition
  have hn32 : p.gpuPipelineLayout.setLayouts.length ≤ UINT_MAX :=
    le_trans h.setCount_le h.slots_u32
  have hu : u32 p.gpuPipelineLayout.setLayouts.length = p.gpuPipelineLayout.setLayouts.length :=
    u32_of_le _ hn32
  have hsub : subU32 p.gpuPipelineLayout.setLayouts.length s.firstDirtyDescriptorSet
      = p.gpuPipelineLayout.setLayouts.length - s.firstDirtyDescriptorSet :=
    subU32_of_le _ _ h.first_le hn32
  have hend : u32 (s.firstDirtyDescriptorSet
      + (p.gpuPipelineLayout.setLayouts.length - s.firstDirtyDescriptorSet))
      = p.gpuPipelineLayout.setLayouts.length := by
    have : s.firstDirtyDescriptorSet
        + (p.gpuPipelineLayout.setLayouts.length - s.firstDirtyDescriptorSet)
        = p.gpuPipelineLayout.setLayouts.length := by have := h.first_le; omega
    rw [this, hu]
  have hstart : p.gpuPipelineLayout.dynamicOffsetOffsets[s.firstDirtyDescriptorSet]?
      = some (p.gpuPipelineLayout.dynamicOffsetOffsets.getD s.firstDirtyDescriptorSet 0) := by
    have : s.firstDirtyDescriptorSet < p.gpuPipelineLayout.dynamicOffsetOffsets.length := by
      rw [h.table_len]; have := h.first_le; omega
    rw [List.getElem?_eq_getElem this, List.getD_eq_getElem _ _ this]
  have hlast : p.gpuPipelineLayout.dynamicOffsetOffsets[p.gpuPipelineLayout.setLayouts.length]?
      = some (p.gpuPipelineLayout.dynamicOffsetOffsets.getD
          p.gpuPipelineLayout.setLayouts.length 0) := by
    have : p.gpuPipelineLayout.setLayouts.length
        < p.gpuPipelineLayout.dynamicOffsetOffsets.length := by rw [h.table_len]; omega
    rw [List.getElem?_eq_getElem this, List.getD_eq_getElem _ _ this]
  have hmono : p.gpuPipelineLayout.dynamicOffsetOffsets.getD s.firstDirtyDescriptorSet 0
      ≤ p.gpuPipelineLayout.dynamicOffsetOffsets.getD p.gpuPipelineLayout.setLayouts.length 0 := by
    have := h.table_le (p.gpuPipelineLayout.setLayouts.length - s.firstDirtyDescriptorSet)
      s.firstDirtyDescriptorSet (by have := h.first_le; omega)
    have e : s.firstDirtyDescriptorSet
        + (p.gpuPipelineLayout.setLayouts.length - s.firstDirtyDescriptorSet)
        = p.gpuPipelineLayout.setLayouts.length := by have := h.first_le; omega
    rwa [e] at this
  have hsub2 := subU32_of_le _ _ hmono (le_trans h.table_last h.count_u32)
  have hvk : ¬ acc.1.length ≤ s.firstDirtyDescriptorSet := by rw [hl1]; omega
  unfold bindDescriptorSets
  simp only [h.bound, Option.bind_eq_bind, Option.some_bind, hu, hsub, hfold, hstart, hend,
    hlast, hsub2, hvk, if_false, Option.pure_def]

/-- C22: a flush that is ready is defined, and its offset array is, position by position, the
array before the flush (cut or padded with zeros to the layout's dynamic-offset count) except
for what the dirty sets copy: for every dirty set `i`, the positions from the layout's offset
position of `i` on, as many as the smaller of the count the layout declares for `i` and the
count the caller supplied for `i`, hold the first values of the caller's array; the further
positions belonging to `i` are as before; the positions belonging to a set below the watermark
are as before. -/
theorem C22_flush_copies_min (bindPoint : VkPipelineBindPoint) (gpuDevice : CCVKGPUDevice)
    (s : CCVKCommandBuffer) (p : CCVKGPUPipelineState) (hready : FlushReady gpuDevice s p)
    (hw : s.firstDirtyDescriptorSet < s.curGPUDescriptorSets.length) :
    ∃ s1 cmd, bindDescriptorSets bindPoint gpuDevice s = some (s1, cmd) ∧
      s1.curDynamicOffsets.length = p.gpuPipelineLayout.dynamicOffsetCount ∧
      (∀ i, s.firstDirtyDescriptorSet ≤ i → i < p.gpuPipelineLayout.setLayouts.length →
        (∀ k, k < min (declaredOffsets p.gpuPipelineLayout i) (suppliedOffsets s i) →
          s1.curDynamicOffsets[offsetPosition p.gpuPipelineLayout i + k]?
            = (suppliedArray s i)[k]?) ∧
        (∀ k, min (declaredOffsets p.gpuPipelineLayout i) (suppliedOffsets s i) ≤ k →
          k < declaredOffsets p.gpuPipelineLayout i →
          s1.curDynamicOffsets[offsetPosition p.gpuPipelineLayout i + k]?
            = (resizeZero s.curDynamicOffsets p.gpuPipelineLayout.dynamicOffsetCount)[
                offsetPosition p.gpuPipelineLayout i + k]?)) ∧
      (∀ j, j < s.firstDirtyDescriptorSet → ∀ k, k < declaredOffsets p.gpuPipelineLayout j →
        s1.curDynamicOffsets[offsetPosition p.gpuPipelineLayout j + k]?
          = (resizeZero s.curDynamicOffsets p.gpuPipelineLayout.dynamicOffsetCount)[
              offsetPosition p.gpuPipelineLayout j + k]?) := by
  have hfirst := hready.first_le
  obtain ⟨acc, hfold, hl1, hl2, hcopied, hkept⟩ :=
    flush_fold_offsets hready
      (p.gpuPipelineLayout.setLayouts.length - s.firstDirtyDescriptorSet)
      s.firstDirtyDescriptorSet
      (s.curVkDescriptorSets,
        resizeZero s.curDynamicOffsets p.gpuPipelineLayout.dynamicOffsetCount)
      (by omega) hready.vk_len (resizeZero_length _ _)
  have hflush := bindDescriptorSets_of_fold hready hw bindPoint hfold hl1
  refine ⟨_, _, hflush, hl2, ?_, ?_⟩
  · intro i hwi hin
    constructor
    · intro k hk
      exact hcopied i hwi (by omega) k hk
    · intro k hk1 hk2
      apply hkept
      intro j hj1 hj2
      have hminj : min (declaredOffsets p.gpuPipelineLayout j) (suppliedOffsets s j)
          ≤ declaredOffsets p.gpuPipelineLayout j := min_le_left _ _
      rcases Nat.lt_trichotomy i j with hlt | heq | hgt
      · have := hready.position_le (i := i) (j := j) hlt (by omega)
        omega
      · subst heq; omega
      · have := hready.position_le (i := j) (j := i) hgt (by omega)
        omega
  · intro j hj k hk
    apply hkept
    intro i hi1 hi2
    have := hready.position_le (i := j) (j := i) (by omega) (by omega)
    omega

theorem exDirtyShort_flushReady :
    FlushReady exDevice exDirtyShort (exPipeline .TRIANGLE_LIST exLayout3) where
  bound := rfl
  first_le := by show 1 ≤ 3; decide
  setCount_le := by show 3 ≤ 3; decide
  slots_u32 := by show 3 ≤ UINT_MAX; decide
  vk_len := rfl
  ptrs_len := rfl
  counts_len := rfl
  table_len := rfl
  table_mono := by
    show ∀ i, i < 3 → [0, 0, 2, 2].getD i 0 ≤ [0, 0, 2, 2].getD (i + 1) 0
    decide
  table_last := by show [0, 0, 2, 2].getD 3 0 ≤ 2; decide
  count_u32 := by show 2 ≤ UINT_MAX; decide
  instances := by
    intro ds hds
    have : ds = exSetB := by
      simpa [exDirtyShort, exDirty] using hds
    rw [this]
    decide
  supplied := by
    show ∀ i, i < 3 → min ([0, 0, 2, 2].getD (i + 1) 0 - [0, 0, 2, 2].getD i 0)
      ([0, 1, 0].getD i 0) ≤ ([[], [16], []].getD i []).length
    decide

/-- Instance of C22: the layout declares two dynamic offsets for set 1 and the caller supplied
one (16); the flush copies one value, and the second position keeps the 9 it held. -/
theorem C22_flush_copies_min_witness :
    exDirtyShort.firstDirtyDescriptorSet < exDirtyShort.curGPUDescriptorSets.length ∧
    exDirtyShort.curDynamicOffsets = [7, 9] ∧
    (bindDescriptorSets .VK_PIPELINE_BIND_POINT_GRAPHICS exDevice exDirtyShort).map
        (fun r => r.1.curDynamicOffsets) = some [16, 9] ∧
    (∃ s1 cmd, bindDescriptorSets .VK_PIPELINE_BIND_POINT_GRAPHICS exDevice exDirtyShort
        = some (s1, cmd) ∧ s1.curDynamicOffsets.length = 2) := by
  obtain ⟨s1, cmd, h1, h2, -⟩ := C22_flush_copies_min .VK_PIPELINE_BIND_POINT_GRAPHICS
    exDevice exDirtyShort _ exDirtyShort_flushReady (by decide)
  exact ⟨by decide, rfl, by decide, s1, cmd, h1, h2⟩

/-! ## Totality of the flush -/

theorem FlushPreconditions.ready {gpuDevice : CCVKGPUDevice} {s : CCVKCommandBuffer}
    {p : CCVKGPUPipelineState} (h : FlushPreconditions gpuDevice s p) :
    FlushReady gpuDevice s p where
  bound := h.bound
  first_le := by have := h.dirty; have := h.setCount; omega
  setCount_le := by rw [h.setCount]
  slots_u32 := h.slots_u32
  vk_len := h.vk_len
  ptrs_len := h.ptrs_len
  counts_len := h.counts_len
  table_len := h.table_len
  table_mono := h.table_mono
  table_last := by
    have := h.table_last
    unfold offsetPosition at this
    rw [this]
  count_u32 := h.count_u32
  instances := h.instances
  supplied := by
    intro i hi
    have := h.arrays i hi
    unfold suppliedOffsets suppliedArray at this
    exact le_trans (min_le_right _ _) this

/-- After `initialize` the recorder is configured with the set count of the device. -/
theorem configured_after_initialize (s : CCVKCommandBuffer) (type : CommandBufferType)
    (gpuCommandBuffer : CCVKGPUCommandBuffer) (setCount : Nat) :
    Configured setCount (initialize_ s type gpuCommandBuffer setCount).1 ∧
    (initialize_ s type gpuCommandBuffer setCount).2 = true := by
  have hlen : ∀ {α : Type} (v : List α) (d : α), (vectorResize v setCount d).length = setCount := by
    intro α v d
    unfold vectorResize
    rw [List.length_append, List.length_take, List.length_replicate]
    omega
  exact ⟨⟨hlen _ _, hlen _ _, hlen _ _, hlen _ _⟩, rfl⟩

/-- No `bindDescriptorSet` changes the configured set count. -/
theorem bindDescriptorSet_configured {setCount : Nat} {s s1 : CCVKCommandBuffer} {set : Nat}
    {descriptorSet : DescriptorSet} {dynamicOffsetCount : Nat} {dynamicOffsets : List Nat}
    (hc : Configured setCount s)
    (h : bindDescriptorSet s set descriptorSet dynamicOffsetCount dynamicOffsets = some s1) :
    Configured setCount s1 := by
  have hvk : s1.curVkDescriptorSets = s.curVkDescriptorSets := by
    unfold bindDescriptorSet at h
    split at h
    · simp only [Option.some.injEq] at h
      subst h
      split <;> split <;> rfl
    · exact Option.noConfusion h
  obtain ⟨-, hslots, hptrs, hcounts⟩ := bindDescriptorSet_vectors h
  refine ⟨?_, ?_, ?_, ?_⟩
  · rw [hslots, List.length_set]; exact hc.slots
  · rw [hvk]; exact hc.vk
  · rw [hptrs]
    split
    · rw [List.length_set]; exact hc.ptrs
    · exact hc.ptrs
  · rw [hcounts]
    split
    · rw [List.length_set]; exact hc.counts
    · exact hc.counts

theorem beginReset_configured {setCount : Nat} (pool : CCVKGPUCommandBufferPool)
    {s : CCVKCommandBuffer} (hc : Configured setCount s) :
    Configured setCount (beginReset pool s) :=
  ⟨by show (List.replicate _ _).length = _; rw [List.length_replicate]; exact hc.slots,
    hc.vk, hc.ptrs,
    by show (List.replicate _ _).length = _; rw [List.length_replicate]; exact hc.counts⟩

/-- No `begin` changes the configured set count. -/
theorem begin_configured {setCount : Nat} {pool : CCVKGPUCommandBufferPool}
    {s s1 : CCVKCommandBuffer} {renderPass : Option RenderPass} {subpass : Nat}
    {frameBuffer : Option Framebuffer} {calls : List LifecycleCall}
    (hc : Configured setCount s)
    (h : begin pool s renderPass subpass frameBuffer = some (s1, calls)) :
    Configured setCount s1 := by
  have hreset := beginReset_configured pool hc
  cases hb : s.gpuCommandBuffer.began with
  | true =>
    rw [begin_recording hb] at h
    simp only [Option.some.injEq, Prod.mk.injEq] at h
    rw [← h.1]
    exact hc
  | false =>
    have hnative : (s.type = CommandBufferType.PRIMARY ∨ renderPass ≠ none) →
        Configured setCount s1 := by
      intro hpass
      obtain ⟨beginInfo, hs1⟩ := begin_success hb hpass h
      simp only [beginNative, Prod.mk.injEq] at hs1
      rw [hs1.1]
      exact ⟨hreset.slots, hreset.vk, hreset.ptrs, hreset.counts⟩
    cases htype : s.type with
    | PRIMARY => exact hnative (Or.inl htype)
    | SECONDARY =>
      cases renderPass with
      | some rp => exact hnative (Or.inr (fun hn => Option.noConfusion hn))
      | none =>
        rw [begin_without_render_pass hb htype] at h
        simp only [Option.some.injEq, Prod.mk.injEq] at h
        rw [← h.1]
        exact hreset

/-- No `end` changes the configured set count. -/
theorem end_configured {setCount : Nat} (pool : CCVKGPUCommandBufferPool)
    {s : CCVKCommandBuffer} (hc : Configured setCount s) :
    Configured setCount (end_ pool s).1 := by
  cases hb : s.gpuCommandBuffer.began with
  | true => rw [end_recording hb]; exact ⟨hc.slots, hc.vk, hc.ptrs, hc.counts⟩
  | false => rw [end_idle hb]; exact hc

/-- The flush of a configured recorder, under the preconditions of the flush, leaves the
recorder configured. -/
theorem bindDescriptorSets_configured {setCount : Nat} {gpuDevice : CCVKGPUDevice}
    {s s1 : CCVKCommandBuffer} {p : CCVKGPUPipelineState} {bindPoint : VkPipelineBindPoint}
    {cmd : VkCmd} (hc : Configured setCount s) (h : FlushPreconditions gpuDevice s p)
    (hflush : bindDescriptorSets bindPoint gpuDevice s = some (s1, cmd)) :
    Configured setCount s1 := by
  have hready := h.ready
  have hfirst := hready.first_le
  obtain ⟨acc, hfold, hl1, -, -, -⟩ :=
    flush_fold_offsets hready
      (p.gpuPipelineLayout.setLayouts.length - s.firstDirtyDescriptorSet)
      s.firstDirtyDescriptorSet
      (s.curVkDescriptorSets,
        resizeZero s.curDynamicOffsets p.gpuPipelineLayout.dynamicOffsetCount)
      (by omega) hready.vk_len (resizeZero_length _ _)
  have hflush1 := bindDescriptorSets_of_fold hready h.dirty bindPoint hfold hl1
  rw [hflush] at hflush1
  simp only [Option.some.injEq, Prod.mk.injEq] at hflush1
  rw [hflush1.1]
  exact ⟨hc.slots, by show acc.1.length = setCount; rw [hl1]; exact hc.slots, hc.ptrs,
    hc.counts⟩

/-- A configured recorder meets the size conditions of the flush preconditions. -/
theorem Configured.sizes {setCount : Nat} {s : CCVKCommandBuffer} (hc : Configured setCount s) :
    s.curVkDescriptorSets.length = s.curGPUDescriptorSets.length ∧
    s.curDynamicOffsetPtrs.length = s.curGPUDescriptorSets.length ∧
    s.curDynamicOffsetCounts.length = s.curGPUDescriptorSets.length :=
  ⟨by rw [hc.vk, hc.slots], by rw [hc.ptrs, hc.slots], by rw [hc.counts, hc.slots]⟩

/-- Under the preconditions of the flush every `draw` and every `dispatch` is defined.  The first native call of the draw is the bind of
descriptor sets at the graphics bind point, no later call of the draw being one, and the two
native calls of the dispatch are the bind of descriptor sets at the compute bind point and the
dispatch call.  Both binds name the first set `w` and the set count minus `w` sets, taken from
the recorder's vector of native sets, which has an entry for every set; the dynamic-offset
count they pass is the table entry of the set count minus the table entry of `w`, neither
difference falling below zero; and the offsets they pass are the positions from the table
entry of `w` up to the table entry of the set count of the offset array, whose length is that
last table entry. -/
theorem flush_total_of_preconditions (gpuDevice : CCVKGPUDevice) (s : CCVKCommandBuffer)
    (p : CCVKGPUPipelineState) (ia : InputAssembler) (info : DispatchInfo)
    (h : FlushPreconditions gpuDevice s p) :
    ∃ curVk curDyn,
      (∃ s1 rest,
        draw gpuDevice s ia = some (s1,
          VkCmd.BindDescriptorSets VkPipelineBindPoint.VK_PIPELINE_BIND_POINT_GRAPHICS
            p.gpuPipelineLayout.vkPipelineLayout
            s.firstDirtyDescriptorSet
            (s.curGPUDescriptorSets.length - s.firstDirtyDescriptorSet)
            ((curVk.drop s.firstDirtyDescriptorSet).take
              (s.curGPUDescriptorSets.length - s.firstDirtyDescriptorSet))
            (offsetPosition p.gpuPipelineLayout s.curGPUDescriptorSets.length
              - offsetPosition p.gpuPipelineLayout s.firstDirtyDescriptorSet)
            ((curDyn.drop (offsetPosition p.gpuPipelineLayout s.firstDirtyDescriptorSet)).take
              (offsetPosition p.gpuPipelineLayout s.curGPUDescriptorSets.length
                - offsetPosition p.gpuPipelineLayout s.firstDirtyDescriptorSet))
          :: rest) ∧
        ∀ c ∈ rest, c.isBindDescriptorSets = false) ∧
      dispatch gpuDevice s info =
        some ({ s with
                curVkDescriptorSets := curVk
                curDynamicOffsets := curDyn
                firstDirtyDescriptorSet := UINT_MAX },
          [VkCmd.BindDescriptorSets VkPipelineBindPoint.VK_PIPELINE_BIND_POINT_COMPUTE
            p.gpuPipelineLayout.vkPipelineLayout
            s.firstDirtyDescriptorSet
            (s.curGPUDescriptorSets.length - s.firstDirtyDescriptorSet)
            ((curVk.drop s.firstDirtyDescriptorSet).take
              (s.curGPUDescriptorSets.length - s.firstDirtyDescriptorSet))
            (offsetPosition p.gpuPipelineLayout s.curGPUDescriptorSets.length
              - offsetPosition p.gpuPipelineLayout s.firstDirtyDescriptorSet)
            ((curDyn.drop (offsetPosition p.gpuPipelineLayout s.firstDirtyDescriptorSet)).take
              (offsetPosition p.gpuPipelineLayout s.curGPUDescriptorSets.length
                - offsetPosition p.gpuPipelineLayout s.firstDirtyDescriptorSet)),
            dispatchCmd info]) ∧
      s.firstDirtyDescriptorSet ≤ s.curGPUDescriptorSets.length ∧
      s.firstDirtyDescriptorSet
          + (s.curGPUDescriptorSets.length - s.firstDirtyDescriptorSet)
        = curVk.length ∧
      offsetPosition p.gpuPipelineLayout s.firstDirtyDescriptorSet
        ≤ offsetPosition p.gpuPipelineLayout s.curGPUDescriptorSets.length ∧
      offsetPosition p.gpuPipelineLayout s.curGPUDescriptorSets.length = curDyn.length := by
  have hready := h.ready
  have hfirst := hready.first_le
  obtain ⟨acc, hfold, hl1, hl2, -, -⟩ :=
    flush_fold_offsets hready
      (p.gpuPipelineLayout.setLayouts.length - s.firstDirtyDescriptorSet)
      s.firstDirtyDescriptorSet
      (s.curVkDescriptorSets,
        resizeZero s.curDynamicOffsets p.gpuPipelineLayout.dynamicOffsetCount)
      (by omega) hready.vk_len (resizeZero_length _ _)
  have hflush := fun bindPoint => bindDescriptorSets_of_fold hready h.dirty bindPoint hfold hl1
  rw [h.setCount] at hflush
  have hguard : ∀ bindPoint, flushIfDirty bindPoint gpuDevice s
      = (bindDescriptorSets bindPoint gpuDevice s).map (fun r => (r.1, [r.2])) := by
    intro bindPoint
    unfold flushIfDirty
    rw [if_pos h.dirty]
  refine ⟨acc.1, acc.2, ?_, ?_, Nat.le_of_lt h.dirty, ?_, ?_, ?_⟩
  · have hg := hguard VkPipelineBindPoint.VK_PIPELINE_BIND_POINT_GRAPHICS
    rw [hflush, Option.map_some'] at hg
    obtain ⟨s2, rest, hdraw, hrest, -⟩ := draw_after_guard ia hg
    exact ⟨s2, rest, hdraw, hrest⟩
  · have hg := hguard VkPipelineBindPoint.VK_PIPELINE_BIND_POINT_COMPUTE
    rw [hflush, Option.map_some'] at hg
    exact dispatch_eq hg
  · rw [hl1]; have := h.dirty; omega
  · have := hready.table_le (s.curGPUDescriptorSets.length - s.firstDirtyDescriptorSet)
      s.firstDirtyDescriptorSet (by rw [h.setCount]; have := h.dirty; omega)
    have e : s.firstDirtyDescriptorSet
        + (s.curGPUDescriptorSets.length - s.firstDirtyDescriptorSet)
        = s.curGPUDescriptorSets.length := by have := h.dirty; omega
    rw [e] at this
    exact this
  · rw [hl2, ← h.table_last, h.setCount]

/-- C27, with the preconditions the flush needs.  Let the recorder be configured with
`setCount` sets (its four per-set vectors have that size, as `initialize` leaves them), a
pipeline be bound whose layout has exactly `setCount` sets and whose offset table has
`setCount + 1` entries, is non-decreasing and ends at the layout's dynamic-offset count, and
the watermark `w` be below `setCount`, the set count and the dynamic-offset count being 32-bit
values; let moreover every bound descriptor set have an instance for the current back buffer
and every array the caller supplied hold as many values as the count supplied with it.  Then
every `draw` and every `dispatch` is defined.  The first native call of the draw is the bind
of descriptor sets at the graphics bind point, no later call of the draw being one, and the
two native calls of the dispatch are the bind of descriptor sets at the compute bind point and
the dispatch call.  Both binds name the first set `w` and `setCount - w` sets, taken from the
recorder's vector of native sets, which has an entry for every set; the dynamic-offset count
they pass is the table entry of `setCount` minus the table entry of `w`, neither difference
falling below zero; and the offsets they pass are the positions from the table entry of `w` up
to the table entry of `setCount` of the offset array, whose length is that last table
entry. -/
theorem C27_flush_total (gpuDevice : CCVKGPUDevice) (s : CCVKCommandBuffer)
    (p : CCVKGPUPipelineState) (ia : InputAssembler) (info : DispatchInfo) (setCount : Nat)
    (hconfigured : Configured setCount s)
    (hbound : s.curGPUPipelineState = some p)
    (hdirty : s.firstDirtyDescriptorSet < setCount)
    (hsets : p.gpuPipelineLayout.setLayouts.length = setCount)
    (htable_len : p.gpuPipelineLayout.dynamicOffsetOffsets.length = setCount + 1)
    (htable_mono : ∀ i, i < setCount →
      offsetPosition p.gpuPipelineLayout i ≤ offsetPosition p.gpuPipelineLayout (i + 1))
    (htable_last : offsetPosition p.gpuPipelineLayout setCount
      = p.gpuPipelineLayout.dynamicOffsetCount)
    (hsets_u32 : setCount ≤ UINT_MAX)
    (hcount_u32 : p.gpuPipelineLayout.dynamicOffsetCount ≤ UINT_MAX)
    (hinstances : ∀ ds, some ds ∈ s.curGPUDescriptorSets →
      gpuDevice.curBackBufferIndex < ds.instances.length)
    (harrays : ∀ i, i < setCount → suppliedOffsets s i ≤ (suppliedArray s i).length) :
    ∃ curVk curDyn,
      (∃ s1 rest,
        draw gpuDevice s ia = some (s1,
          VkCmd.BindDescriptorSets VkPipelineBindPoint.VK_PIPELINE_BIND_POINT_GRAPHICS
            p.gpuPipelineLayout.vkPipelineLayout
            s.firstDirtyDescriptorSet
            (setCount - s.firstDirtyDescriptorSet)
            ((curVk.drop s.firstDirtyDescriptorSet).take (setCount - s.firstDirtyDescriptorSet))
            (offsetPosition p.gpuPipelineLayout setCount
              - offsetPosition p.gpuPipelineLayout s.firstDirtyDescriptorSet)
            ((curDyn.drop (offsetPosition p.gpuPipelineLayout s.firstDirtyDescriptorSet)).take
              (offsetPosition p.gpuPipelineLayout setCount
                - offsetPosition p.gpuPipelineLayout s.firstDirtyDescriptorSet))
          :: rest) ∧
        ∀ c ∈ rest, c.isBindDescriptorSets = false) ∧
      dispatch gpuDevice s info =
        some ({ s with
                curVkDescriptorSets := curVk
                curDynamicOffsets := curDyn
                firstDirtyDescriptorSet := UINT_MAX },
          [VkCmd.BindDescriptorSets VkPipelineBindPoint.VK_PIPELINE_BIND_POINT_COMPUTE
            p.gpuPipelineLayout.vkPipelineLayout
            s.firstDirtyDescriptorSet
            (setCount - s.firstDirtyDescriptorSet)
            ((curVk.drop s.firstDirtyDescriptorSet).take (setCount - s.firstDirtyDescriptorSet))
            (offsetPosition p.gpuPipelineLayout setCount
              - offsetPosition p.gpuPipelineLayout s.firstDirtyDescriptorSet)
            ((curDyn.drop (offsetPosition p.gpuPipelineLayout s.firstDirtyDescriptorSet)).take
              (offsetPosition p.gpuPipelineLayout setCount
                - offsetPosition p.gpuPipelineLayout s.firstDirtyDescriptorSet)),
            dispatchCmd info]) ∧
      s.firstDirtyDescriptorSet ≤ setCount ∧
      s.firstDirtyDescriptorSet + (setCount - s.firstDirtyDescriptorSet) = curVk.length ∧
      curVk.length = setCount ∧
      offsetPosition p.gpuPipelineLayout s.firstDirtyDescriptorSet
        ≤ offsetPosition p.gpuPipelineLayout setCount ∧
      offsetPosition p.gpuPipelineLayout setCount = curDyn.length := by
  obtain ⟨hslots, hvk, hptrs, hcounts⟩ := hconfigured
  subst hslots
  have h : FlushPreconditions gpuDevice s p :=
    { bound := hbound
      dirty := hdirty
      setCount := hsets
      table_len := by rw [htable_len, hsets]
      table_mono := by rw [hsets]; exact htable_mono
      table_last := by rw [hsets]; exact htable_last
      vk_len := hvk
      ptrs_len := hptrs
      counts_len := hcounts
      slots_u32 := hsets_u32
      count_u32 := hcount_u32
      instances := hinstances
      arrays := by rw [hsets]; exact harrays }
  obtain ⟨curVk, curDyn, hdraw, hdispatch, h1, h2, h3, h4⟩ :=
    flush_total_of_preconditions gpuDevice s p ia info h
  exact ⟨curVk, curDyn, hdraw, hdispatch, h1, h2, by omega, h3, h4⟩

theorem exDirty_flushPreconditions (primitive : PrimitiveMode) :
    FlushPreconditions exDevice (exDirty primitive exLayout3)
      (exPipeline primitive exLayout3) where
  bound := rfl
  dirty := by show 1 < 3; decide
  setCount := rfl
  table_len := rfl
  table_mono := by
    show ∀ i, i < 3 → [0, 0, 2, 2].getD i 0 ≤ [0, 0, 2, 2].getD (i + 1) 0
    decide
  table_last := rfl
  vk_len := rfl
  ptrs_len := rfl
  counts_len := rfl
  slots_u32 := by show 3 ≤ UINT_MAX; decide
  count_u32 := by show 2 ≤ UINT_MAX; decide
  instances := (exDirty_flushReady primitive).instances
  arrays := by
    show ∀ i, i < 3 → [0, 2, 0].getD i 0 ≤ ([[], [16, 32], []].getD i []).length
    decide

/-- Instance of C27: on a recorder configured with three sets whose watermark is 1, a draw and
a dispatch bind the two sets 1 and 2 with the two dynamic offsets of set 1, the draw at the
graphics bind point and the dispatch at the compute bind point. -/
theorem C27_flush_total_witness :
    Configured 3 (exDirty .TRIANGLE_LIST exLayout3) ∧
    (exDirty .TRIANGLE_LIST exLayout3).firstDirtyDescriptorSet = 1 ∧
    exLayout3.dynamicOffsetOffsets = [0, 0, 2, 2] ∧
    (draw exDevice (exDirty .TRIANGLE_LIST exLayout3) (exIA 3 1)).isSome ∧
    (dispatch exDevice (exDirty .TRIANGLE_LIST exLayout3) exDispatch).isSome ∧
    (draw exDevice (exDirty .TRIANGLE_LIST exLayout3) (exIA 3 1)).map (fun r => r.2)
      = some [VkCmd.BindDescriptorSets .VK_PIPELINE_BIND_POINT_GRAPHICS 50 1 2 [601, 902] 2
          [16, 32], VkCmd.Draw 3 1 0 0] ∧
    (dispatch exDevice (exDirty .TRIANGLE_LIST exLayout3) exDispatch).map (fun r => r.2)
      = some [VkCmd.BindDescriptorSets .VK_PIPELINE_BIND_POINT_COMPUTE 50 1 2 [601, 902] 2
          [16, 32], VkCmd.Dispatch 4 2 1] := by
  have hc : Configured 3 (exDirty .TRIANGLE_LIST exLayout3) := ⟨rfl, rfl, rfl, rfl⟩
  have hp := exDirty_flushPreconditions .TRIANGLE_LIST
  obtain ⟨curVk, curDyn, ⟨s1, rest, hdraw, -⟩, hdispatch, -⟩ :=
    C27_flush_total exDevice (exDirty .TRIANGLE_LIST exLayout3)
      (exPipeline .TRIANGLE_LIST exLayout3) (exIA 3 1) exDispatch 3 hc rfl (by decide) rfl rfl
      hp.table_mono rfl (by decide) (by decide) hp.instances hp.arrays
  refine ⟨hc, rfl, rfl, ?_, ?_, by decide, by decide⟩
  · rw [hdraw]; rfl
  · rw [hdispatch]; rfl

/-- Refutation of C27 as stated.  On a recorder configured with three sets whose four per-set
vectors have three entries, a pipeline is bound whose layout has three sets and the offset
table 0, 0, 2, 2 with dynamic-offset count 2, and the watermark is 1: the preconditions the
claim lists hold.  Set 1 is bound to a descriptor set with two instances, and the device's
current back buffer is the third one: the flush indexes the instances at index 2, outside
them, and neither the flush nor a draw nor a dispatch is defined.  Likewise, with the current
back buffer the first one, when the array supplied for set 1 with the count 2 holds one value
the flush copies two values from it, and is not defined. -/
theorem C27_counterexample :
    (exDirty .TRIANGLE_LIST exLayout3).curGPUPipelineState
      = some (exPipeline .TRIANGLE_LIST exLayout3) ∧
    (exPipeline .TRIANGLE_LIST exLayout3).gpuPipelineLayout = exLayout3 ∧
    (exDirty .TRIANGLE_LIST exLayout3).firstDirtyDescriptorSet = 1 ∧
    (exDirty .TRIANGLE_LIST exLayout3).curGPUDescriptorSets.length = 3 ∧
    (exDirty .TRIANGLE_LIST exLayout3).curVkDescriptorSets.length = 3 ∧
    (exDirty .TRIANGLE_LIST exLayout3).curDynamicOffsetPtrs.length = 3 ∧
    (exDirty .TRIANGLE_LIST exLayout3).curDynamicOffsetCounts.length = 3 ∧
    exLayout3.setLayouts.length = 3 ∧
    exLayout3.dynamicOffsetOffsets = [0, 0, 2, 2] ∧
    exLayout3.dynamicOffsetCount = 2 ∧
    (exDirty .TRIANGLE_LIST exLayout3).curGPUDescriptorSets = [none, some exSetB, none] ∧
    exSetB.instances.length = 2 ∧
    exDeviceThirdBuffer.curBackBufferIndex = 2 ∧
    bindDescriptorSets .VK_PIPELINE_BIND_POINT_GRAPHICS exDeviceThirdBuffer
      (exDirty .TRIANGLE_LIST exLayout3) = none ∧
    draw exDeviceThirdBuffer (exDirty .TRIANGLE_LIST exLayout3) (exIA 3 1) = none ∧
    dispatch exDeviceThirdBuffer (exDirty .TRIANGLE_LIST exLayout3) exDispatch = none ∧
    exDirtyShortArray.curDynamicOffsetPtrs = [[], [16], []] ∧
    exDirtyShortArray.curDynamicOffsetCounts = [0, 2, 0] ∧
    draw exDevice exDirtyShortArray (exIA 3 1) = none ∧
    dispatch exDevice exDirtyShortArray exDispatch = none := by
  decide

end CCVKCommandBuffer

end CCVK
